import Mathlib

/-!
# Scene manager: resource registry and draw configuration

A shallow embedding of `Source/SceneManager.cpp`.  The class `SceneManager`
becomes a record of its data members, and every member function becomes a
function that takes the record and returns the updated record.

* Values of type `float` are elements of a scalar type `F`.  Where the code
  only stores and forwards them `F` is arbitrary; where it computes with them
  `F` is a commutative ring, so rounding is not part of the model.
* A call that would read or write outside the texture array, or call through a
  null `m_pShaderManager`, has undefined behaviour in C++; the embedding
  returns a `Fault` there instead of a value.
* The `while` loops run on fuel; the theorems show the fuel given is enough.

`Source/ViewManager.cpp` is embedded the same way: the class `ViewManager`
together with the file-scope variables of its anonymous namespace is one
record.  There the values of type `float` and of type `double` are elements
of one ordered field `F`, and what GLFW reports (key states, the clock, cursor
and scroll values) is an input of the functions.  `Mouse_Position_Callback`
receives `double` cursor positions and keeps them in `float` variables: there
the rounding to `float` and to `double` is explicit, as the parameter
`Rounding` of the embedding.

The scene content (`LoadSceneTextures`, `DefineObjectMaterials`, `RenderScene`)
is straight-line code: `RenderScene` is embedded as the list of the calls it
makes, with the argument values its local variables hold at each call, and
every draw call of the mesh library records the uniforms uploaded so far.
-/

/-- Ways in which a member function can fail to return. -/
inductive Fault where
  /-- An access `m_textureIDs[index]` with `index` past the end of the array. -/
  | arrayOutOfBounds (index : Nat)
  /-- A call through `m_pShaderManager` while it is `NULL`. -/
  | nullShaderManager
  /-- The loop fuel of the embedding ran out. -/
  | outOfFuel
  /-- A member access through `g_pCamera` while it is `nullptr`. -/
  | nullCamera
  deriving DecidableEq, Repr

namespace glm

/-- Two-component vector `glm::vec2`. -/
structure vec2 (F : Type) where
  x : F
  y : F
  deriving DecidableEq, Repr

/-- Three-component vector `glm::vec3`. -/
structure vec3 (F : Type) where
  x : F
  y : F
  z : F
  deriving DecidableEq, Repr

/-- Four-component vector `glm::vec4`; `r g b a` in the source are aliases of
`x y z w`. -/
structure vec4 (F : Type) where
  x : F
  y : F
  z : F
  w : F
  deriving DecidableEq, Repr

/-- Column-major 4x4 matrix `glm::mat4`: `c0 .. c3` are its columns, so the
C++ expression `m[c][r]` is component `r` of column `c`. -/
structure mat4 (F : Type) where
  c0 : vec4 F
  c1 : vec4 F
  c2 : vec4 F
  c3 : vec4 F
  deriving DecidableEq, Repr

/-- The scalar functions of the C math library that GLM calls, and the
constant `0.01745329251994329576923690768489` (pi/180) that `glm::radians`
multiplies by.  They are parameters of the embedding. -/
structure ScalarFns (F : Type) where
  sin : F → F
  cos : F → F
  inversesqrt : F → F
  piOver180 : F

section
variable {F : Type} [CommRing F]

/-- External library GLM: `vec4 * scalar`, componentwise. -/
def vec4.smul (v : vec4 F) (s : F) : vec4 F :=
  { x := v.x * s, y := v.y * s, z := v.z * s, w := v.w * s }

/-- External library GLM: `vec4 + vec4`, componentwise. -/
def vec4.add (a b : vec4 F) : vec4 F :=
  { x := a.x + b.x, y := a.y + b.y, z := a.z + b.z, w := a.w + b.w }

/-- External library GLM: `vec3 * scalar`, componentwise. -/
def vec3.smul (v : vec3 F) (s : F) : vec3 F :=
  { x := v.x * s, y := v.y * s, z := v.z * s }

/-- External library GLM: `glm::dot` on `vec3`. -/
def dot (a b : vec3 F) : F :=
  a.x * b.x + a.y * b.y + a.z * b.z

/-- External library GLM: `glm::normalize(v) = v * inversesqrt(dot(v, v))`. -/
def normalize (fns : ScalarFns F) (v : vec3 F) : vec3 F :=
  v.smul (fns.inversesqrt (dot v v))

/-- External library GLM: `glm::radians(degrees)`. -/
def radians (fns : ScalarFns F) (degrees : F) : F :=
  degrees * fns.piOver180

/-- External library GLM: the constructor `mat4(1.0f)`, the identity. -/
def mat4.identity : mat4 F :=
  { c0 := { x := 1, y := 0, z := 0, w := 0 }
    c1 := { x := 0, y := 1, z := 0, w := 0 }
    c2 := { x := 0, y := 0, z := 1, w := 0 }
    c3 := { x := 0, y := 0, z := 0, w := 1 } }

/-- External library GLM: `operator*(mat4, mat4)`; column `j` of the result is
`m1[0] * m2[j][0] + m1[1] * m2[j][1] + m1[2] * m2[j][2] + m1[3] * m2[j][3]`. -/
def mat4.mul (m1 m2 : mat4 F) : mat4 F :=
  let col (b : vec4 F) : vec4 F :=
    (((m1.c0.smul b.x).add (m1.c1.smul b.y)).add (m1.c2.smul b.z)).add (m1.c3.smul b.w)
  { c0 := col m2.c0, c1 := col m2.c1, c2 := col m2.c2, c3 := col m2.c3 }

/-- External library GLM: `operator*(mat4, vec4)`, the matrix applied to a
column vector. -/
def mat4.mulVec (m : mat4 F) (v : vec4 F) : vec4 F :=
  { x := m.c0.x * v.x + m.c1.x * v.y + m.c2.x * v.z + m.c3.x * v.w
    y := m.c0.y * v.x + m.c1.y * v.y + m.c2.y * v.z + m.c3.y * v.w
    z := m.c0.z * v.x + m.c1.z * v.y + m.c2.z * v.z + m.c3.z * v.w
    w := m.c0.w * v.x + m.c1.w * v.y + m.c2.w * v.z + m.c3.w * v.w }

/-- External library GLM: `glm::translate(m, v)`; the last column becomes
`m[0] * v[0] + m[1] * v[1] + m[2] * v[2] + m[3]`. -/
def translateM (m : mat4 F) (v : vec3 F) : mat4 F :=
  { m with c3 := (((m.c0.smul v.x).add (m.c1.smul v.y)).add (m.c2.smul v.z)).add m.c3 }

/-- External library GLM: `glm::scale(m, v)`. -/
def scaleM (m : mat4 F) (v : vec3 F) : mat4 F :=
  { c0 := m.c0.smul v.x, c1 := m.c1.smul v.y, c2 := m.c2.smul v.z, c3 := m.c3 }

/-- External library GLM: `glm::rotate(m, angle, v)`, rotation by `angle`
radians about the axis `v`, which is normalised first. -/
def rotateM (fns : ScalarFns F) (m : mat4 F) (angle : F) (v : vec3 F) : mat4 F :=
  let c := fns.cos angle
  let s := fns.sin angle
  let axis := normalize fns v
  let temp : vec3 F := { x := (1 - c) * axis.x, y := (1 - c) * axis.y, z := (1 - c) * axis.z }
  let r00 := c + temp.x * axis.x
  let r01 := temp.x * axis.y + s * axis.z
  let r02 := temp.x * axis.z - s * axis.y
  let r10 := temp.y * axis.x - s * axis.z
  let r11 := c + temp.y * axis.y
  let r12 := temp.y * axis.z + s * axis.x
  let r20 := temp.z * axis.x + s * axis.y
  let r21 := temp.z * axis.y - s * axis.x
  let r22 := c + temp.z * axis.z
  { c0 := ((m.c0.smul r00).add (m.c1.smul r01)).add (m.c2.smul r02)
    c1 := ((m.c0.smul r10).add (m.c1.smul r11)).add (m.c2.smul r12)
    c2 := ((m.c0.smul r20).add (m.c1.smul r21)).add (m.c2.smul r22)
    c3 := m.c3 }

/-- External library GLM (`gtx/transform.hpp`): `glm::translate(v)`. -/
def translate (v : vec3 F) : mat4 F :=
  translateM mat4.identity v

/-- External library GLM (`gtx/transform.hpp`): `glm::rotate(angle, v)`. -/
def rotate (fns : ScalarFns F) (angle : F) (v : vec3 F) : mat4 F :=
  rotateM fns mat4.identity angle v

/-- External library GLM (`gtx/transform.hpp`): `glm::scale(v)`. -/
def scale (v : vec3 F) : mat4 F :=
  scaleM mat4.identity v

/-- The mathematical matrix a `mat4` stands for: entry `(r, c)` is component
`r` of column `c`. -/
def mat4.toMatrix (m : mat4 F) : Matrix (Fin 4) (Fin 4) F :=
  !![m.c0.x, m.c1.x, m.c2.x, m.c3.x;
     m.c0.y, m.c1.y, m.c2.y, m.c3.y;
     m.c0.z, m.c1.z, m.c2.z, m.c3.z;
     m.c0.w, m.c1.w, m.c2.w, m.c3.w]

end

end glm

/-- Modelled from the spec: the value kinds accepted by the uniform-upload
layer (`ShaderManager`, not among the sources): scalar, vector(2/3/4),
matrix(4x4), bool/int, and a sampler slot index. -/
inductive UniformValue (F : Type) where
  | int (v : Int)
  | bool (v : Bool)
  | float (v : F)
  | vec2 (v : glm.vec2 F)
  | vec3 (v : glm.vec3 F)
  | vec4 (v : glm.vec4 F)
  | mat4 (v : glm.mat4 F)
  | sampler2D (slot : Int)
  deriving DecidableEq, Repr

/-- Modelled from the spec: the shader/uniform-upload layer (`ShaderManager`,
not among the sources) is an opaque "set uniform" operation on independent
"last write wins" slots.  The record keeps every upload made, newest first. -/
structure ShaderManager (F : Type) where
  uploads : List (String × UniformValue F)
  deriving DecidableEq, Repr

namespace ShaderManager

variable {F : Type}

/-- Record one upload of `value` under `name`. -/
def setValue (self : ShaderManager F) (name : String) (value : UniformValue F) :
    ShaderManager F :=
  { uploads := (name, value) :: self.uploads }

/-- Modelled from the spec: `setIntValue(name, value)`. -/
def setIntValue (self : ShaderManager F) (name : String) (value : Int) : ShaderManager F :=
  self.setValue name (.int value)

/-- Modelled from the spec: `setBoolValue(name, value)`. -/
def setBoolValue (self : ShaderManager F) (name : String) (value : Bool) : ShaderManager F :=
  self.setValue name (.bool value)

/-- Modelled from the spec: `setFloatValue(name, value)`. -/
def setFloatValue (self : ShaderManager F) (name : String) (value : F) : ShaderManager F :=
  self.setValue name (.float value)

/-- Modelled from the spec: `setVec2Value(name, value)`. -/
def setVec2Value (self : ShaderManager F) (name : String) (value : glm.vec2 F) :
    ShaderManager F :=
  self.setValue name (.vec2 value)

/-- Modelled from the spec: `setVec3Value(name, value)`. -/
def setVec3Value (self : ShaderManager F) (name : String) (value : glm.vec3 F) :
    ShaderManager F :=
  self.setValue name (.vec3 value)

/-- Modelled from the spec: `setVec4Value(name, value)`. -/
def setVec4Value (self : ShaderManager F) (name : String) (value : glm.vec4 F) :
    ShaderManager F :=
  self.setValue name (.vec4 value)

/-- Modelled from the spec: `setMat4Value(name, value)`. -/
def setMat4Value (self : ShaderManager F) (name : String) (value : glm.mat4 F) :
    ShaderManager F :=
  self.setValue name (.mat4 value)

/-- Modelled from the spec: `setSampler2DValue(name, slotIndex)`. -/
def setSampler2DValue (self : ShaderManager F) (name : String) (slot : Int) :
    ShaderManager F :=
  self.setValue name (.sampler2D slot)

/-- Current value of the uniform `name`: the newest upload under that name,
`none` when the uniform was never uploaded. -/
def uniform (self : ShaderManager F) (name : String) : Option (UniformValue F) :=
  (self.uploads.find? (fun e => e.1 == name)).map Prod.snd

end ShaderManager

/-- Modelled from the spec: `TEXTURE_INFO` is declared in `SceneManager.h`, not
among the sources: a texture slot `{tag, handle}`.  The handle is an integer
so that it can hold the placeholder `-1` the constructor stores. -/
structure TEXTURE_INFO where
  tag : String
  ID : Int
  deriving DecidableEq, Repr

/-- Modelled from the spec: `OBJECT_MATERIAL` is declared in `SceneManager.h`,
not among the sources: `{tag, ambientColor, ambientStrength, diffuseColor,
specularColor, shininess}`. -/
structure OBJECT_MATERIAL (F : Type) where
  ambientColor : glm.vec3 F
  ambientStrength : F
  diffuseColor : glm.vec3 F
  specularColor : glm.vec3 F
  shininess : F
  tag : String
  deriving DecidableEq, Repr

/-- Result of the image decoder `stbi_load` when it succeeds: the dimensions
and the channel count it writes through its out-parameters. -/
structure Image where
  width : Int
  height : Int
  colorChannels : Int
  deriving DecidableEq, Repr

def g_ModelName : String := "model"
def g_ColorValueName : String := "objectColor"
def g_TextureValueName : String := "objectTexture"
def g_UseTextureName : String := "bUseTexture"
def g_UseLightingName : String := "bUseLighting"

/-- Data members of the class `SceneManager`.  `m_textureIDs` is the fixed
array of texture slots (its length is the array size), `m_pShaderManager` is
`none` for a null pointer.  The mesh object `m_basicMeshes` belongs to the
external mesh library and is left out. -/
structure SceneManager (F : Type) where
  m_pShaderManager : Option (ShaderManager F)
  m_textureIDs : List TEXTURE_INFO
  m_loadedTextures : Nat
  m_objectMaterials : List (OBJECT_MATERIAL F)
  deriving DecidableEq, Repr

namespace SceneManager

variable {F : Type}

/-- The constructor `SceneManager(pShaderManager)`: no texture loaded, all 16
array entries set to the placeholder `{"/0", -1}`, no material. -/
def new (pShaderManager : Option (ShaderManager F)) : SceneManager F :=
  { m_pShaderManager := pShaderManager
    m_textureIDs := List.replicate 16 { tag := "/0", ID := -1 }
    m_loadedTextures := 0
    m_objectMaterials := [] }

/-- Member function `CreateGLTexture(filename, tag)`.  `image` is what `stbi_load` returns for
`filename` (`none` for a null pointer) and `textureID` the handle that
`glGenTextures` hands out; the OpenGL calls themselves are external.  The
result is the returned `bool` with the updated object. -/
def CreateGLTexture (self : SceneManager F) (image : Option Image) (textureID : Nat)
    (tag : String) : Except Fault (Bool × SceneManager F) :=
  match image with
  | some img =>
    if img.colorChannels = 3 ∨ img.colorChannels = 4 then
      if self.m_loadedTextures < self.m_textureIDs.length then
        .ok (true,
          { self with
            m_textureIDs :=
              self.m_textureIDs.set self.m_loadedTextures { tag := tag, ID := textureID }
            m_loadedTextures := self.m_loadedTextures + 1 })
      else
        .error (.arrayOutOfBounds self.m_loadedTextures)
    else
      .ok (false, self)
  | none => .ok (false, self)

/-- The `while` loop of `FindTextureSlot` with its variables `index`,
`textureSlot` and `bFound`; the first argument is the fuel. -/
def FindTextureSlot.loop (self : SceneManager F) (tag : String) :
    Nat → Nat → Int → Bool → Except Fault Int
  | 0, _, _, _ => .error .outOfFuel
  | fuel + 1, index, textureSlot, bFound =>
    if index < self.m_loadedTextures ∧ bFound = false then
      match self.m_textureIDs[index]? with
      | none => .error (.arrayOutOfBounds index)
      | some t =>
        if t.tag = tag then
          FindTextureSlot.loop self tag fuel index (index : Int) true
        else
          FindTextureSlot.loop self tag fuel (index + 1) textureSlot bFound
    else
      .ok textureSlot

/-- Member function `FindTextureSlot(tag)`. -/
def FindTextureSlot (self : SceneManager F) (tag : String) : Except Fault Int :=
  FindTextureSlot.loop self tag (self.m_loadedTextures + 2) 0 (-1) false

/-- The `while` loop of `FindMaterial` with its variables `index`, `bFound`
and the out-parameter `material`; the first argument is the fuel.  On a match
the five fields are copied into `material`, whose `tag` is not assigned. -/
def FindMaterial.loop (self : SceneManager F) (tag : String) :
    Nat → Nat → Bool → OBJECT_MATERIAL F → Except Fault (OBJECT_MATERIAL F)
  | 0, _, _, _ => .error .outOfFuel
  | fuel + 1, index, bFound, material =>
    if h : index < self.m_objectMaterials.length ∧ bFound = false then
      let m := self.m_objectMaterials.get ⟨index, h.1⟩
      if m.tag = tag then
        FindMaterial.loop self tag fuel index true
          { material with
            ambientColor := m.ambientColor
            ambientStrength := m.ambientStrength
            diffuseColor := m.diffuseColor
            specularColor := m.specularColor
            shininess := m.shininess }
      else
        FindMaterial.loop self tag fuel (index + 1) bFound material
    else
      .ok material

/-- Member function `FindMaterial(tag, material)`: the returned `bool` with the final contents
of the out-parameter `material`.  After the loop the code executes
`return(true)`, whatever `bFound` is. -/
def FindMaterial (self : SceneManager F) (tag : String) (material : OBJECT_MATERIAL F) :
    Except Fault (Bool × OBJECT_MATERIAL F) :=
  if self.m_objectMaterials.length = 0 then
    .ok (false, material)
  else
    match FindMaterial.loop self tag (self.m_objectMaterials.length + 2) 0 false material with
    | .error e => .error e
    | .ok out => .ok (true, out)

/-- Member function `SetTransformations(scaleXYZ, XrotationDegrees, YrotationDegrees,
ZrotationDegrees, positionXYZ)`: the matrix `modelView` the function builds. -/
def SetTransformations.modelView [CommRing F] (fns : glm.ScalarFns F) (scaleXYZ : glm.vec3 F)
    (XrotationDegrees YrotationDegrees ZrotationDegrees : F) (positionXYZ : glm.vec3 F) :
    glm.mat4 F :=
  let scale := glm.scale scaleXYZ
  let rotationX := glm.rotate fns (glm.radians fns XrotationDegrees) { x := 1, y := 0, z := 0 }
  let rotationY := glm.rotate fns (glm.radians fns YrotationDegrees) { x := 0, y := 1, z := 0 }
  let rotationZ := glm.rotate fns (glm.radians fns ZrotationDegrees) { x := 0, y := 0, z := 1 }
  let translation := glm.translate positionXYZ
  (((translation.mul rotationX).mul rotationY).mul rotationZ).mul scale

/-- Member function `SetTransformations(...)`: uploads `modelView` as the uniform `model` when
the shader manager is not null. -/
def SetTransformations [CommRing F] (self : SceneManager F) (fns : glm.ScalarFns F)
    (scaleXYZ : glm.vec3 F) (XrotationDegrees YrotationDegrees ZrotationDegrees : F)
    (positionXYZ : glm.vec3 F) : SceneManager F :=
  let modelView := SetTransformations.modelView fns scaleXYZ XrotationDegrees
    YrotationDegrees ZrotationDegrees positionXYZ
  match self.m_pShaderManager with
  | some sh => { self with m_pShaderManager := some (sh.setMat4Value g_ModelName modelView) }
  | none => self

/-- Member function `SetShaderColor(redColorValue, greenColorValue, blueColorValue,
alphaValue)`.  The `bool` literal `false` passed to `setIntValue` is the
integer 0. -/
def SetShaderColor (self : SceneManager F)
    (redColorValue greenColorValue blueColorValue alphaValue : F) : SceneManager F :=
  let currentColor : glm.vec4 F :=
    { x := redColorValue, y := greenColorValue, z := blueColorValue, w := alphaValue }
  match self.m_pShaderManager with
  | some sh =>
    { self with
      m_pShaderManager :=
        some ((sh.setIntValue g_UseTextureName 0).setVec4Value g_ColorValueName currentColor) }
  | none => self

/-- Member function `SetShaderTexture(textureTag)`.  The `bool` literal `true` passed to
`setIntValue` is the integer 1. -/
def SetShaderTexture (self : SceneManager F) (textureTag : String) :
    Except Fault (SceneManager F) :=
  match self.m_pShaderManager with
  | some sh =>
    let sh1 := sh.setIntValue g_UseTextureName 1
    match self.FindTextureSlot textureTag with
    | .error e => .error e
    | .ok textureID =>
      .ok { self with m_pShaderManager := some (sh1.setSampler2DValue g_TextureValueName textureID) }
  | none => .ok self

/-- Member function `SetTextureUVScale(u, v)`. -/
def SetTextureUVScale (self : SceneManager F) (u v : F) : SceneManager F :=
  match self.m_pShaderManager with
  | some sh => { self with m_pShaderManager := some (sh.setVec2Value "UVscale" { x := u, y := v }) }
  | none => self

/-- Member function `SetShaderMaterial(materialTag)`.  The local variable `material` is not
initialised in the source; `material` is the content it happens to have.
The uploads go through `m_pShaderManager` without a null check. -/
def SetShaderMaterial (self : SceneManager F) (materialTag : String)
    (material : OBJECT_MATERIAL F) : Except Fault (SceneManager F) :=
  if self.m_objectMaterials.length > 0 then
    match self.FindMaterial materialTag material with
    | .error e => .error e
    | .ok (bReturn, material) =>
      if bReturn = true then
        match self.m_pShaderManager with
        | none => .error .nullShaderManager
        | some sh =>
          let sh := sh.setVec3Value "material.ambientColor" material.ambientColor
          let sh := sh.setFloatValue "material.ambientStrength" material.ambientStrength
          let sh := sh.setVec3Value "material.diffuseColor" material.diffuseColor
          let sh := sh.setVec3Value "material.specularColor" material.specularColor
          let sh := sh.setFloatValue "material.shininess" material.shininess
          .ok { self with m_pShaderManager := some sh }
      else
        .ok self
  else
    .ok self

/-- One texture registration request: what the decoder returns for the file,
the handle OpenGL hands out, and the tag. -/
structure TextureLoad where
  image : Option Image
  textureID : Nat
  tag : String
  deriving DecidableEq, Repr

/-- A request whose image decodes with 3 or 4 channels. -/
def TextureLoad.Decodable (l : TextureLoad) : Prop :=
  ∃ img, l.image = some img ∧ (img.colorChannels = 3 ∨ img.colorChannels = 4)

/-- A run of `CreateGLTexture` calls, one per request, in order; the result
collects the returned `bool`s. -/
def CreateGLTextures (self : SceneManager F) :
    List TextureLoad → Except Fault (List Bool × SceneManager F)
  | [] => .ok ([], self)
  | l :: rest =>
    match self.CreateGLTexture l.image l.textureID l.tag with
    | .error e => .error e
    | .ok (b, s) =>
      match CreateGLTextures s rest with
      | .error e => .error e
      | .ok (bs, s2) => .ok (b :: bs, s2)

/-- A call that selects how the next mesh is coloured: `SetShaderColor` or
`SetShaderTexture`. -/
inductive ColorCall (F : Type) where
  | SetShaderColor (r g b a : F)
  | SetShaderTexture (textureTag : String)
  deriving DecidableEq, Repr

/-- The integer that the call uploads as `bUseTexture`: 0 (false) for
`SetShaderColor`, 1 (true) for `SetShaderTexture`. -/
def ColorCall.useTexture : ColorCall F → Int
  | .SetShaderColor _ _ _ _ => 0
  | .SetShaderTexture _ => 1

/-- A sequence of `SetShaderColor` / `SetShaderTexture` calls, run in order. -/
def runColorCalls (self : SceneManager F) : List (ColorCall F) → Except Fault (SceneManager F)
  | [] => .ok self
  | .SetShaderColor r g b a :: rest => runColorCalls (self.SetShaderColor r g b a) rest
  | .SetShaderTexture t :: rest =>
    match self.SetShaderTexture t with
    | .error e => .error e
    | .ok s => runColorCalls s rest

/-- A call that configures the next draw, other than `SetTextureUVScale`.
`SetShaderMaterial` carries the contents of its uninitialised local. -/
inductive ConfigCall (F : Type) where
  | SetTransformations (scaleXYZ : glm.vec3 F)
      (XrotationDegrees YrotationDegrees ZrotationDegrees : F) (positionXYZ : glm.vec3 F)
  | SetShaderColor (r g b a : F)
  | SetShaderTexture (textureTag : String)
  | SetShaderMaterial (materialTag : String) (material : OBJECT_MATERIAL F)

/-- A sequence of configuration calls, run in order. -/
def runConfigCalls [CommRing F] (self : SceneManager F) (fns : glm.ScalarFns F) :
    List (ConfigCall F) → Except Fault (SceneManager F)
  | [] => .ok self
  | .SetTransformations sc x y z pos :: rest =>
    runConfigCalls (self.SetTransformations fns sc x y z pos) fns rest
  | .SetShaderColor r g b a :: rest => runConfigCalls (self.SetShaderColor r g b a) fns rest
  | .SetShaderTexture t :: rest =>
    match self.SetShaderTexture t with
    | .error e => .error e
    | .ok s => runConfigCalls s fns rest
  | .SetShaderMaterial t m :: rest =>
    match self.SetShaderMaterial t m with
    | .error e => .error e
    | .ok s => runConfigCalls s fns rest

end SceneManager

/-! ## Scene content -/

namespace SceneManager

variable {F : Type}

/-- The materials that `DefineObjectMaterials` pushes onto the material
sequence, in order: table, vase bottom, vase middle, vase top, stem, bud,
pumpkin, pumpkin stem, candle holder, candle wax, book. -/
def DefineObjectMaterials.materials [Field F] : List (OBJECT_MATERIAL F) :=
  [
    { ambientColor := { x := 0.2, y := 0.1, z := 0.05 }, ambientStrength := 0.2
      diffuseColor := { x := 0.6, y := 0.4, z := 0.2 }
      specularColor := { x := 0.5, y := 0.5, z := 0.5 }
      shininess := 32, tag := "table" },
    { ambientColor := { x := 0.3, y := 0.2, z := 0 }, ambientStrength := 0.3
      diffuseColor := { x := 0.8, y := 0.7, z := 0 }
      specularColor := { x := 1, y := 0.9, z := 0.5 }
      shininess := 64, tag := "vase_bottom" },
    { ambientColor := { x := 0.2, y := 0.2, z := 0.2 }, ambientStrength := 0.2
      diffuseColor := { x := 0.6, y := 0.6, z := 0.6 }
      specularColor := { x := 0.9, y := 0.9, z := 0.9 }
      shininess := 128, tag := "vase_middle" },
    { ambientColor := { x := 0.3, y := 0.2, z := 0 }, ambientStrength := 0.3
      diffuseColor := { x := 0.8, y := 0.7, z := 0 }
      specularColor := { x := 1, y := 0.9, z := 0.5 }
      shininess := 64, tag := "vase_top" },
    { ambientColor := { x := 0.1, y := 0.3, z := 0.1 }, ambientStrength := 0.2
      diffuseColor := { x := 0.2, y := 0.6, z := 0.2 }
      specularColor := { x := 0.1, y := 0.3, z := 0.1 }
      shininess := 8, tag := "stem" },
    { ambientColor := { x := 0.3, y := 0.1, z := 0.3 }, ambientStrength := 0.3
      diffuseColor := { x := 0.7, y := 0.2, z := 0.7 }
      specularColor := { x := 0.8, y := 0.3, z := 0.8 }
      shininess := 16, tag := "bud" },
    { ambientColor := { x := 0.4, y := 0.2, z := 0 }, ambientStrength := 0.3
      diffuseColor := { x := 0.8, y := 0.4, z := 0 }
      specularColor := { x := 0.5, y := 0.4, z := 0.1 }
      shininess := 16, tag := "pumpkin" },
    { ambientColor := { x := 0.1, y := 0.2, z := 0 }, ambientStrength := 0.2
      diffuseColor := { x := 0.3, y := 0.4, z := 0.1 }
      specularColor := { x := 0.2, y := 0.3, z := 0.1 }
      shininess := 4, tag := "pumpkin_stem" },
    { ambientColor := { x := 0.3, y := 0.2, z := 0 }, ambientStrength := 0.2
      diffuseColor := { x := 0.6, y := 0.4, z := 0.1 }
      specularColor := { x := 1, y := 0.8, z := 0.4 }
      shininess := 96, tag := "candle_holder" },
    { ambientColor := { x := 0.9, y := 0.9, z := 0.8 }, ambientStrength := 0.2
      diffuseColor := { x := 1, y := 1, z := 0.9 }
      specularColor := { x := 0.3, y := 0.3, z := 0.3 }
      shininess := 4, tag := "candle_wax" },
    { ambientColor := { x := 0.2, y := 0.1, z := 0.05 }, ambientStrength := 0.1
      diffuseColor := { x := 0.5, y := 0.3, z := 0.1 }
      specularColor := { x := 0.2, y := 0.2, z := 0.2 }
      shininess := 8, tag := "book" } ]

/-- Member function `DefineObjectMaterials()`: eleven `push_back` calls. -/
def DefineObjectMaterials [Field F] (self : SceneManager F) : SceneManager F :=
  { self with
    m_objectMaterials := self.m_objectMaterials ++ DefineObjectMaterials.materials }

/-- The `(filename, tag)` arguments of the thirteen `CreateGLTexture` calls of
`LoadSceneTextures`, in order. -/
def LoadSceneTextures.requests : List (String × String) :=
  [
    ("../../Utilities/textures/rusticwood.jpg", "table_surface"),
    ("../../Utilities/textures/gold-seamless-texture.jpg", "vase_bottom"),
    ("../../Utilities/textures/stainless.jpg", "vase_middle"),
    ("../../Utilities/textures/circular-brushed-gold-texture.jpg", "vase_top"),
    ("../../Utilities/textures/rusticwood.jpg", "flower_stem"),
    ("../../Utilities/textures/stainedglass.jpg", "flower_bud"),
    ("../../Utilities/textures/abstract.jpg", "pumpkin"),
    ("../../Utilities/textures/breadcrust.jpg", "pumpkin_stem"),
    ("../../Utilities/textures/cheddar.jpg", "table_overlay"),
    ("../../Utilities/textures/amber_glass.jpg", "candle_holder"),
    ("../../Utilities/textures/wax.jpg", "candle_wax"),
    ("../../Utilities/textures/book_cover.jpg", "book_cover"),
    ("../../Utilities/textures/book_pages.jpg", "book_pages") ]

/-- Member function `LoadSceneTextures()`: `decode filename` is what `stbi_load`
returns for the file and `textureIDs k` the handle OpenGL hands out in the
call number `k`.  The returned `bool`s are assigned to `bReturn` and not
looked at; the closing `BindGLTextures()` only issues OpenGL calls. -/
def LoadSceneTextures (self : SceneManager F) (decode : String → Option Image)
    (textureIDs : Nat → Nat) : Except Fault (SceneManager F) :=
  match self.CreateGLTextures
      (LoadSceneTextures.requests.enum.map
        (fun r => { image := decode r.2.1, textureID := textureIDs r.1, tag := r.2.2 })) with
  | .error e => .error e
  | .ok (_, s) => .ok s

/-- The object that `LoadSceneTextures` leaves when it is called on the
constructed object and all thirteen loads succeed: the thirteen tags with their
handles in the first thirteen slots, in the order of the calls. -/
def LoadSceneTextures.loaded (pShaderManager : Option (ShaderManager F))
    (textureIDs : Nat → Nat) : SceneManager F :=
  { SceneManager.new pShaderManager with
    m_textureIDs :=
      LoadSceneTextures.requests.enum.map
          (fun r => { tag := r.2.2, ID := (textureIDs r.1 : Int) }) ++
        List.replicate 3 { tag := "/0", ID := -1 }
    m_loadedTextures := 13 }

/-- The draw functions of the mesh library that `RenderScene` calls. -/
inductive MeshKind where
  | Plane
  | TaperedCylinder
  | Cylinder
  | Sphere
  | Box
  | Cone
  | Torus
  | Prism
  | Pyramid4
  deriving DecidableEq, Repr

/-- A call that `RenderScene` makes: one of the five draw-configuration
functions with its arguments, or a draw function of the mesh library. -/
inductive RenderCall (F : Type) where
  | SetTransformations (scaleXYZ : glm.vec3 F)
      (XrotationDegrees YrotationDegrees ZrotationDegrees : F) (positionXYZ : glm.vec3 F)
  | SetTextureUVScale (u v : F)
  | SetShaderTexture (textureTag : String)
  | SetShaderMaterial (materialTag : String)
  | SetShaderColor (r g b a : F)
  | Draw (mesh : MeshKind)

/-- What a draw call of the mesh library sees: the mesh drawn and the shader
manager with the uniforms uploaded so far. -/
structure DrawRecord (F : Type) where
  mesh : MeshKind
  shader : Option (ShaderManager F)

/-- A sequence of calls of `RenderScene`, run in order; the result lists one
record per draw call.  `material` is the content of the uninitialised local of
`SetShaderMaterial`. -/
def runRenderCalls [CommRing F] (self : SceneManager F) (fns : glm.ScalarFns F)
    (material : OBJECT_MATERIAL F) :
    List (RenderCall F) → Except Fault (List (DrawRecord F) × SceneManager F)
  | [] => .ok ([], self)
  | .SetTransformations sc x y z pos :: rest =>
    runRenderCalls (self.SetTransformations fns sc x y z pos) fns material rest
  | .SetTextureUVScale u v :: rest =>
    runRenderCalls (self.SetTextureUVScale u v) fns material rest
  | .SetShaderTexture t :: rest =>
    match self.SetShaderTexture t with
    | .error e => .error e
    | .ok s => runRenderCalls s fns material rest
  | .SetShaderMaterial t :: rest =>
    match self.SetShaderMaterial t material with
    | .error e => .error e
    | .ok s => runRenderCalls s fns material rest
  | .SetShaderColor r g b a :: rest =>
    runRenderCalls (self.SetShaderColor r g b a) fns material rest
  | .Draw mesh :: rest =>
    match runRenderCalls self fns material rest with
    | .error e => .error e
    | .ok (draws, s) => .ok ({ mesh := mesh, shader := self.m_pShaderManager } :: draws, s)

end SceneManager

namespace SceneManager

variable {F : Type} [Field F]

/-- The table surface of `RenderScene`, through its `DrawPlaneMesh()`. -/
def RenderScene.tableSurface : List (RenderCall F) :=
  [ .SetTransformations { x := 20, y := 1, z := 10 } 0 0 0 { x := 0, y := 0, z := 0 },
    .SetTextureUVScale 5 2.5,
    .SetShaderTexture "table_surface",
    .SetShaderMaterial "table",
    .Draw .Plane ]

/-- The second table layer of `RenderScene`, through its `DrawPlaneMesh()`.  The
rotation variables still hold the zeros assigned for the table surface. -/
def RenderScene.tableOverlay : List (RenderCall F) :=
  [ .SetTransformations { x := 20, y := 1.01, z := 10 } 0 0 0 { x := 0, y := 0.01, z := 0 },
    .SetTextureUVScale 10 5,
    .SetShaderTexture "table_overlay",
    .SetShaderMaterial "table",
    .SetShaderColor 1 1 1 0.3,
    .Draw .Plane ]

/-- The two calls of `RenderScene` under its comment "Reset color and UV scale". -/
def RenderScene.resetAfterOverlay : List (RenderCall F) :=
  [ .SetShaderColor 1 1 1 1,
    .SetTextureUVScale 1 1 ]

/-- The three parts of the vase in `RenderScene`: bottom, middle, top. -/
def RenderScene.vase : List (RenderCall F) :=
  [ .SetTransformations { x := 2.5, y := 1.4, z := 2.5 } 0 0 0 { x := 0, y := 0.7, z := 0 },
    .SetShaderTexture "vase_bottom",
    .SetShaderMaterial "vase_bottom",
    .Draw .TaperedCylinder,
    .SetTransformations { x := 1.2, y := 1, z := 1.2 } 0 0 0 { x := 0, y := 1.9, z := 0 },
    .SetShaderTexture "vase_middle",
    .SetShaderMaterial "vase_middle",
    .Draw .Cylinder,
    .SetTransformations { x := 1.8, y := 0.6, z := 1.8 } 0 0 0 { x := 0, y := 2.7, z := 0 },
    .SetShaderTexture "vase_top",
    .SetShaderMaterial "vase_top",
    .Draw .TaperedCylinder ]

/-- The variable `angle` of the flower stem `i`: `i * 11.25f`. -/
def RenderScene.stemAngle (i : Nat) : F :=
  (i : F) * 11.25

/-- The variable `stemLength` of the flower stem `i`: `1.0f + (i % 5) * 0.2f`. -/
def RenderScene.stemLength (i : Nat) : F :=
  1 + ((i % 5 : Nat) : F) * 0.2

/-- The variable `radialPosition` of the flower stem `i`: `(i % 3) * 0.3f`. -/
def RenderScene.radialPosition (i : Nat) : F :=
  ((i % 3 : Nat) : F) * 0.3

/-- The variable `tiltAngle` of the flower stem `i`: `10.0f + (i % 4) * 5.0f`. -/
def RenderScene.tiltAngle (i : Nat) : F :=
  10 + ((i % 4 : Nat) : F) * 5

/-- The base `(xPos, 3.0f, zPos)` of the flower stem `i`. -/
def RenderScene.stemPosition (fns : glm.ScalarFns F) (i : Nat) : glm.vec3 F :=
  { x := RenderScene.radialPosition i * fns.sin (glm.radians fns (RenderScene.stemAngle i))
    y := 3
    z := RenderScene.radialPosition i * fns.cos (glm.radians fns (RenderScene.stemAngle i)) }

/-- The vector `(dirX, dirY, dirZ)` that `RenderScene` computes as the
direction of the flower stem `i`. -/
def RenderScene.stemDirection (fns : glm.ScalarFns F) (i : Nat) : glm.vec3 F :=
  let tiltRad := glm.radians fns (RenderScene.tiltAngle i)
  let angleRad := glm.radians fns (RenderScene.stemAngle i)
  { x := fns.sin tiltRad * fns.sin angleRad
    y := fns.cos tiltRad
    z := fns.sin tiltRad * fns.cos angleRad }

/-- The position `(budX, budY, budZ)` of the bud of the flower stem `i`: the
stem base plus `stemLength` times the direction, with `3.3f` as the base
height. -/
def RenderScene.budPosition (fns : glm.ScalarFns F) (i : Nat) : glm.vec3 F :=
  { x := (RenderScene.stemPosition fns i).x +
      RenderScene.stemLength i * (RenderScene.stemDirection fns i).x
    y := 3.3 + RenderScene.stemLength i * (RenderScene.stemDirection fns i).y
    z := (RenderScene.stemPosition fns i).z +
      RenderScene.stemLength i * (RenderScene.stemDirection fns i).z }

/-- The variable `budSize` of the flower stem `i`: `0.08f + (i % 4) * 0.03f`. -/
def RenderScene.budSize (i : Nat) : F :=
  0.08 + ((i % 4 : Nat) : F) * 0.03

/-- The body of the flower loop of `RenderScene` for the stem `i`: the stem
cylinder, then its bud. -/
def RenderScene.stem (fns : glm.ScalarFns F) (i : Nat) : List (RenderCall F) :=
  [ .SetTransformations { x := 0.03, y := RenderScene.stemLength i, z := 0.03 }
      (RenderScene.tiltAngle i) (RenderScene.stemAngle i) 0 (RenderScene.stemPosition fns i),
    .SetTextureUVScale 1 3,
    .SetShaderTexture "flower_stem",
    .SetShaderMaterial "stem",
    .Draw .Cylinder,
    .SetTextureUVScale 1 1,
    .SetTransformations
      { x := RenderScene.budSize i, y := RenderScene.budSize i, z := RenderScene.budSize i }
      0 0 0 (RenderScene.budPosition fns i),
    .SetShaderTexture "flower_bud",
    .SetShaderMaterial "bud",
    .Draw .Sphere ]

/-- The flower loop of `RenderScene`: `for (int i = 0; i < 32; i++)`. -/
def RenderScene.stems (fns : glm.ScalarFns F) : List (RenderCall F) :=
  (List.range 32).flatMap (RenderScene.stem fns)

/-- The pumpkin body of `RenderScene`. -/
def RenderScene.pumpkinBody : List (RenderCall F) :=
  [ .SetTransformations { x := 1.5, y := 1, z := 1.5 } 0 45 0 { x := 3, y := 0.5, z := 2 },
    .SetShaderTexture "pumpkin",
    .SetShaderMaterial "pumpkin",
    .Draw .Sphere ]

/-- The body of the ridge loop of `RenderScene` for the ridge `i`, with
`angle = i * 45.0f`. -/
def RenderScene.ridge (fns : glm.ScalarFns F) (i : Nat) : List (RenderCall F) :=
  [ .SetTransformations { x := 0.1, y := 0.9, z := 0.1 } 0 ((i : F) * 45) 15
      { x := 3 + 0.8 * fns.sin (glm.radians fns ((i : F) * 45))
        y := 0.5
        z := 2 + 0.8 * fns.cos (glm.radians fns ((i : F) * 45)) },
    .SetShaderTexture "pumpkin",
    .SetShaderMaterial "pumpkin",
    .Draw .Box ]

/-- The ridge loop of `RenderScene`: `for (int i = 0; i < 8; i++)`. -/
def RenderScene.ridges (fns : glm.ScalarFns F) : List (RenderCall F) :=
  (List.range 8).flatMap (RenderScene.ridge fns)

/-- The pumpkin stem of `RenderScene`. -/
def RenderScene.pumpkinStem : List (RenderCall F) :=
  [ .SetTransformations { x := 0.2, y := 1.1, z := 0.2 } (-60) 30 0 { x := 3, y := 1.1, z := 2 },
    .SetShaderTexture "pumpkin_stem",
    .SetShaderMaterial "pumpkin_stem",
    .Draw .Cylinder ]

/-- The first candle of `RenderScene`: holder, torus rim, wax, and the flame drawn
with a flat colour. -/
def RenderScene.firstCandle : List (RenderCall F) :=
  [ .SetTransformations { x := 0.8, y := 0.6, z := 0.8 } 0 0 0 { x := (-3), y := 0.3, z := 3 },
    .SetShaderTexture "candle_holder",
    .SetShaderMaterial "candle_holder",
    .Draw .Cylinder,
    .SetTransformations { x := 0.85, y := 0.85, z := 0.2 } 90 0 0 { x := (-3), y := 0.6, z := 3 },
    .SetShaderTexture "candle_holder",
    .SetShaderMaterial "candle_holder",
    .Draw .Torus,
    .SetTransformations { x := 0.5, y := 0.3, z := 0.5 } 0 0 0 { x := (-3), y := 0.7, z := 3 },
    .SetShaderTexture "candle_wax",
    .SetShaderMaterial "candle_wax",
    .Draw .Cylinder,
    .SetTransformations { x := 0.1, y := 0.3, z := 0.1 } 0 0 0 { x := (-3), y := 1.05, z := 3 },
    .SetShaderColor 1 0.6 0 1,
    .Draw .Cone ]

/-- The second candle of `RenderScene`: holder, torus rim, wax, the flame drawn
with a flat colour, and the colour reset after it. -/
def RenderScene.secondCandle : List (RenderCall F) :=
  [ .SetTransformations { x := 0.7, y := 0.5, z := 0.7 } 0 15 0 { x := (-4), y := 0.25, z := 1.5 },
    .SetShaderTexture "candle_holder",
    .SetShaderMaterial "candle_holder",
    .Draw .Cylinder,
    .SetTransformations { x := 0.75, y := 0.75, z := 0.15 } 90 15 0 { x := (-4), y := 0.5, z := 1.5 },
    .SetShaderTexture "candle_holder",
    .SetShaderMaterial "candle_holder",
    .Draw .Torus,
    .SetTransformations { x := 0.4, y := 0.25, z := 0.4 } 0 15 0 { x := (-4), y := 0.6, z := 1.5 },
    .SetShaderTexture "candle_wax",
    .SetShaderMaterial "candle_wax",
    .Draw .Cylinder,
    .SetTransformations { x := 0.08, y := 0.25, z := 0.08 } 0 15 0 { x := (-4), y := 0.9, z := 1.5 },
    .SetShaderColor 1 0.6 0 1,
    .Draw .Cone,
    .SetShaderColor 1 1 1 1 ]

/-- The book of `RenderScene`: body, binding, pages. -/
def RenderScene.book : List (RenderCall F) :=
  [ .SetTransformations { x := 1.8, y := 0.2, z := 1.2 } 0 (-15) 0 { x := (-2.5), y := 0.1, z := 0.5 },
    .SetShaderTexture "book_cover",
    .SetShaderMaterial "book",
    .Draw .Box,
    .SetTransformations { x := 0.2, y := 0.2, z := 1.2 } 90 (-15) 0 { x := (-3.3), y := 0.2, z := 0.4 },
    .SetShaderTexture "book_cover",
    .SetShaderMaterial "book",
    .Draw .Prism,
    .SetTransformations { x := 1.6, y := 0.19, z := 1.19 } 0 (-15) 0 { x := (-2.5), y := 0.21, z := 0.5 },
    .SetShaderTexture "book_pages",
    .SetShaderMaterial "book",
    .Draw .Box ]

/-- The decorative pyramid that closes `RenderScene`. -/
def RenderScene.pyramid : List (RenderCall F) :=
  [ .SetTransformations { x := 0.4, y := 0.7, z := 0.4 } 0 30 0 { x := 2.5, y := 0.35, z := (-2) },
    .SetShaderTexture "vase_bottom",
    .SetShaderMaterial "vase_bottom",
    .Draw .Pyramid4 ]

/-- The calls of `RenderScene()`, in order.  The sine and cosine of the C math
library are those of `fns`. -/
def RenderScene.calls (fns : glm.ScalarFns F) : List (RenderCall F) :=
  RenderScene.tableSurface ++ (RenderScene.tableOverlay ++ (RenderScene.resetAfterOverlay ++
    (RenderScene.vase ++ (RenderScene.stems fns ++ (RenderScene.pumpkinBody ++
      (RenderScene.ridges fns ++ (RenderScene.pumpkinStem ++ (RenderScene.firstCandle ++
        (RenderScene.secondCandle ++ (RenderScene.book ++ RenderScene.pyramid))))))))))

/-- Member function `RenderScene()`: the draw records in order, and the object
afterwards. -/
def RenderScene (self : SceneManager F) (fns : glm.ScalarFns F)
    (material : OBJECT_MATERIAL F) : Except Fault (List (DrawRecord F) × SceneManager F) :=
  self.runRenderCalls fns material (RenderScene.calls fns)

/-- The tags that a sequence of calls passes to `SetShaderTexture`. -/
def textureTags : List (RenderCall F) → List String
  | [] => []
  | .SetShaderTexture t :: rest => t :: textureTags rest
  | _ :: rest => textureTags rest

/-- The tags that a sequence of calls passes to `SetShaderMaterial`. -/
def materialTags : List (RenderCall F) → List String
  | [] => []
  | .SetShaderMaterial t :: rest => t :: materialTags rest
  | _ :: rest => materialTags rest

end SceneManager

/-! ## View manager -/

namespace glm

section
variable {F : Type} [Field F]

/-- External library GLM: `vec3 + vec3`, componentwise. -/
def vec3.add (a b : vec3 F) : vec3 F :=
  { x := a.x + b.x, y := a.y + b.y, z := a.z + b.z }

/-- External library GLM: `vec3 - vec3`, componentwise. -/
def vec3.sub (a b : vec3 F) : vec3 F :=
  { x := a.x - b.x, y := a.y - b.y, z := a.z - b.z }

/-- External library GLM: `glm::perspective(fovy, aspect, zNear, zFar)` in its
default right-handed form with depth range -1 to 1.  The matrix starts as all
zeros; `tan` is the tangent of the C math library. -/
def perspective (tan : F → F) (fovy aspect zNear zFar : F) : mat4 F :=
  let tanHalfFovy := tan (fovy / 2)
  { c0 := { x := 1 / (aspect * tanHalfFovy), y := 0, z := 0, w := 0 }
    c1 := { x := 0, y := 1 / tanHalfFovy, z := 0, w := 0 }
    c2 := { x := 0, y := 0, z := -(zFar + zNear) / (zFar - zNear), w := -1 }
    c3 := { x := 0, y := 0, z := -(2 * zFar * zNear) / (zFar - zNear), w := 0 } }

/-- External library GLM: `glm::ortho(left, right, bottom, top, zNear, zFar)`
in its default right-handed form with depth range -1 to 1.  The matrix starts
as the identity. -/
def ortho (left right bottom top zNear zFar : F) : mat4 F :=
  { c0 := { x := 2 / (right - left), y := 0, z := 0, w := 0 }
    c1 := { x := 0, y := 2 / (top - bottom), z := 0, w := 0 }
    c2 := { x := 0, y := 0, z := -2 / (zFar - zNear), w := 0 }
    c3 := { x := -(right + left) / (right - left)
            y := -(top + bottom) / (top - bottom)
            z := -(zFar + zNear) / (zFar - zNear)
            w := 1 } }

end

end glm

/-- Standard library: `std::max(a, b)`, which is `(a < b) ? b : a`. -/
def std.max {F : Type} [LinearOrder F] (a b : F) : F :=
  if a < b then b else a

/-- Modelled from the spec: the class `Camera` is declared in a header that is
not among the sources: the camera pose `{position, frontDirection,
upDirection, fieldOfViewDegrees}`, under the member names the code uses. -/
structure Camera (F : Type) where
  Position : glm.vec3 F
  Front : glm.vec3 F
  Up : glm.vec3 F
  Zoom : F
  deriving DecidableEq, Repr

/-- The enumeration `Camera_Movement` of the camera header, as used in
`ProcessKeyboardEvents`. -/
inductive Camera_Movement where
  | FORWARD
  | BACKWARD
  | LEFT
  | RIGHT
  deriving DecidableEq, Repr

/-- The member functions of `Camera` that `ViewManager.cpp` calls.  Their
bodies are not among the sources, so they are parameters of the embedding. -/
structure CameraFns (F : Type) where
  ProcessKeyboard : Camera_Movement → F → Camera F → Camera F
  ProcessMouseMovement : F → F → Camera F → Camera F
  GetViewMatrix : Camera F → glm.mat4 F

/-- The keys that `ProcessKeyboardEvents` polls with `glfwGetKey`. -/
inductive Key where
  | ESCAPE
  | W
  | S
  | A
  | D
  | Q
  | E
  | P
  | O
  deriving DecidableEq, Repr

def g_ViewName : String := "view"
def g_ProjectionName : String := "projection"

/-- The roundings of the floating-point arithmetic in
`Mouse_Position_Callback`: `toFloat v` is the value of type `float` and
`toDouble v` the value of type `double` that stands for the exact value `v`.
Storing a `double` in a `float` variable is `toFloat`; the result of an
operation on `double` (on `float`) operands is `toDouble` (is `toFloat`) of the
exact result; reading a `float` as a `double` changes nothing.  The two
functions belong to the C++ implementation, so they are parameters of the
embedding. -/
structure Rounding (F : Type) where
  toFloat : F → F
  toDouble : F → F

/-- The value `d` and its nine-fold go through the roundings unchanged: `d` is
a `double` and a `float`, and `9 * d` is a `float`. -/
def Rounding.Keeps {F : Type} [Field F] (r : Rounding F) (d : F) : Prop :=
  r.toDouble d = d ∧ r.toFloat d = d ∧ r.toFloat (9 * d) = 9 * d

instance {F : Type} [Field F] [DecidableEq F] (r : Rounding F) (d : F) :
    Decidable (r.Keeps d) := by
  unfold Rounding.Keeps
  infer_instance

/-- The member `m_pShaderManager` of the class `ViewManager` and the variables
of the anonymous namespace of `ViewManager.cpp`.  `g_pCamera` is `none` for
`nullptr`.  The window `m_pWindow` belongs to GLFW; of it the record keeps the
should-close flag that `glfwSetWindowShouldClose` sets. -/
structure ViewManager (F : Type) where
  m_pShaderManager : Option (ShaderManager F)
  windowShouldClose : Bool
  g_pCamera : Option (Camera F)
  gLastX : F
  gLastY : F
  gFirstMouse : Bool
  gDeltaTime : F
  gLastFrame : F
  gMovementSpeed : F
  bOrthographicProjection : Bool

namespace ViewManager

variable {F : Type} [LinearOrderedField F]

/-- The constant `WINDOW_WIDTH`. -/
def WINDOW_WIDTH : Int := 1000

/-- The constant `WINDOW_HEIGHT`. -/
def WINDOW_HEIGHT : Int := 800

/-- The first `ViewManager(pShaderManager)` of the program: the file-scope
variables hold their initialisers (`gLastX = WINDOW_WIDTH / 2.0f`,
`gLastY = WINDOW_HEIGHT / 2.0f`, `gMovementSpeed = 2.5f`, ...) and the
constructor has created the camera with its default view parameters. -/
def new (pShaderManager : Option (ShaderManager F)) : ViewManager F :=
  { m_pShaderManager := pShaderManager
    windowShouldClose := false
    g_pCamera := some
      { Position := { x := 0, y := 5, z := 12 }
        Front := { x := 0, y := -(1 / 2), z := -2 }
        Up := { x := 0, y := 1, z := 0 }
        Zoom := 80 }
    gLastX := (WINDOW_WIDTH : F) / 2
    gLastY := (WINDOW_HEIGHT : F) / 2
    gFirstMouse := true
    gDeltaTime := 0
    gLastFrame := 0
    gMovementSpeed := 5 / 2
    bOrthographicProjection := false }

/-- Member function `Mouse_Position_Callback(window, xMousePos, yMousePos)`.
The parameters `xMousePos`, `yMousePos` are `double`; `gLastX`, `gLastY`,
`xOffset`, `yOffset` and `sensitivity` are `float`.  So `gLastX = xMousePos`
stores `toFloat xMousePos`; `float xOffset = xMousePos - gLastX` subtracts in
`double` and rounds the difference to `float`; `xOffset *= sensitivity`
multiplies in `float`. -/
def Mouse_Position_Callback (self : ViewManager F) (cam : CameraFns F) (r : Rounding F)
    (xMousePos yMousePos : F) : ViewManager F :=
  let s1 : ViewManager F :=
    if self.gFirstMouse then
      { self with
        gLastX := r.toFloat xMousePos, gLastY := r.toFloat yMousePos, gFirstMouse := false }
    else self
  let xOffset := r.toFloat (r.toDouble (xMousePos - s1.gLastX))
  let yOffset := r.toFloat (r.toDouble (s1.gLastY - yMousePos))
  let s2 : ViewManager F :=
    { s1 with gLastX := r.toFloat xMousePos, gLastY := r.toFloat yMousePos }
  let sensitivity : F := 9
  let xOffset := r.toFloat (xOffset * sensitivity)
  let yOffset := r.toFloat (yOffset * sensitivity)
  match s2.g_pCamera with
  | some c => { s2 with g_pCamera := some (cam.ProcessMouseMovement xOffset yOffset c) }
  | none => s2

/-- Member function `Mouse_Scroll_Wheel_Callback(window, xOffset, yOffset)`;
the literal `0.5f` is one half. -/
def Mouse_Scroll_Wheel_Callback (self : ViewManager F) (_xOffset yOffset : F) :
    ViewManager F :=
  if yOffset > 0 then
    { self with gMovementSpeed := self.gMovementSpeed + 1 / 2 }
  else if yOffset < 0 then
    { self with gMovementSpeed := std.max (1 / 2) (self.gMovementSpeed - 1 / 2) }
  else self

/-- Member function `ProcessKeyboardEvents()`; `keys k` tells whether
`glfwGetKey(m_pWindow, k) == GLFW_PRESS`. -/
def ProcessKeyboardEvents (self : ViewManager F) (cam : CameraFns F) (keys : Key → Bool) :
    ViewManager F :=
  let s0 : ViewManager F :=
    if keys .ESCAPE then { self with windowShouldClose := true } else self
  match s0.g_pCamera with
  | none => s0
  | some c0 =>
    let actualSpeed := s0.gMovementSpeed * s0.gDeltaTime
    let c1 := if keys .W then cam.ProcessKeyboard .FORWARD actualSpeed c0 else c0
    let c2 := if keys .S then cam.ProcessKeyboard .BACKWARD actualSpeed c1 else c1
    let c3 := if keys .A then cam.ProcessKeyboard .LEFT actualSpeed c2 else c2
    let c4 := if keys .D then cam.ProcessKeyboard .RIGHT actualSpeed c3 else c3
    let c5 : Camera F :=
      if keys .Q then
        { c4 with Position := c4.Position.add { x := 0, y := actualSpeed, z := 0 } }
      else c4
    let c6 : Camera F :=
      if keys .E then
        { c5 with Position := c5.Position.sub { x := 0, y := actualSpeed, z := 0 } }
      else c5
    let b1 := if keys .P then false else s0.bOrthographicProjection
    let b2 := if keys .O then true else b1
    { s0 with g_pCamera := some c6, bOrthographicProjection := b2 }

/-- The projection matrix that `PrepareSceneView` builds for the mode flag
`bOrthographicProjection` and the camera: `glm::perspective` of the zoom in
radians when the flag is false, `glm::ortho` when it is true.  The literals
`0.1f` and `100.0f` are one tenth and one hundred. -/
def PrepareSceneView.projection (fns : glm.ScalarFns F) (tan : F → F)
    (bOrthographicProjection : Bool) (c : Camera F) : glm.mat4 F :=
  if !bOrthographicProjection then
    glm.perspective tan (glm.radians fns c.Zoom) ((WINDOW_WIDTH : F) / (WINDOW_HEIGHT : F))
      (1 / 10) 100
  else
    let orthoZoom := c.Zoom / 10
    let aspectRatio := (WINDOW_WIDTH : F) / (WINDOW_HEIGHT : F)
    glm.ortho ((-orthoZoom) * aspectRatio) (orthoZoom * aspectRatio) (-orthoZoom) orthoZoom
      (1 / 10) 100

/-- Member function `PrepareSceneView()`; `currentFrame` is the value of the
local variable `currentFrame`, the time that `glfwGetTime` returns stored as a
`float`, and `keys` what `glfwGetKey` reports during the call.  The camera is
used without a null check after `ProcessKeyboardEvents` has returned. -/
def PrepareSceneView (self : ViewManager F) (cam : CameraFns F) (fns : glm.ScalarFns F)
    (tan : F → F) (currentFrame : F) (keys : Key → Bool) : Except Fault (ViewManager F) :=
  let s1 : ViewManager F :=
    { self with gDeltaTime := currentFrame - self.gLastFrame, gLastFrame := currentFrame }
  let s2 := s1.ProcessKeyboardEvents cam keys
  match s2.g_pCamera with
  | none => .error .nullCamera
  | some c =>
    let view := cam.GetViewMatrix c
    let projection := PrepareSceneView.projection fns tan s2.bOrthographicProjection c
    match s2.m_pShaderManager with
    | some sh =>
      let sh := sh.setMat4Value g_ViewName view
      let sh := sh.setMat4Value g_ProjectionName projection
      let sh := sh.setVec3Value "viewPosition" c.Position
      .ok { s2 with m_pShaderManager := some sh }
    | none => .ok s2

/-- The stored cursor position that the next `Mouse_Position_Callback` call
measures against: none while `gFirstMouse` is set, `(gLastX, gLastY)`
afterwards. -/
def reference (self : ViewManager F) : Option (F × F) :=
  if self.gFirstMouse then none else some (self.gLastX, self.gLastY)

/-- A run of cursor samples, each delivered to `Mouse_Position_Callback`. -/
def mouseMoves (self : ViewManager F) (cam : CameraFns F) (r : Rounding F) :
    List (F × F) → ViewManager F
  | [] => self
  | (x, y) :: rest => mouseMoves (self.Mouse_Position_Callback cam r x y) cam r rest

/-- A run of scroll events, each delivered to `Mouse_Scroll_Wheel_Callback`
as its `(xOffset, yOffset)`. -/
def scrolls (self : ViewManager F) : List (F × F) → ViewManager F
  | [] => self
  | (x, y) :: rest => scrolls (self.Mouse_Scroll_Wheel_Callback x y) rest

end ViewManager

/-! ## Reference transformations

The textbook matrices and point maps that the composed model matrix is
compared with.  Angles are in radians. -/

namespace Spec

variable {F : Type} [CommRing F]

/-- Translation by `t` as a homogeneous matrix. -/
def Translation (t : glm.vec3 F) : Matrix (Fin 4) (Fin 4) F :=
  !![1, 0, 0, t.x;
     0, 1, 0, t.y;
     0, 0, 1, t.z;
     0, 0, 0, 1]

/-- Rotation about the X axis by `angle`. -/
def RotationX (fns : glm.ScalarFns F) (angle : F) : Matrix (Fin 4) (Fin 4) F :=
  !![1, 0, 0, 0;
     0, fns.cos angle, -fns.sin angle, 0;
     0, fns.sin angle, fns.cos angle, 0;
     0, 0, 0, 1]

/-- Rotation about the Y axis by `angle`. -/
def RotationY (fns : glm.ScalarFns F) (angle : F) : Matrix (Fin 4) (Fin 4) F :=
  !![fns.cos angle, 0, fns.sin angle, 0;
     0, 1, 0, 0;
     -fns.sin angle, 0, fns.cos angle, 0;
     0, 0, 0, 1]

/-- Rotation about the Z axis by `angle`. -/
def RotationZ (fns : glm.ScalarFns F) (angle : F) : Matrix (Fin 4) (Fin 4) F :=
  !![fns.cos angle, -fns.sin angle, 0, 0;
     fns.sin angle, fns.cos angle, 0, 0;
     0, 0, 1, 0;
     0, 0, 0, 1]

/-- Scaling by `v` along the three axes. -/
def Scale (v : glm.vec3 F) : Matrix (Fin 4) (Fin 4) F :=
  !![v.x, 0, 0, 0;
     0, v.y, 0, 0;
     0, 0, v.z, 0;
     0, 0, 0, 1]

/-- A point as the homogeneous column vector `(x, y, z, 1)`. -/
def toPoint (p : glm.vec3 F) : glm.vec4 F :=
  { x := p.x, y := p.y, z := p.z, w := 1 }

/-- The point `p` scaled by `v`. -/
def scalePoint (v p : glm.vec3 F) : glm.vec3 F :=
  { x := v.x * p.x, y := v.y * p.y, z := v.z * p.z }

/-- The point `p` rotated about the X axis. -/
def rotateXPoint (fns : glm.ScalarFns F) (angle : F) (p : glm.vec3 F) : glm.vec3 F :=
  { x := p.x
    y := fns.cos angle * p.y - fns.sin angle * p.z
    z := fns.sin angle * p.y + fns.cos angle * p.z }

/-- The point `p` rotated about the Y axis. -/
def rotateYPoint (fns : glm.ScalarFns F) (angle : F) (p : glm.vec3 F) : glm.vec3 F :=
  { x := fns.cos angle * p.x + fns.sin angle * p.z
    y := p.y
    z := fns.cos angle * p.z - fns.sin angle * p.x }

/-- The point `p` rotated about the Z axis. -/
def rotateZPoint (fns : glm.ScalarFns F) (angle : F) (p : glm.vec3 F) : glm.vec3 F :=
  { x := fns.cos angle * p.x - fns.sin angle * p.y
    y := fns.sin angle * p.x + fns.cos angle * p.y
    z := p.z }

/-- The point `p` moved by `t`. -/
def translatePoint (t p : glm.vec3 F) : glm.vec3 F :=
  { x := p.x + t.x, y := p.y + t.y, z := p.z + t.z }

/-- The sequence in the words of the specification: scale first, then the
X-rotation, then the Y-rotation, then the Z-rotation, translation last. -/
def scaleXYZThenTranslate (fns : glm.ScalarFns F) (scaleXYZ : glm.vec3 F)
    (XrotationDegrees YrotationDegrees ZrotationDegrees : F) (positionXYZ p : glm.vec3 F) :
    glm.vec3 F :=
  translatePoint positionXYZ
    (rotateZPoint fns (ZrotationDegrees * fns.piOver180)
      (rotateYPoint fns (YrotationDegrees * fns.piOver180)
        (rotateXPoint fns (XrotationDegrees * fns.piOver180)
          (scalePoint scaleXYZ p))))

/-- The sequence with the rotations in the opposite order: scale first, then
the Z-rotation, then the Y-rotation, then the X-rotation, translation last. -/
def scaleZYXThenTranslate (fns : glm.ScalarFns F) (scaleXYZ : glm.vec3 F)
    (XrotationDegrees YrotationDegrees ZrotationDegrees : F) (positionXYZ p : glm.vec3 F) :
    glm.vec3 F :=
  translatePoint positionXYZ
    (rotateXPoint fns (XrotationDegrees * fns.piOver180)
      (rotateYPoint fns (YrotationDegrees * fns.piOver180)
        (rotateZPoint fns (ZrotationDegrees * fns.piOver180)
          (scalePoint scaleXYZ p))))

end Spec

/-! ## Reference projections and cursor offsets -/

namespace Spec

variable {F : Type} [Field F]

/-- The standard perspective matrix for a vertical field of view `fovy` (in
radians), an aspect ratio and the near and far planes, with
`f = 1 / tan (fovy / 2)`. -/
def Perspective (tan : F → F) (fovy aspect near far : F) : Matrix (Fin 4) (Fin 4) F :=
  !![(1 / tan (fovy / 2)) / aspect, 0, 0, 0;
     0, 1 / tan (fovy / 2), 0, 0;
     0, 0, (far + near) / (near - far), (2 * far * near) / (near - far);
     0, 0, -1, 0]

/-- The standard orthographic matrix for the box `left .. right`,
`bottom .. top`, `near .. far`. -/
def Orthographic (left right bottom top near far : F) : Matrix (Fin 4) (Fin 4) F :=
  !![2 / (right - left), 0, 0, -((right + left) / (right - left));
     0, 2 / (top - bottom), 0, -((top + bottom) / (top - bottom));
     0, 0, -(2 / (far - near)), -((far + near) / (far - near));
     0, 0, 0, 1]

/-- The offsets in the words of the specification: the first sample gives
`(0, 0)`, every later sample `(x, y)` gives `(9 * (x - px), 9 * (py - y))` for
the sample `(px, py)` right before it.  `prev` is the sample before the list,
`none` when the list starts at the first sample after activation. -/
def mouseOffsets : Option (F × F) → List (F × F) → List (F × F)
  | _, [] => []
  | none, (x, y) :: rest => (0, 0) :: mouseOffsets (some (x, y)) rest
  | some (px, py), (x, y) :: rest =>
    (9 * (x - px), 9 * (py - y)) :: mouseOffsets (some (x, y)) rest

/-- The offset that a cursor coordinate `a` gives against the stored
coordinate `b`: the difference `a - b` is taken in `double`, stored as a
`float`, and multiplied by nine in `float`. -/
def roundedOffset (r : Rounding F) (a b : F) : F :=
  r.toFloat (9 * r.toFloat (r.toDouble (a - b)))

/-- The offsets with the roundings of the code: every sample is kept rounded
to `float`; the first sample `(x, y)` is measured against its own rounded
value, every later one against the rounded sample `(px, py)` right before it.
`prev` is the stored position before the list, `none` when the list starts at
the first sample after activation. -/
def roundedMouseOffsets (r : Rounding F) : Option (F × F) → List (F × F) → List (F × F)
  | _, [] => []
  | none, (x, y) :: rest =>
    (roundedOffset r x (r.toFloat x), roundedOffset r (r.toFloat y) y) ::
      roundedMouseOffsets r (some (r.toFloat x, r.toFloat y)) rest
  | some (px, py), (x, y) :: rest =>
    (roundedOffset r x px, roundedOffset r py y) ::
      roundedMouseOffsets r (some (r.toFloat x, r.toFloat y)) rest

end Spec

/-! ## Sample inputs

Concrete inputs over the rationals at which the theorems below are evaluated. -/

namespace Sample

/-- The material that `DefineObjectMaterials` defines for the table. -/
def tableMaterial : OBJECT_MATERIAL ℚ :=
  { ambientColor := { x := 0.2, y := 0.1, z := 0.05 }
    ambientStrength := 0.2
    diffuseColor := { x := 0.6, y := 0.4, z := 0.2 }
    specularColor := { x := 0.5, y := 0.5, z := 0.5 }
    shininess := 32
    tag := "table" }

/-- The material that `DefineObjectMaterials` defines for the book, here under
the tag of the table material. -/
def duplicateMaterial : OBJECT_MATERIAL ℚ :=
  { ambientColor := { x := 0.2, y := 0.1, z := 0.05 }
    ambientStrength := 0.1
    diffuseColor := { x := 0.5, y := 0.3, z := 0.1 }
    specularColor := { x := 0.2, y := 0.2, z := 0.2 }
    shininess := 8
    tag := "table" }

/-- Some contents of a material variable before `FindMaterial` is called. -/
def staleMaterial : OBJECT_MATERIAL ℚ :=
  { ambientColor := { x := 7, y := 7, z := 7 }
    ambientStrength := 7
    diffuseColor := { x := 7, y := 7, z := 7 }
    specularColor := { x := 7, y := 7, z := 7 }
    shininess := 7
    tag := "" }

/-- A scene with a shader manager that has no upload yet, no texture and the
table material as the only material. -/
def oneMaterialScene : SceneManager ℚ :=
  { SceneManager.new (some { uploads := [] }) with m_objectMaterials := [tableMaterial] }

/-- A scene with two materials under the same tag "table". -/
def duplicateTagScene : SceneManager ℚ :=
  { SceneManager.new (some { uploads := [] }) with
    m_objectMaterials := [tableMaterial, duplicateMaterial] }

/-- Two registration requests, a 3-channel and a 4-channel image. -/
def twoLoads : List SceneManager.TextureLoad :=
  [ { image := some { width := 64, height := 64, colorChannels := 3 }
      textureID := 1, tag := "table_surface" },
    { image := some { width := 32, height := 32, colorChannels := 4 }
      textureID := 2, tag := "vase_bottom" } ]

/-- Sixteen registration requests, as many as the texture array has entries:
the thirteen tags of `LoadSceneTextures` and three more. -/
def sixteenLoads : List SceneManager.TextureLoad :=
  [ "table_surface", "vase_bottom", "vase_middle", "vase_top", "flower_stem", "flower_bud",
    "pumpkin", "pumpkin_stem", "table_overlay", "candle_holder", "candle_wax", "book_cover",
    "book_pages", "extra_a", "extra_b", "extra_c" ].map
    (fun tag =>
      { image := some { width := 64, height := 64, colorChannels := 3 }
        textureID := 1, tag := tag })

/-- A scene with two registered textures, the rest of the array as the
constructor left it, and a shader manager without uploads. -/
def twoTextureScene : SceneManager ℚ :=
  { SceneManager.new (some { uploads := [] }) with
    m_textureIDs :=
      [ { tag := "table_surface", ID := 1 }, { tag := "vase_bottom", ID := 2 } ] ++
        List.replicate 14 { tag := "/0", ID := -1 }
    m_loadedTextures := 2 }

/-- Camera member functions that leave the camera as it is and report the
identity as the view matrix. -/
def stillCamera {F : Type} [CommRing F] : CameraFns F :=
  { ProcessKeyboard := fun _ _ c => c
    ProcessMouseMovement := fun _ _ c => c
    GetViewMatrix := fun _ => glm.mat4.identity }

/-- Rounding of a rational number to the nearest number with `p` significant
binary digits, a tie going to the even significand: the rounding of IEEE 754
arithmetic at precision `p`, without the limits of the exponent range (cursor
positions and their differences are far inside it). -/
def roundTo (p : Nat) (x : ℚ) : ℚ :=
  if x = 0 then 0
  else
    let e : Int := Int.log 2 |x|
    let q : ℚ := 2 ^ (e + 1 - p)
    let n : Int := ⌊x / q⌋
    let f : ℚ := x / q - n
    if f < 1 / 2 then n * q
    else if 1 / 2 < f then (n + 1) * q
    else if n % 2 = 0 then n * q
    else (n + 1) * q

/-- The roundings of an implementation whose `float` is IEEE 754 binary32 (24
significant digits) and whose `double` is binary64 (53 significant digits). -/
def ieee : Rounding ℚ :=
  { toFloat := roundTo 24
    toDouble := roundTo 53 }

/-- No key is down. -/
def noKeys : Key → Bool := fun _ => false

/-- Only the key `k` is down. -/
def onlyKey (k : Key) : Key → Bool := fun j => decide (j = k)

/-- The view manager after `g_pCamera` has become `nullptr`, as the destructor
of another `ViewManager` object leaves it. -/
def noCameraView {F : Type} [LinearOrderedField F] : ViewManager F :=
  { ViewManager.new (some { uploads := [] }) with g_pCamera := none }

/-- A scene over any scalar type with two registered textures, no material,
and a shader manager without uploads. -/
def texturedScene {F : Type} : SceneManager F :=
  { SceneManager.new (some { uploads := [] }) with
    m_textureIDs :=
      [ { tag := "table_surface", ID := 1 }, { tag := "vase_bottom", ID := 2 } ] ++
        List.replicate 14 { tag := "/0", ID := -1 }
    m_loadedTextures := 2 }

/-- Some contents of a material variable, over any scalar type with a zero. -/
def zeroMaterial {F : Type} [Zero F] : OBJECT_MATERIAL F :=
  { ambientColor := { x := 0, y := 0, z := 0 }
    ambientStrength := 0
    diffuseColor := { x := 0, y := 0, z := 0 }
    specularColor := { x := 0, y := 0, z := 0 }
    shininess := 0
    tag := "" }

end Sample

/-! ## Texture registry -/

namespace SceneManager

variable {F : Type}

/-- Once `bFound` is set the loop of `FindTextureSlot` exits with the slot. -/
theorem FindTextureSlot_loop_found (self : SceneManager F) (tag : String) (fuel index : Nat)
    (slot : Int) : FindTextureSlot.loop self tag (fuel + 1) index slot true = .ok slot := by
  simp [FindTextureSlot.loop]

/-- The loop of `FindTextureSlot` leaves `textureSlot` alone when no entry from
`index` on carries the tag. -/
theorem FindTextureSlot_loop_miss (self : SceneManager F) (tag : String) :
    ∀ (fuel index : Nat) (slot : Int),
      self.m_loadedTextures ≤ self.m_textureIDs.length →
      self.m_loadedTextures - index < fuel →
      (∀ i t, index ≤ i → i < self.m_loadedTextures → self.m_textureIDs[i]? = some t →
        t.tag ≠ tag) →
      FindTextureSlot.loop self tag fuel index slot false = .ok slot := by
  intro fuel
  induction fuel with
  | zero => intro index slot _ h; omega
  | succ fuel ih =>
    intro index slot hcap hfuel hmiss
    unfold FindTextureSlot.loop
    by_cases hlt : index < self.m_loadedTextures
    · have hlen : index < self.m_textureIDs.length := by omega
      have hget : self.m_textureIDs[index]? = some (self.m_textureIDs[index]) :=
        List.getElem?_eq_getElem hlen
      have hne := hmiss index _ (Nat.le_refl _) hlt hget
      simp only [hlt, hget, hne, and_self, if_true, if_false]
      apply ih (index + 1) slot hcap (by omega)
      intro i t hi hi2 hti
      exact hmiss i t (by omega) hi2 hti
    · simp [hlt]

/-- The loop of `FindTextureSlot` returns `k` when entry `k` is the first one
from `index` on that carries the tag. -/
theorem FindTextureSlot_loop_hit (self : SceneManager F) (tag : String) (k : Nat)
    (t : TEXTURE_INFO) (hk : k < self.m_loadedTextures) (ht : self.m_textureIDs[k]? = some t)
    (htag : t.tag = tag) :
    ∀ (fuel index : Nat) (slot : Int),
      index ≤ k → k - index + 2 ≤ fuel →
      (∀ i u, index ≤ i → i < k → self.m_textureIDs[i]? = some u → u.tag ≠ tag) →
      FindTextureSlot.loop self tag fuel index slot false = .ok (k : Int) := by
  intro fuel
  induction fuel with
  | zero => intro index slot _ h; omega
  | succ fuel ih =>
    intro index slot hle hfuel hmiss
    unfold FindTextureSlot.loop
    have hlt : index < self.m_loadedTextures := by omega
    rcases Nat.eq_or_lt_of_le hle with heq | hlt2
    · subst heq
      obtain ⟨fuel2, rfl⟩ : ∃ f, fuel = f + 1 := ⟨fuel - 1, by omega⟩
      simp only [hlt, ht, htag, and_self, if_true]
      exact FindTextureSlot_loop_found self tag fuel2 index _
    · have hlen : index < self.m_textureIDs.length := by
        have := (List.getElem?_eq_some_iff.mp ht).1
        omega
      have hget : self.m_textureIDs[index]? = some (self.m_textureIDs[index]) :=
        List.getElem?_eq_getElem hlen
      have hne := hmiss index _ (Nat.le_refl _) hlt2 hget
      simp only [hlt, hget, hne, and_self, if_true, if_false]
      apply ih (index + 1) slot (by omega) (by omega)
      intro i u hi hi2 hui
      exact hmiss i u (by omega) hi2 hui

/-- Function `FindTextureSlot` returns -1 when none of the loaded entries carries the
tag. -/
theorem FindTextureSlot_miss (self : SceneManager F) (tag : String)
    (hcap : self.m_loadedTextures ≤ self.m_textureIDs.length)
    (hmiss : ∀ i t, i < self.m_loadedTextures → self.m_textureIDs[i]? = some t → t.tag ≠ tag) :
    self.FindTextureSlot tag = .ok (-1) := by
  unfold FindTextureSlot
  apply FindTextureSlot_loop_miss self tag _ 0 (-1) hcap (by omega)
  intro i t _ hi hti
  exact hmiss i t hi hti

/-- Function `FindTextureSlot` returns `k` when entry `k` is the first loaded entry that
carries the tag. -/
theorem FindTextureSlot_hit (self : SceneManager F) (tag : String) (k : Nat)
    (t : TEXTURE_INFO) (hk : k < self.m_loadedTextures) (ht : self.m_textureIDs[k]? = some t)
    (htag : t.tag = tag)
    (hfirst : ∀ i u, i < k → self.m_textureIDs[i]? = some u → u.tag ≠ tag) :
    self.FindTextureSlot tag = .ok (k : Int) := by
  unfold FindTextureSlot
  apply FindTextureSlot_loop_hit self tag k t hk ht htag _ 0 (-1) (Nat.zero_le _) (by omega)
  intro i u _ hi hui
  exact hfirst i u hi hui

/-- One `CreateGLTexture` call with a decodable image and a free slot. -/
theorem CreateGLTexture_ok (self : SceneManager F) (img : Image) (textureID : Nat)
    (tag : String) (hch : img.colorChannels = 3 ∨ img.colorChannels = 4)
    (hfree : self.m_loadedTextures < self.m_textureIDs.length) :
    self.CreateGLTexture (some img) textureID tag =
      .ok (true,
        { self with
          m_textureIDs :=
            self.m_textureIDs.set self.m_loadedTextures { tag := tag, ID := textureID }
          m_loadedTextures := self.m_loadedTextures + 1 }) := by
  simp [CreateGLTexture, hch, hfree]

/-- A run of registrations that all decode and all fit: every call returns
true, the count grows by the number of requests, the entries loaded before stay
and request `i` lands in slot `old count + i`. -/
theorem CreateGLTextures_ok (loads : List TextureLoad) :
    ∀ (s0 : SceneManager F),
      s0.m_loadedTextures + loads.length ≤ s0.m_textureIDs.length →
      (∀ l ∈ loads, l.Decodable) →
      ∃ s, s0.CreateGLTextures loads = .ok (List.replicate loads.length true, s) ∧
        s.m_loadedTextures = s0.m_loadedTextures + loads.length ∧
        s.m_textureIDs.length = s0.m_textureIDs.length ∧
        (∀ i, i < s0.m_loadedTextures → s.m_textureIDs[i]? = s0.m_textureIDs[i]?) ∧
        (∀ i l, loads[i]? = some l →
          s.m_textureIDs[s0.m_loadedTextures + i]? = some { tag := l.tag, ID := l.textureID }) ∧
        s.m_objectMaterials = s0.m_objectMaterials ∧
        s.m_pShaderManager = s0.m_pShaderManager := by
  induction loads with
  | nil =>
    intro s0 _ _
    exact ⟨s0, rfl, rfl, rfl, fun _ _ => rfl, fun i l h => by simp at h, rfl, rfl⟩
  | cons l rest ih =>
    intro s0 hfit hdec
    obtain ⟨img, himg, hch⟩ := hdec l (List.mem_cons_self _ _)
    have hlen : (l :: rest).length = rest.length + 1 := rfl
    have hfree : s0.m_loadedTextures < s0.m_textureIDs.length := by omega
    have h1 := CreateGLTexture_ok s0 img l.textureID l.tag hch hfree
    obtain ⟨s, hs, hcount, hlen2, hold, hnew, hmat, hsh⟩ :=
      ih { s0 with
            m_textureIDs :=
              s0.m_textureIDs.set s0.m_loadedTextures { tag := l.tag, ID := l.textureID }
            m_loadedTextures := s0.m_loadedTextures + 1 }
        (by simp only [List.length_set]; omega)
        (fun l2 h2 => hdec l2 (List.mem_cons_of_mem _ h2))
    refine ⟨s, ?_, ?_, ?_, ?_, ?_, hmat, hsh⟩
    · simp only [CreateGLTextures, himg, h1, hs, hlen, List.replicate_succ]
    · simp only [hcount, hlen]; omega
    · simpa using hlen2
    · intro i hi
      rw [hold i (by simp only []; omega)]
      simp only [List.getElem?_set]
      rw [if_neg (by omega)]
    · intro i l2 hi
      cases i with
      | zero =>
        simp only [List.getElem?_cons_zero, Option.some.injEq] at hi
        subst hi
        rw [Nat.add_zero, hold _ (by simp only []; omega)]
        simp only [List.getElem?_set]
        simp [hfree]
      | succ j =>
        simp only [List.getElem?_cons_succ] at hi
        have := hnew j l2 hi
        simp only [] at this
        rw [← this]
        congr 1
        omega

/-- C1: on a table built by at most 16 successful registrations (every call
returns true), `FindTextureSlot(tag)` returns -1 when no registered entry has
the tag and otherwise the smallest registration index whose tag equals it; when
the registered tags are pairwise distinct, the i-th registered tag is found at
index i. -/
theorem FindTextureSlot_registration_index (pShaderManager : Option (ShaderManager F))
    (loads : List TextureLoad) (hcount : loads.length ≤ 16)
    (hdec : ∀ l ∈ loads, l.Decodable) :
    ∃ s, (SceneManager.new pShaderManager).CreateGLTextures loads =
          .ok (List.replicate loads.length true, s) ∧
      s.m_loadedTextures = loads.length ∧
      (∀ tag, tag ∉ loads.map (fun l => l.tag) → s.FindTextureSlot tag = .ok (-1)) ∧
      (∀ (tag : String) (i : Nat) (l : TextureLoad), loads[i]? = some l → l.tag = tag →
        (∀ (j : Nat) (l2 : TextureLoad), j < i → loads[j]? = some l2 → l2.tag ≠ tag) →
        s.FindTextureSlot tag = .ok (i : Int)) ∧
      ((loads.map (fun l => l.tag)).Nodup →
        ∀ (i : Nat) (l : TextureLoad), loads[i]? = some l →
          s.FindTextureSlot l.tag = .ok (i : Int)) := by
  obtain ⟨s, hs, hn, hlen, -, hnew, -, -⟩ :=
    CreateGLTextures_ok loads (SceneManager.new pShaderManager)
      (by simpa [SceneManager.new] using hcount) hdec
  have hn2 : s.m_loadedTextures = loads.length := by simpa [SceneManager.new] using hn
  have hcap : s.m_loadedTextures ≤ s.m_textureIDs.length := by
    rw [hlen, hn2]; simpa [SceneManager.new] using hcount
  have hentry : ∀ (i : Nat) (l : TextureLoad), loads[i]? = some l →
      s.m_textureIDs[i]? = some { tag := l.tag, ID := l.textureID } := by
    intro i l hi
    simpa [SceneManager.new] using hnew i l hi
  have hback : ∀ (i : Nat) (t : TEXTURE_INFO), i < s.m_loadedTextures →
      s.m_textureIDs[i]? = some t → ∃ l, loads[i]? = some l ∧ t.tag = l.tag := by
    intro i t hi hti
    have hl : loads[i]? = some (loads[i]) := List.getElem?_eq_getElem (by omega)
    refine ⟨_, hl, ?_⟩
    rw [hentry i _ hl] at hti
    simp only [Option.some.injEq] at hti
    rw [← hti]
  have hfirst : ∀ (tag : String) (i : Nat) (l : TextureLoad), loads[i]? = some l →
      l.tag = tag →
      (∀ (j : Nat) (l2 : TextureLoad), j < i → loads[j]? = some l2 → l2.tag ≠ tag) →
      s.FindTextureSlot tag = .ok (i : Int) := by
    intro tag i l hi htag hmin
    have hilt : i < loads.length := (List.getElem?_eq_some_iff.mp hi).1
    apply FindTextureSlot_hit s tag i _ (by omega) (hentry i l hi) htag
    intro j u hj huj
    obtain ⟨l2, hl2, htl⟩ := hback j u (by omega) huj
    rw [htl]
    exact hmin j l2 hj hl2
  refine ⟨s, hs, hn2, ?_, hfirst, ?_⟩
  · intro tag hnot
    apply FindTextureSlot_miss s tag hcap
    intro i t hi hti htag
    obtain ⟨l, hl, htl⟩ := hback i t hi hti
    apply hnot
    rw [List.mem_map]
    exact ⟨l, List.getElem?_mem hl, by rw [← htl, htag]⟩
  · intro hnodup i l hi
    apply hfirst l.tag i l hi rfl
    intro j l2 hj hl2 heq
    have hilt : i < loads.length := (List.getElem?_eq_some_iff.mp hi).1
    have hjlt : j < loads.length := (List.getElem?_eq_some_iff.mp hl2).1
    have h1 : (loads.map (fun l => l.tag))[i]? = some l.tag := by simp [hi]
    have h2 : (loads.map (fun l => l.tag))[j]? = some l.tag := by simp [hl2, heq]
    have := (List.nodup_iff_injective_get.mp hnodup)
    have hij : (⟨i, by simpa using hilt⟩ : Fin (loads.map (fun l => l.tag)).length) =
        ⟨j, by simpa using hjlt⟩ := by
      apply this
      have e1 := (List.getElem?_eq_some_iff.mp h1).2
      have e2 := (List.getElem?_eq_some_iff.mp h2).2
      simp only [List.get_eq_getElem]
      rw [e1, e2]
    have : i = j := by simpa using hij
    omega

/-- Once `bFound` is set the loop of `FindMaterial` exits. -/
theorem FindMaterial_loop_found (self : SceneManager F) (tag : String) (fuel index : Nat)
    (material : OBJECT_MATERIAL F) :
    FindMaterial.loop self tag (fuel + 1) index true material = .ok material := by
  simp [FindMaterial.loop]

/-- The loop of `FindMaterial` leaves the out-parameter alone when no material
from `index` on carries the tag. -/
theorem FindMaterial_loop_miss (self : SceneManager F) (tag : String) :
    ∀ (fuel index : Nat) (material : OBJECT_MATERIAL F),
      self.m_objectMaterials.length - index < fuel →
      (∀ (i : Nat) (m : OBJECT_MATERIAL F), index ≤ i → self.m_objectMaterials[i]? = some m →
        m.tag ≠ tag) →
      FindMaterial.loop self tag fuel index false material = .ok material := by
  intro fuel
  induction fuel with
  | zero => intro index material h; omega
  | succ fuel ih =>
    intro index material hfuel hmiss
    unfold FindMaterial.loop
    by_cases hlt : index < self.m_objectMaterials.length
    · have hget : self.m_objectMaterials[index]? = some (self.m_objectMaterials[index]) :=
        List.getElem?_eq_getElem hlt
      have hne := hmiss index _ (Nat.le_refl _) hget
      simp only [hlt, List.get_eq_getElem, hne, and_self, dite_true, if_false]
      apply ih (index + 1) material (by omega)
      intro i m hi hmi
      exact hmiss i m (by omega) hmi
    · simp [hlt]

/-- The loop of `FindMaterial` copies the five fields of material `k` when it
is the first one from `index` on that carries the tag. -/
theorem FindMaterial_loop_hit (self : SceneManager F) (tag : String) (k : Nat)
    (m : OBJECT_MATERIAL F) (hm : self.m_objectMaterials[k]? = some m) (htag : m.tag = tag) :
    ∀ (fuel index : Nat) (material : OBJECT_MATERIAL F),
      index ≤ k → k - index + 2 ≤ fuel →
      (∀ (i : Nat) (u : OBJECT_MATERIAL F), index ≤ i → i < k →
        self.m_objectMaterials[i]? = some u → u.tag ≠ tag) →
      FindMaterial.loop self tag fuel index false material =
        .ok { material with
              ambientColor := m.ambientColor
              ambientStrength := m.ambientStrength
              diffuseColor := m.diffuseColor
              specularColor := m.specularColor
              shininess := m.shininess } := by
  intro fuel
  induction fuel with
  | zero => intro index material _ h; omega
  | succ fuel ih =>
    intro index material hle hfuel hmiss
    unfold FindMaterial.loop
    have hklt : k < self.m_objectMaterials.length := (List.getElem?_eq_some_iff.mp hm).1
    have hlt : index < self.m_objectMaterials.length := by omega
    have hget : self.m_objectMaterials[index]? = some (self.m_objectMaterials[index]) :=
      List.getElem?_eq_getElem hlt
    rcases Nat.eq_or_lt_of_le hle with heq | hlt2
    · subst heq
      obtain ⟨fuel2, rfl⟩ : ∃ f, fuel = f + 1 := ⟨fuel - 1, by omega⟩
      have hmk : self.m_objectMaterials[index] = m := by
        rw [hget] at hm; exact Option.some.inj hm
      simp only [hlt, List.get_eq_getElem, hmk, htag, and_self, dite_true, if_true]
      exact FindMaterial_loop_found self tag fuel2 index _
    · have hne := hmiss index _ (Nat.le_refl _) hlt2 hget
      simp only [hlt, List.get_eq_getElem, hne, and_self, dite_true, if_false]
      apply ih (index + 1) material (by omega) (by omega)
      intro i u hi hi2 hui
      exact hmiss i u (by omega) hi2 hui

/-- Function `FindMaterial` on a non-empty sequence without a matching tag returns true
and leaves the out-parameter as it was. -/
theorem FindMaterial_miss (self : SceneManager F) (tag : String) (material : OBJECT_MATERIAL F)
    (hne : self.m_objectMaterials ≠ [])
    (hmiss : ∀ m ∈ self.m_objectMaterials, m.tag ≠ tag) :
    self.FindMaterial tag material = .ok (true, material) := by
  have hlen : self.m_objectMaterials.length ≠ 0 := by
    simpa [List.length_eq_zero] using hne
  have hloop := FindMaterial_loop_miss self tag (self.m_objectMaterials.length + 2) 0 material
    (by omega) (fun i m _ hmi => hmiss m (List.getElem?_mem hmi))
  simp only [FindMaterial, hlen, if_false, hloop]

/-- Function `FindMaterial` returns true with the five fields of the first material
that carries the tag. -/
theorem FindMaterial_hit (self : SceneManager F) (tag : String) (material : OBJECT_MATERIAL F)
    (k : Nat) (m : OBJECT_MATERIAL F) (hm : self.m_objectMaterials[k]? = some m)
    (htag : m.tag = tag)
    (hfirst : ∀ (i : Nat) (u : OBJECT_MATERIAL F), i < k →
      self.m_objectMaterials[i]? = some u → u.tag ≠ tag) :
    self.FindMaterial tag material =
      .ok (true,
        { material with
          ambientColor := m.ambientColor
          ambientStrength := m.ambientStrength
          diffuseColor := m.diffuseColor
          specularColor := m.specularColor
          shininess := m.shininess }) := by
  have hklt : k < self.m_objectMaterials.length := (List.getElem?_eq_some_iff.mp hm).1
  have hlen : self.m_objectMaterials.length ≠ 0 := by omega
  have hloop := FindMaterial_loop_hit self tag k m hm htag
    (self.m_objectMaterials.length + 2) 0 material (Nat.zero_le _) (by omega)
    (fun i u _ hi hui => hfirst i u hi hui)
  simp only [FindMaterial, hlen, if_false, hloop]

/-- Function `FindMaterial` on the empty sequence returns false and leaves the
out-parameter as it was. -/
theorem FindMaterial_empty (self : SceneManager F) (tag : String) (material : OBJECT_MATERIAL F)
    (hempty : self.m_objectMaterials = []) :
    self.FindMaterial tag material = .ok (false, material) := by
  simp [FindMaterial, hempty]

/-- With an empty material sequence `SetShaderMaterial` uploads nothing. -/
theorem SetShaderMaterial_empty (self : SceneManager F) (tag : String)
    (material : OBJECT_MATERIAL F) (hempty : self.m_objectMaterials = []) :
    self.SetShaderMaterial tag material = .ok self := by
  simp [SetShaderMaterial, hempty]

/-- When the tag is found and the shader manager is present, `SetShaderMaterial`
uploads the five fields of the first material with that tag, in the order
ambientColor, ambientStrength, diffuseColor, specularColor, shininess. -/
theorem SetShaderMaterial_found (self : SceneManager F) (sh : ShaderManager F)
    (hsh : self.m_pShaderManager = some sh) (tag : String) (material : OBJECT_MATERIAL F)
    (k : Nat) (m : OBJECT_MATERIAL F) (hm : self.m_objectMaterials[k]? = some m)
    (htag : m.tag = tag)
    (hfirst : ∀ (i : Nat) (u : OBJECT_MATERIAL F), i < k →
      self.m_objectMaterials[i]? = some u → u.tag ≠ tag) :
    self.SetShaderMaterial tag material =
      .ok { self with
            m_pShaderManager := some
              { uploads :=
                  ("material.shininess", .float m.shininess) ::
                  ("material.specularColor", .vec3 m.specularColor) ::
                  ("material.diffuseColor", .vec3 m.diffuseColor) ::
                  ("material.ambientStrength", .float m.ambientStrength) ::
                  ("material.ambientColor", .vec3 m.ambientColor) :: sh.uploads } } := by
  have hklt : k < self.m_objectMaterials.length := (List.getElem?_eq_some_iff.mp hm).1
  have hpos : self.m_objectMaterials.length > 0 := by omega
  have hfind := FindMaterial_hit self tag material k m hm htag hfirst
  simp only [SetShaderMaterial, hpos, if_true, hfind, hsh]
  rfl

/-- C2 (code at the failing input): on a sequence that holds only the material
"table", `FindMaterial("glass", material)` returns true, not false, and leaves
`material` as it was. -/
theorem FindMaterial_unmatched_returns_true :
    Sample.oneMaterialScene.FindMaterial "glass" Sample.staleMaterial =
      .ok (true, Sample.staleMaterial) := by
  apply FindMaterial_miss
  · simp [Sample.oneMaterialScene]
  · intro m hm
    simp only [Sample.oneMaterialScene, List.mem_singleton] at hm
    subst hm
    simp [Sample.tableMaterial]

/-- C3 (code at the failing input): on a sequence that holds only the material
"table", `SetShaderMaterial("glass")` uploads all five material uniforms, with
the contents the uninitialised local `material` happens to have. -/
theorem SetShaderMaterial_unmatched_uploads :
    Sample.oneMaterialScene.SetShaderMaterial "glass" Sample.staleMaterial =
      .ok { Sample.oneMaterialScene with
            m_pShaderManager := some
              { uploads :=
                  [ ("material.shininess", .float Sample.staleMaterial.shininess),
                    ("material.specularColor", .vec3 Sample.staleMaterial.specularColor),
                    ("material.diffuseColor", .vec3 Sample.staleMaterial.diffuseColor),
                    ("material.ambientStrength", .float Sample.staleMaterial.ambientStrength),
                    ("material.ambientColor", .vec3 Sample.staleMaterial.ambientColor) ] } } := by
  have h : Sample.oneMaterialScene.FindMaterial "glass" Sample.staleMaterial =
      .ok (true, Sample.staleMaterial) := by
    apply FindMaterial_miss
    · simp [Sample.oneMaterialScene]
    · intro m hm
      simp only [Sample.oneMaterialScene, List.mem_singleton] at hm
      subst hm
      simp [Sample.tableMaterial]
  unfold SetShaderMaterial
  rw [h]
  rfl

/-- C4: when some material carries the tag, `FindMaterial(tag, out)` returns
true and copies into `out` the five fields of the first material of the
sequence with that tag (index `k`, no earlier index matches), whatever later
materials with the same tag hold; the `tag` field of `out` is not assigned. -/
theorem FindMaterial_first_match (self : SceneManager F) (tag : String)
    (out : OBJECT_MATERIAL F) (k : Nat) (m : OBJECT_MATERIAL F)
    (hm : self.m_objectMaterials[k]? = some m) (htag : m.tag = tag)
    (hfirst : ∀ (i : Nat) (u : OBJECT_MATERIAL F), i < k →
      self.m_objectMaterials[i]? = some u → u.tag ≠ tag) :
    ∃ out2, self.FindMaterial tag out = .ok (true, out2) ∧
      out2.ambientColor = m.ambientColor ∧
      out2.ambientStrength = m.ambientStrength ∧
      out2.diffuseColor = m.diffuseColor ∧
      out2.specularColor = m.specularColor ∧
      out2.shininess = m.shininess ∧
      out2.tag = out.tag :=
  ⟨_, FindMaterial_hit self tag out k m hm htag hfirst, rfl, rfl, rfl, rfl, rfl, rfl⟩

/-- C4 at a sequence with two materials tagged "table": the fields of the first
one are returned. -/
theorem FindMaterial_first_match_witness :
    Sample.duplicateTagScene.m_objectMaterials[0]? = some Sample.tableMaterial ∧
    Sample.duplicateTagScene.m_objectMaterials[1]? = some Sample.duplicateMaterial ∧
    Sample.duplicateMaterial.tag = "table" ∧
    Sample.tableMaterial.tag = "table" ∧
    ∃ out2, Sample.duplicateTagScene.FindMaterial "table" Sample.staleMaterial =
        .ok (true, out2) ∧
      out2.ambientColor = Sample.tableMaterial.ambientColor ∧
      out2.ambientStrength = Sample.tableMaterial.ambientStrength ∧
      out2.diffuseColor = Sample.tableMaterial.diffuseColor ∧
      out2.specularColor = Sample.tableMaterial.specularColor ∧
      out2.shininess = Sample.tableMaterial.shininess ∧
      out2.tag = Sample.staleMaterial.tag :=
  ⟨rfl, rfl, rfl, rfl,
    FindMaterial_first_match Sample.duplicateTagScene "table" Sample.staleMaterial 0
      Sample.tableMaterial rfl rfl (fun i _ hi => absurd hi (Nat.not_lt_zero i))⟩

end SceneManager

/-! ## Transform composition -/

namespace glm

variable {F : Type} [CommRing F]

/-- The GLM product of two `mat4` values is the product of the matrices they
stand for, in the same order. -/
theorem mat4.toMatrix_mul (a b : mat4 F) : (a.mul b).toMatrix = a.toMatrix * b.toMatrix := by
  ext i j
  fin_cases i <;> fin_cases j <;>
    (simp only [Matrix.mul_apply, Fin.sum_univ_four]
     simp only [mat4.mul, mat4.toMatrix, vec4.add, vec4.smul]
     simp
     try ring)

/-- The GLM product of a `mat4` and a `vec4` distributes over the matrix
product: `(a * b) * v = a * (b * v)`. -/
theorem mat4.mul_mulVec (a b : mat4 F) (v : vec4 F) :
    (a.mul b).mulVec v = a.mulVec (b.mulVec v) := by
  simp only [mat4.mul, mat4.mulVec, vec4.add, vec4.smul, vec4.mk.injEq]
  refine ⟨?_, ?_, ?_, ?_⟩ <;> ring

/-- The matrix `glm::translate(v)` builds. -/
theorem toMatrix_translate (v : vec3 F) : (translate v).toMatrix = Spec.Translation v := by
  ext i j
  fin_cases i <;> fin_cases j <;>
    simp [translate, translateM, mat4.identity, mat4.toMatrix, vec4.add, vec4.smul,
      Spec.Translation]

/-- The matrix `glm::scale(v)` builds. -/
theorem toMatrix_scale (v : vec3 F) : (scale v).toMatrix = Spec.Scale v := by
  ext i j
  fin_cases i <;> fin_cases j <;>
    simp [scale, scaleM, mat4.identity, mat4.toMatrix, vec4.smul, Spec.Scale]

/-- The matrix `glm::rotate(angle, (1, 0, 0))` builds. -/
theorem toMatrix_rotate_x (fns : ScalarFns F) (hsq : fns.inversesqrt 1 = 1) (angle : F) :
    (rotate fns angle { x := 1, y := 0, z := 0 }).toMatrix = Spec.RotationX fns angle := by
  ext i j
  fin_cases i <;> fin_cases j <;>
    simp [rotate, rotateM, normalize, dot, vec3.smul, mat4.identity, mat4.toMatrix, vec4.add,
      vec4.smul, Spec.RotationX, hsq]

/-- The matrix `glm::rotate(angle, (0, 1, 0))` builds. -/
theorem toMatrix_rotate_y (fns : ScalarFns F) (hsq : fns.inversesqrt 1 = 1) (angle : F) :
    (rotate fns angle { x := 0, y := 1, z := 0 }).toMatrix = Spec.RotationY fns angle := by
  ext i j
  fin_cases i <;> fin_cases j <;>
    simp [rotate, rotateM, normalize, dot, vec3.smul, mat4.identity, mat4.toMatrix, vec4.add,
      vec4.smul, Spec.RotationY, hsq]

/-- The matrix `glm::rotate(angle, (0, 0, 1))` builds. -/
theorem toMatrix_rotate_z (fns : ScalarFns F) (hsq : fns.inversesqrt 1 = 1) (angle : F) :
    (rotate fns angle { x := 0, y := 0, z := 1 }).toMatrix = Spec.RotationZ fns angle := by
  ext i j
  fin_cases i <;> fin_cases j <;>
    simp [rotate, rotateM, normalize, dot, vec3.smul, mat4.identity, mat4.toMatrix, vec4.add,
      vec4.smul, Spec.RotationZ, hsq]

/-- The matrix `glm::translate(t)` applied to a point moves it by `t`. -/
theorem translate_mulVec_point (t p : vec3 F) :
    (translate t).mulVec (Spec.toPoint p) = Spec.toPoint (Spec.translatePoint t p) := by
  simp only [translate, translateM, mat4.identity, mat4.mulVec, vec4.add, vec4.smul,
    Spec.toPoint, Spec.translatePoint, vec4.mk.injEq]
  refine ⟨?_, ?_, ?_, ?_⟩ <;> ring

/-- The matrix `glm::scale(v)` applied to a point scales it by `v`. -/
theorem scale_mulVec_point (v p : vec3 F) :
    (scale v).mulVec (Spec.toPoint p) = Spec.toPoint (Spec.scalePoint v p) := by
  simp only [scale, scaleM, mat4.identity, mat4.mulVec, vec4.smul, Spec.toPoint,
    Spec.scalePoint, vec4.mk.injEq]
  refine ⟨?_, ?_, ?_, ?_⟩ <;> ring

/-- The matrix `glm::rotate(angle, (1, 0, 0))` applied to a point rotates it
about the X axis. -/
theorem rotate_x_mulVec_point (fns : ScalarFns F) (hsq : fns.inversesqrt 1 = 1) (angle : F)
    (p : vec3 F) :
    (rotate fns angle { x := 1, y := 0, z := 0 }).mulVec (Spec.toPoint p) =
      Spec.toPoint (Spec.rotateXPoint fns angle p) := by
  have hd : dot ({ x := 1, y := 0, z := 0 } : vec3 F) { x := 1, y := 0, z := 0 } = 1 := by
    simp [dot]
  simp only [rotate, rotateM, normalize, hd, hsq, vec3.smul, mat4.identity, mat4.mulVec,
    vec4.add, vec4.smul, Spec.toPoint, Spec.rotateXPoint, vec4.mk.injEq]
  refine ⟨?_, ?_, ?_, ?_⟩ <;> ring

/-- The matrix `glm::rotate(angle, (0, 1, 0))` applied to a point rotates it
about the Y axis. -/
theorem rotate_y_mulVec_point (fns : ScalarFns F) (hsq : fns.inversesqrt 1 = 1) (angle : F)
    (p : vec3 F) :
    (rotate fns angle { x := 0, y := 1, z := 0 }).mulVec (Spec.toPoint p) =
      Spec.toPoint (Spec.rotateYPoint fns angle p) := by
  have hd : dot ({ x := 0, y := 1, z := 0 } : vec3 F) { x := 0, y := 1, z := 0 } = 1 := by
    simp [dot]
  simp only [rotate, rotateM, normalize, hd, hsq, vec3.smul, mat4.identity, mat4.mulVec,
    vec4.add, vec4.smul, Spec.toPoint, Spec.rotateYPoint, vec4.mk.injEq]
  refine ⟨?_, ?_, ?_, ?_⟩ <;> ring

/-- The matrix `glm::rotate(angle, (0, 0, 1))` applied to a point rotates it
about the Z axis. -/
theorem rotate_z_mulVec_point (fns : ScalarFns F) (hsq : fns.inversesqrt 1 = 1) (angle : F)
    (p : vec3 F) :
    (rotate fns angle { x := 0, y := 0, z := 1 }).mulVec (Spec.toPoint p) =
      Spec.toPoint (Spec.rotateZPoint fns angle p) := by
  have hd : dot ({ x := 0, y := 0, z := 1 } : vec3 F) { x := 0, y := 0, z := 1 } = 1 := by
    simp [dot]
  simp only [rotate, rotateM, normalize, hd, hsq, vec3.smul, mat4.identity, mat4.mulVec,
    vec4.add, vec4.smul, Spec.toPoint, Spec.rotateZPoint, vec4.mk.injEq]
  refine ⟨?_, ?_, ?_, ?_⟩ <;> ring

end glm

namespace SceneManager

variable {F : Type} [CommRing F]

/-- The matrix that `SetTransformations` composes stands for the product
translation, X-rotation, Y-rotation, Z-rotation, scale. -/
theorem modelView_toMatrix (fns : glm.ScalarFns F) (hsq : fns.inversesqrt 1 = 1)
    (scaleXYZ : glm.vec3 F) (XrotationDegrees YrotationDegrees ZrotationDegrees : F)
    (positionXYZ : glm.vec3 F) :
    (SetTransformations.modelView fns scaleXYZ XrotationDegrees YrotationDegrees
        ZrotationDegrees positionXYZ).toMatrix =
      Spec.Translation positionXYZ *
        Spec.RotationX fns (XrotationDegrees * fns.piOver180) *
        Spec.RotationY fns (YrotationDegrees * fns.piOver180) *
        Spec.RotationZ fns (ZrotationDegrees * fns.piOver180) *
        Spec.Scale scaleXYZ := by
  simp only [SetTransformations.modelView, glm.mat4.toMatrix_mul, glm.toMatrix_translate,
    glm.toMatrix_scale, glm.toMatrix_rotate_x fns hsq, glm.toMatrix_rotate_y fns hsq,
    glm.toMatrix_rotate_z fns hsq, glm.radians]

/-- The composed matrix applied to a point: the point is scaled, rotated about
Z, then about Y, then about X, and translated. -/
theorem modelView_mulVec_point (fns : glm.ScalarFns F) (hsq : fns.inversesqrt 1 = 1)
    (scaleXYZ : glm.vec3 F) (XrotationDegrees YrotationDegrees ZrotationDegrees : F)
    (positionXYZ p : glm.vec3 F) :
    (SetTransformations.modelView fns scaleXYZ XrotationDegrees YrotationDegrees
        ZrotationDegrees positionXYZ).mulVec (Spec.toPoint p) =
      Spec.toPoint (Spec.scaleZYXThenTranslate fns scaleXYZ XrotationDegrees YrotationDegrees
        ZrotationDegrees positionXYZ p) := by
  simp only [SetTransformations.modelView, glm.mat4.mul_mulVec, glm.scale_mulVec_point,
    glm.rotate_z_mulVec_point fns hsq, glm.rotate_y_mulVec_point fns hsq,
    glm.rotate_x_mulVec_point fns hsq, glm.translate_mulVec_point, glm.radians,
    Spec.scaleZYXThenTranslate]

/-- C5: with a shader manager present, `SetTransformations` uploads as the
uniform `model` a matrix that stands for the product
Translation(position) * RotationX(x * pi/180) * RotationY(y * pi/180) *
RotationZ(z * pi/180) * Scale(scale), in that order. -/
theorem SetTransformations_uploads_T_RX_RY_RZ_S (self : SceneManager F) (sh : ShaderManager F)
    (hsh : self.m_pShaderManager = some sh) (fns : glm.ScalarFns F)
    (hsq : fns.inversesqrt 1 = 1) (scaleXYZ : glm.vec3 F)
    (XrotationDegrees YrotationDegrees ZrotationDegrees : F) (positionXYZ : glm.vec3 F) :
    ∃ M : glm.mat4 F,
      self.SetTransformations fns scaleXYZ XrotationDegrees YrotationDegrees ZrotationDegrees
          positionXYZ =
        { self with m_pShaderManager := some (sh.setMat4Value "model" M) } ∧
      M.toMatrix =
        Spec.Translation positionXYZ *
          Spec.RotationX fns (XrotationDegrees * fns.piOver180) *
          Spec.RotationY fns (YrotationDegrees * fns.piOver180) *
          Spec.RotationZ fns (ZrotationDegrees * fns.piOver180) *
          Spec.Scale scaleXYZ := by
  refine ⟨SetTransformations.modelView fns scaleXYZ XrotationDegrees YrotationDegrees
    ZrotationDegrees positionXYZ, ?_, modelView_toMatrix fns hsq _ _ _ _ _⟩
  simp only [SetTransformations, hsh, g_ModelName]

/-- C5 at a concrete input over the reals: scale (2, 1, 1), rotations
(90, 0, 0) degrees, translation (0, 1, 0). -/
theorem SetTransformations_uploads_T_RX_RY_RZ_S_witness :
    (fun x : ℝ => (Real.sqrt x)⁻¹) 1 = 1 ∧
    ∃ M : glm.mat4 ℝ,
      (SceneManager.new (some { uploads := [] })).SetTransformations
          ⟨Real.sin, Real.cos, fun x => (Real.sqrt x)⁻¹, Real.pi / 180⟩
          { x := 2, y := 1, z := 1 } 90 0 0 { x := 0, y := 1, z := 0 } =
        { SceneManager.new (some { uploads := [] }) with
          m_pShaderManager :=
            some ((ShaderManager.mk []).setMat4Value "model" M) } ∧
      M.toMatrix =
        Spec.Translation ({ x := 0, y := 1, z := 0 } : glm.vec3 ℝ) *
          Spec.RotationX ⟨Real.sin, Real.cos, fun x => (Real.sqrt x)⁻¹, Real.pi / 180⟩
            (90 * (Real.pi / 180)) *
          Spec.RotationY ⟨Real.sin, Real.cos, fun x => (Real.sqrt x)⁻¹, Real.pi / 180⟩
            (0 * (Real.pi / 180)) *
          Spec.RotationZ ⟨Real.sin, Real.cos, fun x => (Real.sqrt x)⁻¹, Real.pi / 180⟩
            (0 * (Real.pi / 180)) *
          Spec.Scale ({ x := 2, y := 1, z := 1 } : glm.vec3 ℝ) :=
  ⟨by simp,
    SetTransformations_uploads_T_RX_RY_RZ_S (SceneManager.new (some { uploads := [] }))
      { uploads := [] } rfl
      ⟨Real.sin, Real.cos, fun x => (Real.sqrt x)⁻¹, Real.pi / 180⟩ (by simp)
      { x := 2, y := 1, z := 1 } 90 0 0 { x := 0, y := 1, z := 0 }⟩

/-- C6 as stated fails: with unit scale, no translation and rotations
(90, 90, 0) degrees, the composed matrix sends the point (0, 1, 0) to a point
with x-coordinate 0, while scaling, rotating about X, then about Y, then about
Z and translating sends it to (1, 0, 0). -/
theorem modelView_not_scale_X_Y_Z_translate :
    (SetTransformations.modelView
        (⟨Real.sin, Real.cos, fun x => (Real.sqrt x)⁻¹, Real.pi / 180⟩ : glm.ScalarFns ℝ)
        { x := 1, y := 1, z := 1 } 90 90 0 { x := 0, y := 0, z := 0 }).mulVec
        (Spec.toPoint { x := 0, y := 1, z := 0 }) ≠
      Spec.toPoint
        (Spec.scaleXYZThenTranslate
          (⟨Real.sin, Real.cos, fun x => (Real.sqrt x)⁻¹, Real.pi / 180⟩ : glm.ScalarFns ℝ)
          { x := 1, y := 1, z := 1 } 90 90 0 { x := 0, y := 0, z := 0 }
          { x := 0, y := 1, z := 0 }) := by
  rw [modelView_mulVec_point _ (by simp)]
  intro h
  have hx := congrArg glm.vec4.x h
  have h90 : (90 : ℝ) * (Real.pi / 180) = Real.pi / 2 := by ring
  simp [Spec.toPoint, Spec.scaleZYXThenTranslate, Spec.scaleXYZThenTranslate,
    Spec.translatePoint, Spec.rotateXPoint, Spec.rotateYPoint, Spec.rotateZPoint,
    Spec.scalePoint, h90] at hx

/-- C6 (amended): the composed model matrix applied to a point `p` (as the
column vector (p, 1)) gives the point obtained by applying to `p`, in sequence,
the scale first, then the Z-rotation, then the Y-rotation, then the X-rotation,
and the translation last. -/
theorem modelView_applies_scale_Z_Y_X_translate (fns : glm.ScalarFns F)
    (hsq : fns.inversesqrt 1 = 1) (scaleXYZ : glm.vec3 F)
    (XrotationDegrees YrotationDegrees ZrotationDegrees : F) (positionXYZ p : glm.vec3 F) :
    (SetTransformations.modelView fns scaleXYZ XrotationDegrees YrotationDegrees
        ZrotationDegrees positionXYZ).mulVec (Spec.toPoint p) =
      Spec.toPoint
        (Spec.translatePoint positionXYZ
          (Spec.rotateXPoint fns (XrotationDegrees * fns.piOver180)
            (Spec.rotateYPoint fns (YrotationDegrees * fns.piOver180)
              (Spec.rotateZPoint fns (ZrotationDegrees * fns.piOver180)
                (Spec.scalePoint scaleXYZ p))))) :=
  modelView_mulVec_point fns hsq scaleXYZ XrotationDegrees YrotationDegrees ZrotationDegrees
    positionXYZ p

/-- C6 (amended) at a concrete input over the reals: unit scale, rotations
(90, 90, 0) degrees, no translation, the point (0, 1, 0). -/
theorem modelView_applies_scale_Z_Y_X_translate_witness :
    (fun x : ℝ => (Real.sqrt x)⁻¹) 1 = 1 ∧
    (SetTransformations.modelView
        (⟨Real.sin, Real.cos, fun x => (Real.sqrt x)⁻¹, Real.pi / 180⟩ : glm.ScalarFns ℝ)
        { x := 1, y := 1, z := 1 } 90 90 0 { x := 0, y := 0, z := 0 }).mulVec
        (Spec.toPoint { x := 0, y := 1, z := 0 }) =
      Spec.toPoint ({ x := 0, y := 0, z := 1 } : glm.vec3 ℝ) := by
  refine ⟨by simp, ?_⟩
  rw [modelView_applies_scale_Z_Y_X_translate _ (by simp)]
  have h90 : (90 : ℝ) * (Real.pi / 180) = Real.pi / 2 := by ring
  simp [Spec.toPoint, Spec.translatePoint, Spec.rotateXPoint, Spec.rotateYPoint,
    Spec.rotateZPoint, Spec.scalePoint, h90]

end SceneManager

/-! ## Registration, texture and colour selection -/

namespace SceneManager

variable {F : Type}

/-- C1 at two registrations: "table_surface" is found in slot 0, "vase_bottom"
in slot 1, and "pumpkin" is not found. -/
theorem FindTextureSlot_registration_index_witness :
    Sample.twoLoads.length ≤ 16 ∧ (∀ l ∈ Sample.twoLoads, l.Decodable) ∧
    ∃ s : SceneManager ℚ,
      (SceneManager.new none).CreateGLTextures Sample.twoLoads = .ok ([true, true], s) ∧
      s.FindTextureSlot "table_surface" = .ok 0 ∧
      s.FindTextureSlot "vase_bottom" = .ok 1 ∧
      s.FindTextureSlot "pumpkin" = .ok (-1) := by
  have hlen : Sample.twoLoads.length ≤ 16 := by decide
  have hdec : ∀ l ∈ Sample.twoLoads, l.Decodable := by
    intro l hl
    simp only [Sample.twoLoads, List.mem_cons, List.mem_singleton, List.not_mem_nil,
      or_false] at hl
    rcases hl with rfl | rfl
    · exact ⟨_, rfl, Or.inl rfl⟩
    · exact ⟨_, rfl, Or.inr rfl⟩
  obtain ⟨s, hs, -, hmiss, hhit, -⟩ :=
    FindTextureSlot_registration_index (F := ℚ) none Sample.twoLoads hlen hdec
  refine ⟨hlen, hdec, s, hs, ?_, ?_, ?_⟩
  · exact hhit "table_surface" 0 _ rfl rfl (fun j _ hj => absurd hj (Nat.not_lt_zero j))
  · refine hhit "vase_bottom" 1 _ rfl rfl ?_
    intro j l2 hj hl2
    obtain rfl : j = 0 := by omega
    simp only [Sample.twoLoads, List.getElem?_cons_zero, Option.some.injEq] at hl2
    subst hl2
    decide
  · apply hmiss
    decide

/-- C7 (code at the failing input): after sixteen successful registrations the
count is 16, and a further `CreateGLTexture` call with a decodable 3-channel
image does not return false: it goes on to the assignment
`m_textureIDs[16].ID = textureID`, past the end of the array. -/
theorem CreateGLTexture_seventeenth_out_of_bounds :
    ∃ s : SceneManager ℚ,
      (SceneManager.new none).CreateGLTextures Sample.sixteenLoads =
        .ok (List.replicate 16 true, s) ∧
      s.m_loadedTextures = 16 ∧ s.m_textureIDs.length = 16 ∧
      s.CreateGLTexture (some { width := 64, height := 64, colorChannels := 3 }) 17
        "seventeenth" = .error (.arrayOutOfBounds 16) := by
  have hdec : ∀ l ∈ Sample.sixteenLoads, l.Decodable := by
    intro l hl
    simp only [Sample.sixteenLoads, List.mem_map] at hl
    obtain ⟨tag, -, rfl⟩ := hl
    exact ⟨_, rfl, Or.inl rfl⟩
  obtain ⟨s, hs, hn, hlen, -, -, -, -⟩ :=
    CreateGLTextures_ok (F := ℚ) Sample.sixteenLoads (SceneManager.new none) (by decide) hdec
  have hn2 : s.m_loadedTextures = 16 := hn
  have hlen2 : s.m_textureIDs.length = 16 := by rw [hlen]; rfl
  refine ⟨s, hs, hn2, hlen2, ?_⟩
  simp [CreateGLTexture, hn2, hlen2]

/-- C8: with fewer than 16 entries in the 16-entry array, `CreateGLTexture`
returns; it returns false exactly when the image cannot be decoded or its
channel count is neither 3 nor 4, and then the object is unchanged; otherwise
it returns true, the entry at the old count is `{tag, new handle}`, the count
is one more, and every other entry is unchanged. -/
theorem CreateGLTexture_below_capacity (self : SceneManager F) (image : Option Image)
    (textureID : Nat) (tag : String) (hroom : self.m_loadedTextures < 16)
    (hsize : self.m_textureIDs.length = 16) :
    ∃ (b : Bool) (s : SceneManager F),
      self.CreateGLTexture image textureID tag = .ok (b, s) ∧
      (b = false ↔
        (image = none ∨
          ∃ img, image = some img ∧ img.colorChannels ≠ 3 ∧ img.colorChannels ≠ 4)) ∧
      (b = false → s = self) ∧
      (b = true →
        s.m_loadedTextures = self.m_loadedTextures + 1 ∧
        s.m_textureIDs[self.m_loadedTextures]? = some { tag := tag, ID := textureID } ∧
        (∀ i : Nat, i ≠ self.m_loadedTextures → s.m_textureIDs[i]? = self.m_textureIDs[i]?) ∧
        s.m_textureIDs.length = 16 ∧
        s.m_objectMaterials = self.m_objectMaterials ∧
        s.m_pShaderManager = self.m_pShaderManager) := by
  have hfree : self.m_loadedTextures < self.m_textureIDs.length := by omega
  cases image with
  | none =>
    refine ⟨false, self, rfl, ?_, fun _ => rfl, fun h => by cases h⟩
    simp
  | some img =>
    by_cases hch : img.colorChannels = 3 ∨ img.colorChannels = 4
    · refine ⟨true, _, CreateGLTexture_ok self img textureID tag hch hfree, ?_,
        (fun h => by cases h), fun _ => ⟨rfl, ?_, ?_, ?_, rfl, rfl⟩⟩
      · constructor
        · intro h; cases h
        · rintro (h | ⟨img2, h, h3, h4⟩)
          · cases h
          · cases h
            rcases hch with h | h
            · exact absurd h h3
            · exact absurd h h4
      · simp only [List.getElem?_set]
        simp [hfree]
      · intro i hi
        simp only [List.getElem?_set]
        rw [if_neg (fun h => hi h.symm)]
      · simp only [List.length_set]
        exact hsize
    · refine ⟨false, self, by simp [CreateGLTexture, hch], ?_, fun _ => rfl,
        fun h => by cases h⟩
      simp only [true_iff]
      right
      exact ⟨img, rfl, fun h => hch (Or.inl h), fun h => hch (Or.inr h)⟩

/-- C8 on the freshly constructed object with a 4-channel image. -/
theorem CreateGLTexture_below_capacity_witness :
    (SceneManager.new (none : Option (ShaderManager ℚ))).m_loadedTextures < 16 ∧
    (SceneManager.new (none : Option (ShaderManager ℚ))).m_textureIDs.length = 16 ∧
    ∃ (b : Bool) (s : SceneManager ℚ),
      (SceneManager.new none).CreateGLTexture
          (some { width := 8, height := 8, colorChannels := 4 }) 5 "pumpkin" = .ok (b, s) ∧
      b = true ∧ s.m_loadedTextures = 1 ∧
      s.m_textureIDs[0]? = some { tag := "pumpkin", ID := 5 } := by
  obtain ⟨b, s, hs, hiff, -, htrue⟩ :=
    CreateGLTexture_below_capacity (SceneManager.new (none : Option (ShaderManager ℚ)))
      (some { width := 8, height := 8, colorChannels := 4 }) 5 "pumpkin" (by decide) rfl
  have hb : b = true := by
    cases b with
    | true => rfl
    | false =>
      rcases hiff.mp rfl with h | ⟨img, h, -, h4⟩
      · cases h
      · cases h
        exact absurd rfl h4
  obtain ⟨h1, h2, -⟩ := htrue hb
  exact ⟨by decide, rfl, b, s, hs, hb, h1, h2⟩

/-- Function `FindTextureSlot` returns on every object whose count does not exceed the
array size: -1 when no loaded entry carries the tag, otherwise the smallest
index of a loaded entry that does. -/
theorem FindTextureSlot_spec (self : SceneManager F) (tag : String)
    (hcap : self.m_loadedTextures ≤ self.m_textureIDs.length) :
    ∃ slot : Int, self.FindTextureSlot tag = .ok slot ∧
      ((slot = -1 ∧
          ∀ (i : Nat) (t : TEXTURE_INFO), i < self.m_loadedTextures →
            self.m_textureIDs[i]? = some t → t.tag ≠ tag) ∨
        ∃ (k : Nat) (t : TEXTURE_INFO), slot = (k : Int) ∧ k < self.m_loadedTextures ∧
          self.m_textureIDs[k]? = some t ∧ t.tag = tag ∧
          ∀ (i : Nat) (u : TEXTURE_INFO), i < k → self.m_textureIDs[i]? = some u →
            u.tag ≠ tag) := by
  classical
  by_cases h : ∃ k, k < self.m_loadedTextures ∧
      ∃ t, self.m_textureIDs[k]? = some t ∧ t.tag = tag
  · obtain ⟨hk, t, ht, htag⟩ := Nat.find_spec h
    have hmin : ∀ (i : Nat) (u : TEXTURE_INFO), i < Nat.find h →
        self.m_textureIDs[i]? = some u → u.tag ≠ tag := by
      intro i u hi hui hu
      exact Nat.find_min h hi ⟨by omega, u, hui, hu⟩
    exact ⟨(Nat.find h : Int), FindTextureSlot_hit self tag _ t hk ht htag hmin,
      Or.inr ⟨_, t, rfl, hk, ht, htag, hmin⟩⟩
  · have hmiss : ∀ (i : Nat) (t : TEXTURE_INFO), i < self.m_loadedTextures →
        self.m_textureIDs[i]? = some t → t.tag ≠ tag := by
      intro i t hi hti htag
      exact h ⟨i, hi, t, hti, htag⟩
    exact ⟨-1, FindTextureSlot_miss self tag hcap hmiss, Or.inl ⟨rfl, hmiss⟩⟩

/-- What `SetShaderColor` does when the shader manager is present. -/
theorem SetShaderColor_eq (self : SceneManager F) (sh : ShaderManager F)
    (hsh : self.m_pShaderManager = some sh) (r g b a : F) :
    self.SetShaderColor r g b a =
      { self with
        m_pShaderManager :=
          some ((sh.setIntValue "bUseTexture" 0).setVec4Value "objectColor"
            { x := r, y := g, z := b, w := a }) } := by
  simp only [SetShaderColor, hsh, g_UseTextureName, g_ColorValueName]

/-- What `SetShaderTexture` does when the shader manager is present and the
count does not exceed the array size. -/
theorem SetShaderTexture_eq (self : SceneManager F) (sh : ShaderManager F)
    (hsh : self.m_pShaderManager = some sh) (tag : String) (slot : Int)
    (hslot : self.FindTextureSlot tag = .ok slot) :
    self.SetShaderTexture tag =
      .ok { self with
            m_pShaderManager :=
              some ((sh.setIntValue "bUseTexture" 1).setSampler2DValue "objectTexture"
                slot) } := by
  simp only [SetShaderTexture, hsh, hslot, g_UseTextureName, g_TextureValueName]

/-- The value of `bUseTexture` after the uploads of `SetShaderColor`. -/
theorem uniform_bUseTexture_after_color (sh : ShaderManager F) (c : glm.vec4 F) :
    ((sh.setIntValue "bUseTexture" 0).setVec4Value "objectColor" c).uniform "bUseTexture" =
      some (.int 0) := by
  simp [ShaderManager.uniform, ShaderManager.setVec4Value, ShaderManager.setIntValue,
    ShaderManager.setValue, List.find?]

/-- The value of `bUseTexture` after the uploads of `SetShaderTexture`. -/
theorem uniform_bUseTexture_after_texture (sh : ShaderManager F) (slot : Int) :
    ((sh.setIntValue "bUseTexture" 1).setSampler2DValue "objectTexture" slot).uniform
        "bUseTexture" = some (.int 1) := by
  simp [ShaderManager.uniform, ShaderManager.setSampler2DValue, ShaderManager.setIntValue,
    ShaderManager.setValue, List.find?]

/-- C9: with a shader manager present and a count within the array size,
`SetShaderTexture(tag)` returns without a fault; it uploads `bUseTexture` = 1
(true) and then the sampler `objectTexture` = `FindTextureSlot(tag)`, which is
-1 when no loaded entry carries the tag and otherwise the smallest index of a
loaded entry that does; nothing else of the object changes. -/
theorem SetShaderTexture_uploads_slot (self : SceneManager F) (sh : ShaderManager F)
    (hsh : self.m_pShaderManager = some sh)
    (hcap : self.m_loadedTextures ≤ self.m_textureIDs.length) (tag : String) :
    ∃ (slot : Int) (sh2 : ShaderManager F),
      self.FindTextureSlot tag = .ok slot ∧
      self.SetShaderTexture tag = .ok { self with m_pShaderManager := some sh2 } ∧
      sh2.uploads =
        ("objectTexture", .sampler2D slot) :: ("bUseTexture", .int 1) :: sh.uploads ∧
      sh2.uniform "bUseTexture" = some (.int 1) ∧
      sh2.uniform "objectTexture" = some (.sampler2D slot) ∧
      ((slot = -1 ∧
          ∀ (i : Nat) (t : TEXTURE_INFO), i < self.m_loadedTextures →
            self.m_textureIDs[i]? = some t → t.tag ≠ tag) ∨
        ∃ (k : Nat) (t : TEXTURE_INFO), slot = (k : Int) ∧ k < self.m_loadedTextures ∧
          self.m_textureIDs[k]? = some t ∧ t.tag = tag ∧
          ∀ (i : Nat) (u : TEXTURE_INFO), i < k → self.m_textureIDs[i]? = some u →
            u.tag ≠ tag) := by
  obtain ⟨slot, hslot, hchar⟩ := FindTextureSlot_spec self tag hcap
  refine ⟨slot, _, hslot, SetShaderTexture_eq self sh hsh tag slot hslot, rfl,
    uniform_bUseTexture_after_texture sh slot, ?_, hchar⟩
  simp [ShaderManager.uniform, ShaderManager.setSampler2DValue, ShaderManager.setIntValue,
    ShaderManager.setValue, List.find?]

/-- C9 on a scene with two textures: "vase_bottom" selects slot 1, and the
unregistered "pumpkin" uploads the sentinel -1. -/
theorem SetShaderTexture_uploads_slot_witness :
    Sample.twoTextureScene.m_pShaderManager = some { uploads := [] } ∧
    Sample.twoTextureScene.m_loadedTextures ≤ Sample.twoTextureScene.m_textureIDs.length ∧
    Sample.twoTextureScene.SetShaderTexture "vase_bottom" =
      .ok { Sample.twoTextureScene with
            m_pShaderManager :=
              some { uploads := [("objectTexture", .sampler2D 1), ("bUseTexture", .int 1)] } } ∧
    Sample.twoTextureScene.SetShaderTexture "pumpkin" =
      .ok { Sample.twoTextureScene with
            m_pShaderManager :=
              some { uploads :=
                [("objectTexture", .sampler2D (-1)), ("bUseTexture", .int 1)] } } := by
  have hsh : Sample.twoTextureScene.m_pShaderManager = some { uploads := [] } := rfl
  have hcap : Sample.twoTextureScene.m_loadedTextures ≤
      Sample.twoTextureScene.m_textureIDs.length := by decide
  refine ⟨hsh, hcap, ?_, ?_⟩
  · obtain ⟨slot, sh2, hslot, hset, hup, -⟩ :=
      SetShaderTexture_uploads_slot Sample.twoTextureScene _ hsh hcap "vase_bottom"
    have h1 : Sample.twoTextureScene.FindTextureSlot "vase_bottom" = .ok 1 := rfl
    rw [h1] at hslot
    cases hslot
    rw [hset]
    cases sh2
    simp only [] at hup
    subst hup
    rfl
  · obtain ⟨slot, sh2, hslot, hset, hup, -⟩ :=
      SetShaderTexture_uploads_slot Sample.twoTextureScene _ hsh hcap "pumpkin"
    have h1 : Sample.twoTextureScene.FindTextureSlot "pumpkin" = .ok (-1) := rfl
    rw [h1] at hslot
    cases hslot
    rw [hset]
    cases sh2
    simp only [] at hup
    subst hup
    rfl

/-- After a non-empty run of `SetShaderColor` / `SetShaderTexture` calls the
uniform `bUseTexture` holds what the last call uploaded. -/
theorem runColorCalls_bUseTexture (rest : List (ColorCall F)) :
    ∀ (c : ColorCall F) (self : SceneManager F) (sh : ShaderManager F),
      self.m_pShaderManager = some sh →
      self.m_loadedTextures ≤ self.m_textureIDs.length →
      ∃ (s2 : SceneManager F) (sh2 : ShaderManager F),
        self.runColorCalls (c :: rest) = .ok s2 ∧ s2.m_pShaderManager = some sh2 ∧
        sh2.uniform "bUseTexture" =
          some (.int ((c :: rest).getLast (List.cons_ne_nil c rest)).useTexture) := by
  induction rest with
  | nil =>
    intro c self sh hsh hcap
    cases c with
    | SetShaderColor r g b a =>
      refine ⟨{ self with
                m_pShaderManager :=
                  some ((sh.setIntValue "bUseTexture" 0).setVec4Value "objectColor"
                    { x := r, y := g, z := b, w := a }) },
        _, ?_, rfl, uniform_bUseTexture_after_color sh ⟨r, g, b, a⟩⟩
      simp only [runColorCalls, SetShaderColor_eq self sh hsh]
    | SetShaderTexture t =>
      obtain ⟨slot, hslot, -⟩ := FindTextureSlot_spec self t hcap
      refine ⟨{ self with
                m_pShaderManager :=
                  some ((sh.setIntValue "bUseTexture" 1).setSampler2DValue "objectTexture"
                    slot) },
        _, ?_, rfl, uniform_bUseTexture_after_texture sh slot⟩
      simp only [runColorCalls, SetShaderTexture_eq self sh hsh t slot hslot]
  | cons d rest ih =>
    intro c self sh hsh hcap
    have hlast : (c :: d :: rest).getLast (List.cons_ne_nil c (d :: rest)) =
        (d :: rest).getLast (List.cons_ne_nil d rest) := List.getLast_cons_cons c d rest
    rw [hlast]
    cases c with
    | SetShaderColor r g b a =>
      obtain ⟨s2, sh2, hrun, hs2, hu⟩ := ih d (self.SetShaderColor r g b a) _
        (by rw [SetShaderColor_eq self sh hsh]) (by rw [SetShaderColor_eq self sh hsh]; exact hcap)
      exact ⟨s2, sh2, by simpa only [runColorCalls] using hrun, hs2, hu⟩
    | SetShaderTexture t =>
      obtain ⟨slot, hslot, -⟩ := FindTextureSlot_spec self t hcap
      have hstep := SetShaderTexture_eq self sh hsh t slot hslot
      obtain ⟨s2, sh2, hrun, hs2, hu⟩ := ih d
        { self with
          m_pShaderManager :=
            some ((sh.setIntValue "bUseTexture" 1).setSampler2DValue "objectTexture" slot) }
        _ rfl hcap
      refine ⟨s2, sh2, ?_, hs2, hu⟩
      simp only [runColorCalls, hstep]
      exact hrun

/-- C10: with a shader manager present, `SetShaderColor(r, g, b, a)` sets
`objectColor` to (r, g, b, a) and `bUseTexture` to 0 (false); and after every
non-empty sequence of `SetShaderColor` and `SetShaderTexture` calls
`bUseTexture` is 0 (false) exactly when the last call was `SetShaderColor`,
and 1 (true) exactly when it was `SetShaderTexture`. -/
theorem bUseTexture_false_iff_last_SetShaderColor (self : SceneManager F)
    (sh : ShaderManager F) (hsh : self.m_pShaderManager = some sh)
    (hcap : self.m_loadedTextures ≤ self.m_textureIDs.length) :
    (∀ r g b a : F, ∃ sh2 : ShaderManager F,
      self.SetShaderColor r g b a = { self with m_pShaderManager := some sh2 } ∧
      sh2.uniform "objectColor" = some (.vec4 { x := r, y := g, z := b, w := a }) ∧
      sh2.uniform "bUseTexture" = some (.int 0)) ∧
    (∀ calls : List (ColorCall F), calls ≠ [] →
      ∃ (s2 : SceneManager F) (sh2 : ShaderManager F),
        self.runColorCalls calls = .ok s2 ∧ s2.m_pShaderManager = some sh2 ∧
        (sh2.uniform "bUseTexture" = some (.int 0) ↔
          ∃ r g b a, calls.getLast? = some (.SetShaderColor r g b a)) ∧
        (sh2.uniform "bUseTexture" = some (.int 1) ↔
          ∃ t, calls.getLast? = some (.SetShaderTexture t))) := by
  constructor
  · intro r g b a
    refine ⟨_, SetShaderColor_eq self sh hsh r g b a, ?_,
      uniform_bUseTexture_after_color sh ⟨r, g, b, a⟩⟩
    simp [ShaderManager.uniform, ShaderManager.setVec4Value, ShaderManager.setIntValue,
      ShaderManager.setValue, List.find?]
  · intro calls hne
    cases calls with
    | nil => exact absurd rfl hne
    | cons c rest =>
      obtain ⟨s2, sh2, hrun, hs2, hu⟩ := runColorCalls_bUseTexture rest c self sh hsh hcap
      refine ⟨s2, sh2, hrun, hs2, ?_, ?_⟩
      · rw [hu, List.getLast?_eq_getLast _ (List.cons_ne_nil c rest)]
        cases (c :: rest).getLast (List.cons_ne_nil c rest) with
        | SetShaderColor r g b a => simp [ColorCall.useTexture]
        | SetShaderTexture t => simp [ColorCall.useTexture]
      · rw [hu, List.getLast?_eq_getLast _ (List.cons_ne_nil c rest)]
        cases (c :: rest).getLast (List.cons_ne_nil c rest) with
        | SetShaderColor r g b a => simp [ColorCall.useTexture]
        | SetShaderTexture t => simp [ColorCall.useTexture]

/-- C10 on a scene with two textures: after texture, colour the flag is 0;
after colour, texture it is 1. -/
theorem bUseTexture_false_iff_last_SetShaderColor_witness :
    Sample.twoTextureScene.m_pShaderManager = some { uploads := [] } ∧
    Sample.twoTextureScene.m_loadedTextures ≤ Sample.twoTextureScene.m_textureIDs.length ∧
    (∃ (s2 : SceneManager ℚ) (sh2 : ShaderManager ℚ),
      Sample.twoTextureScene.runColorCalls
          [.SetShaderTexture "vase_bottom", .SetShaderColor 1 0 0 1] = .ok s2 ∧
        s2.m_pShaderManager = some sh2 ∧ sh2.uniform "bUseTexture" = some (.int 0)) ∧
    (∃ (s2 : SceneManager ℚ) (sh2 : ShaderManager ℚ),
      Sample.twoTextureScene.runColorCalls
          [.SetShaderColor 1 0 0 1, .SetShaderTexture "vase_bottom"] = .ok s2 ∧
        s2.m_pShaderManager = some sh2 ∧ sh2.uniform "bUseTexture" = some (.int 1)) := by
  have hsh : Sample.twoTextureScene.m_pShaderManager = some { uploads := [] } := rfl
  have hcap : Sample.twoTextureScene.m_loadedTextures ≤
      Sample.twoTextureScene.m_textureIDs.length := by decide
  have h := (bUseTexture_false_iff_last_SetShaderColor Sample.twoTextureScene _ hsh hcap).2
  refine ⟨hsh, hcap, ?_, ?_⟩
  · obtain ⟨s2, sh2, hrun, hs2, h0, -⟩ :=
      h [.SetShaderTexture "vase_bottom", .SetShaderColor 1 0 0 1] (by simp)
    exact ⟨s2, sh2, hrun, hs2, h0.mpr ⟨1, 0, 0, 1, rfl⟩⟩
  · obtain ⟨s2, sh2, hrun, hs2, -, h1⟩ :=
      h [.SetShaderColor 1 0 0 1, .SetShaderTexture "vase_bottom"] (by simp)
    exact ⟨s2, sh2, hrun, hs2, h1.mpr ⟨"vase_bottom", rfl⟩⟩

end SceneManager

/-! ## Scroll speed, projection mode and the absent camera -/

namespace ViewManager

variable {F : Type} [LinearOrderedField F]

/-- The code's `std::max` is the maximum of the order. -/
theorem std_max_eq (a b : F) : std.max a b = max a b := by
  unfold std.max
  rcases lt_or_le a b with h | h
  · rw [if_pos h, max_eq_right h.le]
  · rw [if_neg (not_lt.mpr h), max_eq_left h]

/-- A scroll event with a positive `yOffset` adds one half to the speed. -/
theorem scroll_up (s : ViewManager F) (x y : F) (hy : 0 < y) :
    (s.Mouse_Scroll_Wheel_Callback x y).gMovementSpeed = s.gMovementSpeed + 1 / 2 := by
  simp [Mouse_Scroll_Wheel_Callback, hy]

/-- A scroll event with a negative `yOffset` takes one half off the speed, but
not below one half. -/
theorem scroll_down (s : ViewManager F) (x y : F) (hy : y < 0) :
    (s.Mouse_Scroll_Wheel_Callback x y).gMovementSpeed =
      max (1 / 2) (s.gMovementSpeed - 1 / 2) := by
  have h : ¬ (0 < y) := not_lt.mpr hy.le
  simp only [Mouse_Scroll_Wheel_Callback, gt_iff_lt, h, hy, if_true, if_false, std_max_eq]

/-- A scroll event with `yOffset` zero changes nothing. -/
theorem scroll_zero (s : ViewManager F) (x : F) : s.Mouse_Scroll_Wheel_Callback x 0 = s := by
  simp [Mouse_Scroll_Wheel_Callback]

/-- One scroll event keeps the speed at or above one half. -/
theorem scroll_floor (s : ViewManager F) (x y : F) (h : 1 / 2 ≤ s.gMovementSpeed) :
    1 / 2 ≤ (s.Mouse_Scroll_Wheel_Callback x y).gMovementSpeed := by
  rcases lt_trichotomy y 0 with hy | hy | hy
  · rw [scroll_down s x y hy]
    exact le_max_left _ _
  · rw [hy, scroll_zero]
    exact h
  · rw [scroll_up s x y hy]
    linarith

/-- Every run of scroll events keeps the speed at or above one half. -/
theorem scrolls_floor (events : List (F × F)) :
    ∀ s : ViewManager F, 1 / 2 ≤ s.gMovementSpeed →
      1 / 2 ≤ (s.scrolls events).gMovementSpeed := by
  induction events with
  | nil => intro s h; exact h
  | cons e rest ih =>
    intro s h
    obtain ⟨x, y⟩ := e
    exact ih _ (scroll_floor s x y h)

/-- After `n` scroll-down events the speed is the start speed less `n` halves,
but not below one half. -/
theorem scrolls_down (events : List (F × F)) :
    ∀ s : ViewManager F, 1 / 2 ≤ s.gMovementSpeed → (∀ e ∈ events, e.2 < 0) →
      (s.scrolls events).gMovementSpeed =
        max (1 / 2) (s.gMovementSpeed - (events.length : F) * (1 / 2)) := by
  induction events with
  | nil =>
    intro s h _
    simp only [scrolls, List.length_nil, Nat.cast_zero, zero_mul, sub_zero]
    exact (max_eq_right h).symm
  | cons e rest ih =>
    intro s h hneg
    obtain ⟨x, y⟩ := e
    have hy : y < 0 := hneg (x, y) (List.mem_cons_self _ _)
    have hrest : ∀ e ∈ rest, e.2 < 0 := fun e he => hneg e (List.mem_cons_of_mem _ he)
    simp only [scrolls]
    rw [ih _ (scroll_floor s x y h) hrest, scroll_down s x y hy]
    simp only [List.length_cons, Nat.cast_add, Nat.cast_one]
    have hn : (0 : F) ≤ (rest.length : F) := Nat.cast_nonneg _
    rcases le_total (1 / 2) (s.gMovementSpeed - 1 / 2) with h1 | h1
    · rw [max_eq_right h1]
      congr 1
      ring
    · rw [max_eq_left h1]
      rw [max_eq_left (by nlinarith), max_eq_left (by nlinarith)]

/-- C11: a positive scroll adds exactly one half to the movement speed, a
negative scroll yields max(0.5, speed - 0.5), a zero scroll changes nothing;
starting from the initial speed 2.5 the speed is at least 0.5 after every
finite sequence of scroll events, and exactly 0.5 after 100 negative ones. -/
theorem gMovementSpeed_never_below_floor (pShaderManager : Option (ShaderManager F)) :
    (ViewManager.new pShaderManager).gMovementSpeed = 5 / 2 ∧
    (∀ (s : ViewManager F) (x y : F), 0 < y →
      (s.Mouse_Scroll_Wheel_Callback x y).gMovementSpeed = s.gMovementSpeed + 1 / 2) ∧
    (∀ (s : ViewManager F) (x y : F), y < 0 →
      (s.Mouse_Scroll_Wheel_Callback x y).gMovementSpeed =
        max (1 / 2) (s.gMovementSpeed - 1 / 2)) ∧
    (∀ (s : ViewManager F) (x : F), s.Mouse_Scroll_Wheel_Callback x 0 = s) ∧
    (∀ events : List (F × F),
      1 / 2 ≤ ((ViewManager.new pShaderManager).scrolls events).gMovementSpeed) ∧
    (∀ events : List (F × F), events.length = 100 → (∀ e ∈ events, e.2 < 0) →
      ((ViewManager.new pShaderManager).scrolls events).gMovementSpeed = 1 / 2) := by
  have h0 : (1 : F) / 2 ≤ (ViewManager.new pShaderManager).gMovementSpeed := by
    simp only [ViewManager.new]
    norm_num
  refine ⟨rfl, scroll_up, scroll_down, scroll_zero, fun events => scrolls_floor events _ h0, ?_⟩
  intro events hlen hneg
  rw [scrolls_down events _ h0 hneg, hlen]
  simp only [ViewManager.new]
  norm_num

/-- C11 over the rationals: 100 scroll-down events with `yOffset` -1 from the
initial speed leave the speed at one half. -/
theorem gMovementSpeed_never_below_floor_witness :
    (List.replicate 100 ((0 : ℚ), (-1 : ℚ))).length = 100 ∧
    (∀ e ∈ List.replicate 100 ((0 : ℚ), (-1 : ℚ)), e.2 < 0) ∧
    ((ViewManager.new none).scrolls (List.replicate 100 ((0 : ℚ), (-1 : ℚ)))).gMovementSpeed =
      1 / 2 := by
  have hlen : (List.replicate 100 ((0 : ℚ), (-1 : ℚ))).length = 100 := List.length_replicate _ _
  have hneg : ∀ e ∈ List.replicate 100 ((0 : ℚ), (-1 : ℚ)), e.2 < 0 := by
    intro e he
    rw [List.eq_of_mem_replicate he]
    norm_num
  exact ⟨hlen, hneg,
    (gMovementSpeed_never_below_floor (F := ℚ) none).2.2.2.2.2 _ hlen hneg⟩

/-- With a camera present `ProcessKeyboardEvents` keeps a camera, leaves the
shader manager, the timing and the mouse state alone and sets the mode from
the keys P and O, O being checked last. -/
theorem ProcessKeyboardEvents_camera (s : ViewManager F) (cam : CameraFns F)
    (keys : Key → Bool) (c0 : Camera F) (hc : s.g_pCamera = some c0) :
    ∃ c : Camera F,
      (s.ProcessKeyboardEvents cam keys).g_pCamera = some c ∧
      (s.ProcessKeyboardEvents cam keys).bOrthographicProjection =
        (if keys .O then true else if keys .P then false else s.bOrthographicProjection) ∧
      (s.ProcessKeyboardEvents cam keys).m_pShaderManager = s.m_pShaderManager ∧
      (s.ProcessKeyboardEvents cam keys).gMovementSpeed = s.gMovementSpeed ∧
      (s.ProcessKeyboardEvents cam keys).gDeltaTime = s.gDeltaTime ∧
      (s.ProcessKeyboardEvents cam keys).gLastFrame = s.gLastFrame := by
  unfold ProcessKeyboardEvents
  cases hesc : keys .ESCAPE <;> simp [hc]

/-- With no camera `ProcessKeyboardEvents` returns right after the escape
check: only the should-close flag can change. -/
theorem ProcessKeyboardEvents_no_camera (s : ViewManager F) (cam : CameraFns F)
    (keys : Key → Bool) (hc : s.g_pCamera = none) :
    s.ProcessKeyboardEvents cam keys =
      { s with windowShouldClose := (if keys .ESCAPE then true else s.windowShouldClose) } := by
  cases s
  simp only [] at hc
  subst hc
  cases hesc : keys .ESCAPE <;> simp [ProcessKeyboardEvents, hesc]

/-- With no camera `Mouse_Position_Callback` makes no camera call; it still
stores the sample, rounded to `float`, as the reference. -/
theorem Mouse_Position_Callback_no_camera (s : ViewManager F) (cam : CameraFns F)
    (r : Rounding F) (x y : F) (hc : s.g_pCamera = none) :
    s.Mouse_Position_Callback cam r x y =
      { s with gLastX := r.toFloat x, gLastY := r.toFloat y, gFirstMouse := false } := by
  cases s
  simp only [] at hc
  subst hc
  rename_i first _ _ _ _
  cases first <;> simp [Mouse_Position_Callback]

/-- With no camera `PrepareSceneView` reaches `g_pCamera->GetViewMatrix()`. -/
theorem PrepareSceneView_no_camera (s : ViewManager F) (cam : CameraFns F)
    (fns : glm.ScalarFns F) (tan : F → F) (currentFrame : F) (keys : Key → Bool)
    (hc : s.g_pCamera = none) :
    s.PrepareSceneView cam fns tan currentFrame keys = .error .nullCamera := by
  cases s
  simp only [] at hc
  subst hc
  cases hesc : keys .ESCAPE <;> simp [PrepareSceneView, ProcessKeyboardEvents, hesc]

/-- C14: with a camera present, one keyboard poll leaves the mode
Orthographic when the O key is down (also when P is down too), Perspective
when only P of the two is down, and as it was when neither is down; the poll
returns for every combination of keys. -/
theorem ProcessKeyboardEvents_mode_last_key_wins (s : ViewManager F) (cam : CameraFns F)
    (keys : Key → Bool) (c0 : Camera F) (hc : s.g_pCamera = some c0) :
    (keys .O = true → (s.ProcessKeyboardEvents cam keys).bOrthographicProjection = true) ∧
    (keys .O = false → keys .P = true →
      (s.ProcessKeyboardEvents cam keys).bOrthographicProjection = false) ∧
    (keys .O = false → keys .P = false →
      (s.ProcessKeyboardEvents cam keys).bOrthographicProjection =
        s.bOrthographicProjection) := by
  obtain ⟨c, -, hmode, -⟩ := ProcessKeyboardEvents_camera s cam keys c0 hc
  rw [hmode]
  refine ⟨fun hO => by simp [hO], fun hO hP => by simp [hO, hP], fun hO hP => by simp [hO, hP]⟩

/-- C14 on the first view manager over the rationals, P and O both down: the
mode becomes Orthographic. -/
theorem ProcessKeyboardEvents_mode_last_key_wins_witness :
    (ViewManager.new (none : Option (ShaderManager ℚ))).g_pCamera =
      some { Position := { x := 0, y := 5, z := 12 }, Front := { x := 0, y := -(1 / 2), z := -2 },
             Up := { x := 0, y := 1, z := 0 }, Zoom := 80 } ∧
    ((ViewManager.new (none : Option (ShaderManager ℚ))).ProcessKeyboardEvents
        Sample.stillCamera (fun k => decide (k = .P ∨ k = .O))).bOrthographicProjection = true :=
  ⟨rfl,
    (ProcessKeyboardEvents_mode_last_key_wins (ViewManager.new none) Sample.stillCamera
      (fun k => decide (k = .P ∨ k = .O)) _ rfl).1 rfl⟩

/-- C15 (what the code does): with `g_pCamera` null the input handlers return
without using the camera (`ProcessKeyboardEvents` only handles the escape key,
`Mouse_Position_Callback` only stores the sample, rounded to `float`), and the
projection mode stays; but `PrepareSceneView` does not complete: after `ProcessKeyboardEvents`
has returned early it evaluates `g_pCamera->GetViewMatrix()` on the null
pointer. -/
theorem PrepareSceneView_null_camera_fault (s : ViewManager F) (cam : CameraFns F)
    (fns : glm.ScalarFns F) (tan : F → F) (currentFrame x y : F) (keys : Key → Bool)
    (hc : s.g_pCamera = none) :
    s.ProcessKeyboardEvents cam keys =
      { s with windowShouldClose := (if keys .ESCAPE then true else s.windowShouldClose) } ∧
    (∀ r : Rounding F, s.Mouse_Position_Callback cam r x y =
      { s with gLastX := r.toFloat x, gLastY := r.toFloat y, gFirstMouse := false }) ∧
    s.PrepareSceneView cam fns tan currentFrame keys = .error .nullCamera :=
  ⟨ProcessKeyboardEvents_no_camera s cam keys hc,
    fun r => Mouse_Position_Callback_no_camera s cam r x y hc,
    PrepareSceneView_no_camera s cam fns tan currentFrame keys hc⟩

/-- C15 over the reals: the view manager without a camera, no key down, at
time 1. -/
theorem PrepareSceneView_null_camera_fault_witness :
    (Sample.noCameraView : ViewManager ℝ).g_pCamera = none ∧
    (Sample.noCameraView : ViewManager ℝ).PrepareSceneView Sample.stillCamera
        ⟨Real.sin, Real.cos, fun x => (Real.sqrt x)⁻¹, Real.pi / 180⟩ Real.tan 1
        Sample.noKeys = .error .nullCamera :=
  ⟨rfl,
    (PrepareSceneView_null_camera_fault (Sample.noCameraView : ViewManager ℝ)
      Sample.stillCamera ⟨Real.sin, Real.cos, fun x => (Real.sqrt x)⁻¹, Real.pi / 180⟩
      Real.tan 1 0 0 Sample.noKeys rfl).2.2⟩

/-- C19: with a camera present, a second keyboard poll with the same keys
leaves the mode that the first poll set: Orthographic when O is down,
Perspective when P is down and O is not; so the projection matrix that
`PrepareSceneView` builds for a given camera is the same after two polls as
after one. -/
theorem ProcessKeyboardEvents_mode_idempotent (s : ViewManager F) (cam : CameraFns F)
    (keys : Key → Bool) (c0 : Camera F) (hc : s.g_pCamera = some c0) :
    ((s.ProcessKeyboardEvents cam keys).ProcessKeyboardEvents cam keys).bOrthographicProjection =
        (s.ProcessKeyboardEvents cam keys).bOrthographicProjection ∧
    (keys .O = true →
      ((s.ProcessKeyboardEvents cam keys).ProcessKeyboardEvents cam
        keys).bOrthographicProjection = true) ∧
    (keys .O = false → keys .P = true →
      ((s.ProcessKeyboardEvents cam keys).ProcessKeyboardEvents cam
        keys).bOrthographicProjection = false) ∧
    (∀ (fns : glm.ScalarFns F) (tan : F → F) (c : Camera F),
      PrepareSceneView.projection fns tan
          ((s.ProcessKeyboardEvents cam keys).ProcessKeyboardEvents cam
            keys).bOrthographicProjection c =
        PrepareSceneView.projection fns tan
          (s.ProcessKeyboardEvents cam keys).bOrthographicProjection c) := by
  obtain ⟨c1, hc1, hmode1, -⟩ := ProcessKeyboardEvents_camera s cam keys c0 hc
  obtain ⟨c2, -, hmode2, -⟩ :=
    ProcessKeyboardEvents_camera (s.ProcessKeyboardEvents cam keys) cam keys c1 hc1
  have hidem : ((s.ProcessKeyboardEvents cam keys).ProcessKeyboardEvents cam
      keys).bOrthographicProjection =
      (s.ProcessKeyboardEvents cam keys).bOrthographicProjection := by
    rw [hmode2, hmode1]
    cases keys .O <;> cases keys .P <;> simp
  refine ⟨hidem, ?_, ?_, fun fns tan c => by rw [hidem]⟩
  · intro hO
    rw [hmode2]
    simp [hO]
  · intro hO hP
    rw [hmode2]
    simp [hO, hP]

/-- C19 on the first view manager over the rationals with the O key down. -/
theorem ProcessKeyboardEvents_mode_idempotent_witness :
    (ViewManager.new (none : Option (ShaderManager ℚ))).g_pCamera =
      some { Position := { x := 0, y := 5, z := 12 }, Front := { x := 0, y := -(1 / 2), z := -2 },
             Up := { x := 0, y := 1, z := 0 }, Zoom := 80 } ∧
    (((ViewManager.new (none : Option (ShaderManager ℚ))).ProcessKeyboardEvents
        Sample.stillCamera (Sample.onlyKey .O)).ProcessKeyboardEvents Sample.stillCamera
        (Sample.onlyKey .O)).bOrthographicProjection = true ∧
    ((ViewManager.new (none : Option (ShaderManager ℚ))).ProcessKeyboardEvents
        Sample.stillCamera (Sample.onlyKey .O)).bOrthographicProjection = true := by
  have h := ProcessKeyboardEvents_mode_idempotent (ViewManager.new none)
    (Sample.stillCamera (F := ℚ)) (Sample.onlyKey .O) _ rfl
  exact ⟨rfl, h.2.1 rfl, h.1 ▸ h.2.1 rfl⟩

/-- The matrix `glm::perspective` builds is the standard perspective matrix. -/
theorem toMatrix_perspective (tan : F → F) (fovy aspect near far : F) :
    (glm.perspective tan fovy aspect near far).toMatrix =
      Spec.Perspective tan fovy aspect near far := by
  have h1 : 1 / (aspect * tan (fovy / 2)) = 1 / tan (fovy / 2) / aspect := by
    rw [div_div, mul_comm]
  have h2 : -(far + near) / (far - near) = (far + near) / (near - far) := by
    rw [neg_div, ← div_neg, neg_sub]
  have h3 : -(2 * far * near) / (far - near) = 2 * far * near / (near - far) := by
    rw [neg_div, ← div_neg, neg_sub]
  ext i j
  fin_cases i <;> fin_cases j <;>
    simp [glm.perspective, glm.mat4.toMatrix, Spec.Perspective, h1, h2, h3]
  rw [← h2]
  congr 1
  ring

/-- The matrix `glm::ortho` builds is the standard orthographic matrix. -/
theorem toMatrix_ortho (left right bottom top near far : F) :
    (glm.ortho left right bottom top near far).toMatrix =
      Spec.Orthographic left right bottom top near far := by
  ext i j
  fin_cases i <;> fin_cases j <;>
    simp [glm.ortho, glm.mat4.toMatrix, Spec.Orthographic, neg_div]
  all_goals
    rw [← neg_div]
    congr 1
    ring

/-- With a camera and a shader manager present `PrepareSceneView` returns: it
stores the frame time, polls the keyboard and then uploads the view matrix,
the projection matrix for the mode after the poll, and the camera position. -/
theorem PrepareSceneView_eq (s : ViewManager F) (cam : CameraFns F) (fns : glm.ScalarFns F)
    (tan : F → F) (currentFrame : F) (keys : Key → Bool) (c0 : Camera F)
    (sh : ShaderManager F) (hc : s.g_pCamera = some c0) (hsh : s.m_pShaderManager = some sh) :
    ∃ (s2 : ViewManager F) (c : Camera F),
      s2 = ProcessKeyboardEvents
        { s with gDeltaTime := currentFrame - s.gLastFrame, gLastFrame := currentFrame }
        cam keys ∧
      s2.g_pCamera = some c ∧
      s2.bOrthographicProjection =
        (if keys .O then true else if keys .P then false else s.bOrthographicProjection) ∧
      s.PrepareSceneView cam fns tan currentFrame keys =
        .ok { s2 with
              m_pShaderManager := some
                (((sh.setMat4Value "view" (cam.GetViewMatrix c)).setMat4Value "projection"
                    (PrepareSceneView.projection fns tan s2.bOrthographicProjection c)).setVec3Value
                  "viewPosition" c.Position) } := by
  obtain ⟨c, hc2, hmode, hsh2, -⟩ := ProcessKeyboardEvents_camera
    { s with gDeltaTime := currentFrame - s.gLastFrame, gLastFrame := currentFrame }
    cam keys c0 hc
  refine ⟨_, c, rfl, hc2, hmode, ?_⟩
  have hsh3 := hsh2.trans hsh
  unfold PrepareSceneView
  simp only [g_ViewName, g_ProjectionName]
  generalize ProcessKeyboardEvents _ cam keys = s2 at hc2 hsh3 ⊢
  simp only [hc2, hsh3]

/-- C12: with a camera and a shader manager present and the mode Perspective
after the keyboard poll (O not down, and P down or the mode Perspective
before), `PrepareSceneView` uploads as `projection` the matrix
`glm::perspective(zoom * pi/180, 1000/800, 0.1, 100)`, which is the standard
perspective matrix for the vertical field of view zoom degrees, aspect ratio
1.25, near 0.1 and far 100; `zoom` is the camera zoom after the poll. -/
theorem PrepareSceneView_perspective_projection (s : ViewManager F) (cam : CameraFns F)
    (fns : glm.ScalarFns F) (tan : F → F) (currentFrame : F) (keys : Key → Bool)
    (c0 : Camera F) (sh : ShaderManager F) (hc : s.g_pCamera = some c0)
    (hsh : s.m_pShaderManager = some sh) (hO : keys .O = false)
    (hP : keys .P = true ∨ s.bOrthographicProjection = false) :
    ∃ (s2 : ViewManager F) (c : Camera F) (P : glm.mat4 F),
      s2 = ProcessKeyboardEvents
        { s with gDeltaTime := currentFrame - s.gLastFrame, gLastFrame := currentFrame }
        cam keys ∧
      s2.g_pCamera = some c ∧ s2.bOrthographicProjection = false ∧
      s.PrepareSceneView cam fns tan currentFrame keys =
        .ok { s2 with
              m_pShaderManager := some
                (((sh.setMat4Value "view" (cam.GetViewMatrix c)).setMat4Value "projection"
                    P).setVec3Value "viewPosition" c.Position) } ∧
      P = glm.perspective tan (c.Zoom * fns.piOver180) (1000 / 800) (1 / 10) 100 ∧
      P.toMatrix = Spec.Perspective tan (c.Zoom * fns.piOver180) (5 / 4) (1 / 10) 100 := by
  obtain ⟨s2, c, hs2, hc2, hmode, hrun⟩ :=
    PrepareSceneView_eq s cam fns tan currentFrame keys c0 sh hc hsh
  have hm : s2.bOrthographicProjection = false := by
    rw [hmode]
    rcases hP with hP | hP
    · simp [hO, hP]
    · simp [hO, hP]
  have hP2 : PrepareSceneView.projection fns tan s2.bOrthographicProjection c =
      glm.perspective tan (c.Zoom * fns.piOver180) (1000 / 800) (1 / 10) 100 := by
    rw [hm]
    simp [PrepareSceneView.projection, glm.radians, WINDOW_WIDTH, WINDOW_HEIGHT]
  refine ⟨s2, c, _, hs2, hc2, hm, hrun, hP2, ?_⟩
  rw [hP2, toMatrix_perspective]
  norm_num

/-- C12 at the default pose over the reals, no key down: position (0, 5, 12),
front (0, -0.5, -2), zoom 80 give the standard perspective matrix for 80
degrees, aspect 1.25, near 0.1, far 100. -/
theorem PrepareSceneView_perspective_projection_witness :
    (ViewManager.new (some { uploads := [] }) : ViewManager ℝ).g_pCamera =
      some { Position := { x := 0, y := 5, z := 12 }, Front := { x := 0, y := -(1 / 2), z := -2 },
             Up := { x := 0, y := 1, z := 0 }, Zoom := 80 } ∧
    Sample.noKeys .O = false ∧
    (ViewManager.new (some { uploads := [] }) : ViewManager ℝ).bOrthographicProjection = false ∧
    ∃ (s2 : ViewManager ℝ) (P : glm.mat4 ℝ),
      (ViewManager.new (some { uploads := [] }) : ViewManager ℝ).PrepareSceneView
          Sample.stillCamera ⟨Real.sin, Real.cos, fun x => (Real.sqrt x)⁻¹, Real.pi / 180⟩
          Real.tan 1 Sample.noKeys =
        .ok { s2 with
              m_pShaderManager := some
                ((((ShaderManager.mk []).setMat4Value "view" glm.mat4.identity).setMat4Value
                    "projection" P).setVec3Value "viewPosition" { x := 0, y := 5, z := 12 }) } ∧
      P.toMatrix = Spec.Perspective Real.tan (80 * (Real.pi / 180)) (5 / 4) (1 / 10) 100 := by
  refine ⟨rfl, rfl, rfl, ?_⟩
  obtain ⟨s2, c, P, hs2, hc2, -, hrun, -, hPm⟩ :=
    PrepareSceneView_perspective_projection
      (ViewManager.new (some { uploads := [] }) : ViewManager ℝ) Sample.stillCamera
      ⟨Real.sin, Real.cos, fun x => (Real.sqrt x)⁻¹, Real.pi / 180⟩ Real.tan 1 Sample.noKeys
      _ { uploads := [] } rfl rfl rfl (Or.inr rfl)
  have hcam : s2.g_pCamera =
      some { Position := { x := 0, y := 5, z := 12 }, Front := { x := 0, y := -(1 / 2), z := -2 },
             Up := { x := 0, y := 1, z := 0 }, Zoom := 80 } := by
    rw [hs2]
    rfl
  rw [hcam] at hc2
  cases hc2
  exact ⟨s2, P, hrun, hPm⟩

/-- C13: with a camera and a shader manager present and the mode Orthographic
after the keyboard poll (O down, or P not down and the mode Orthographic
before), `PrepareSceneView` uploads as `projection` the matrix
`glm::ortho(-(zoom/10) * aspect, (zoom/10) * aspect, -(zoom/10), zoom/10, 0.1,
100)` with aspect = 1000/800, which is the standard orthographic matrix for
these bounds; `zoom` is the camera zoom after the poll, the field that also
gives the perspective field of view, and for zoom 80 the half-extents are 10
and 8. -/
theorem PrepareSceneView_orthographic_projection (s : ViewManager F) (cam : CameraFns F)
    (fns : glm.ScalarFns F) (tan : F → F) (currentFrame : F) (keys : Key → Bool)
    (c0 : Camera F) (sh : ShaderManager F) (hc : s.g_pCamera = some c0)
    (hsh : s.m_pShaderManager = some sh)
    (hmode : keys .O = true ∨ (keys .P = false ∧ s.bOrthographicProjection = true)) :
    ∃ (s2 : ViewManager F) (c : Camera F) (P : glm.mat4 F),
      s2 = ProcessKeyboardEvents
        { s with gDeltaTime := currentFrame - s.gLastFrame, gLastFrame := currentFrame }
        cam keys ∧
      s2.g_pCamera = some c ∧ s2.bOrthographicProjection = true ∧
      s.PrepareSceneView cam fns tan currentFrame keys =
        .ok { s2 with
              m_pShaderManager := some
                (((sh.setMat4Value "view" (cam.GetViewMatrix c)).setMat4Value "projection"
                    P).setVec3Value "viewPosition" c.Position) } ∧
      P = glm.ortho (-(c.Zoom / 10) * (1000 / 800)) (c.Zoom / 10 * (1000 / 800))
        (-(c.Zoom / 10)) (c.Zoom / 10) (1 / 10) 100 ∧
      P.toMatrix = Spec.Orthographic (-(c.Zoom / 10) * (5 / 4)) (c.Zoom / 10 * (5 / 4))
        (-(c.Zoom / 10)) (c.Zoom / 10) (1 / 10) 100 ∧
      (c.Zoom = 80 → c.Zoom / 10 * (1000 / 800) = 10 ∧ c.Zoom / 10 = 8) := by
  obtain ⟨s2, c, hs2, hc2, hm0, hrun⟩ :=
    PrepareSceneView_eq s cam fns tan currentFrame keys c0 sh hc hsh
  have hm : s2.bOrthographicProjection = true := by
    rw [hm0]
    rcases hmode with hO | ⟨hP, hb⟩
    · simp [hO]
    · simp [hP, hb]
  have hP2 : PrepareSceneView.projection fns tan s2.bOrthographicProjection c =
      glm.ortho (-(c.Zoom / 10) * (1000 / 800)) (c.Zoom / 10 * (1000 / 800))
        (-(c.Zoom / 10)) (c.Zoom / 10) (1 / 10) 100 := by
    rw [hm]
    simp [PrepareSceneView.projection, WINDOW_WIDTH, WINDOW_HEIGHT]
  refine ⟨s2, c, _, hs2, hc2, hm, hrun, hP2, ?_, ?_⟩
  · rw [hP2, toMatrix_ortho]
    norm_num
  · intro hz
    rw [hz]
    norm_num

/-- C13 at the default pose over the reals with the O key down: zoom 80 gives
the box -10 .. 10 by -8 .. 8. -/
theorem PrepareSceneView_orthographic_projection_witness :
    (ViewManager.new (some { uploads := [] }) : ViewManager ℝ).g_pCamera =
      some { Position := { x := 0, y := 5, z := 12 }, Front := { x := 0, y := -(1 / 2), z := -2 },
             Up := { x := 0, y := 1, z := 0 }, Zoom := 80 } ∧
    Sample.onlyKey .O .O = true ∧
    ∃ (s2 : ViewManager ℝ) (P : glm.mat4 ℝ),
      (ViewManager.new (some { uploads := [] }) : ViewManager ℝ).PrepareSceneView
          Sample.stillCamera ⟨Real.sin, Real.cos, fun x => (Real.sqrt x)⁻¹, Real.pi / 180⟩
          Real.tan 1 (Sample.onlyKey .O) =
        .ok { s2 with
              m_pShaderManager := some
                ((((ShaderManager.mk []).setMat4Value "view" glm.mat4.identity).setMat4Value
                    "projection" P).setVec3Value "viewPosition" { x := 0, y := 5, z := 12 }) } ∧
      P.toMatrix = Spec.Orthographic (-10) 10 (-8) 8 (1 / 10) 100 := by
  refine ⟨rfl, rfl, ?_⟩
  obtain ⟨s2, c, P, hs2, hc2, -, hrun, -, hPm, -⟩ :=
    PrepareSceneView_orthographic_projection
      (ViewManager.new (some { uploads := [] }) : ViewManager ℝ) Sample.stillCamera
      ⟨Real.sin, Real.cos, fun x => (Real.sqrt x)⁻¹, Real.pi / 180⟩ Real.tan 1
      (Sample.onlyKey .O) _ { uploads := [] } rfl rfl (Or.inl rfl)
  have hcam : s2.g_pCamera =
      some { Position := { x := 0, y := 5, z := 12 }, Front := { x := 0, y := -(1 / 2), z := -2 },
             Up := { x := 0, y := 1, z := 0 }, Zoom := 80 } := by
    rw [hs2]
    rfl
  rw [hcam] at hc2
  cases hc2
  refine ⟨s2, P, hrun, ?_⟩
  rw [hPm]
  norm_num

end ViewManager

/-! ## Cursor offsets -/

namespace Sample

/-- The binary exponent of a positive rational that lies between two
neighbouring powers of two. -/
theorem log_two_eq (x : ℚ) (e : Int) (h1 : 2 ^ e ≤ x) (h2 : x < 2 ^ (e + 1)) :
    Int.log 2 x = e := by
  have hx : 0 < x := lt_of_lt_of_le (zpow_pos (by norm_num) e) h1
  have a : e ≤ Int.log 2 x :=
    (Int.zpow_le_iff_le_log (by norm_num) hx).mp (by exact_mod_cast h1)
  have b : Int.log 2 x < e + 1 :=
    (Int.lt_zpow_iff_log_lt (by norm_num) hx).mp (by exact_mod_cast h2)
  omega

/-- Rounding down: a value in the binade of `2 ^ e` that lies less than half a
step above the `n`-th multiple of the step `2 ^ (e + 1 - p)` rounds to that
multiple. -/
theorem roundTo_of_lt_half (p : Nat) (x : ℚ) (e n : Int) (h1 : 2 ^ e ≤ |x|)
    (h2 : |x| < 2 ^ (e + 1)) (hn0 : (n : ℚ) ≤ x / 2 ^ (e + 1 - p))
    (hn1 : x / 2 ^ (e + 1 - p) - n < 1 / 2) : roundTo p x = n * 2 ^ (e + 1 - p) := by
  have hx : x ≠ 0 := by
    intro h
    rw [h, abs_zero] at h1
    exact absurd h1 (not_le.mpr (zpow_pos (by norm_num) e))
  have hfl : ⌊x / 2 ^ (e + 1 - (p : Int))⌋ = n := by
    rw [Int.floor_eq_iff]
    exact ⟨hn0, by linarith⟩
  unfold roundTo
  rw [if_neg hx]
  simp only [log_two_eq |x| e h1 h2, hfl, if_pos hn1]

/-- A number `n * 2 ^ z` whose significand `n` has at most `p` binary digits
is its own rounding to `p` digits. -/
theorem roundTo_dyadic (p : Nat) (n z : Int) (h : |n| < 2 ^ p) :
    roundTo p ((n : ℚ) * 2 ^ z) = (n : ℚ) * 2 ^ z := by
  by_cases hn : n = 0
  · subst hn
    simp [roundTo]
  have h2z : (0 : ℚ) < 2 ^ z := zpow_pos (by norm_num) z
  have hx : (n : ℚ) * 2 ^ z ≠ 0 := mul_ne_zero (by exact_mod_cast hn) h2z.ne'
  have hlt : |(n : ℚ) * 2 ^ z| < ((2 : ℕ) : ℚ) ^ ((p : ℤ) + z) := by
    rw [abs_mul, abs_of_pos h2z, zpow_add₀ (by norm_num), zpow_natCast]
    apply mul_lt_mul_of_pos_right _ h2z
    have : ((|n| : ℤ) : ℚ) < ((2 ^ p : ℤ) : ℚ) := by exact_mod_cast h
    simpa [Int.cast_abs] using this
  have hlog : Int.log 2 |(n : ℚ) * 2 ^ z| < p + z :=
    (Int.lt_zpow_iff_log_lt (by norm_num) (abs_pos.mpr hx)).mp hlt
  obtain ⟨k, hk⟩ : ∃ k : ℕ, z = (Int.log 2 |(n : ℚ) * 2 ^ z| + 1 - p) + k :=
    ⟨(z - (Int.log 2 |(n : ℚ) * 2 ^ z| + 1 - p)).toNat, by omega⟩
  unfold roundTo
  rw [if_neg hx]
  dsimp only
  generalize Int.log 2 |(n : ℚ) * 2 ^ z| + 1 - (p : ℤ) = E at hk ⊢
  have hE : (0 : ℚ) < 2 ^ E := zpow_pos (by norm_num) E
  have hz : (2 : ℚ) ^ z = 2 ^ E * 2 ^ k := by
    rw [hk, zpow_add₀ (by norm_num), zpow_natCast]
  have hdiv : (n : ℚ) * 2 ^ z / 2 ^ E = ((n * 2 ^ k : ℤ) : ℚ) := by
    rw [hz]
    push_cast
    field_simp
    ring
  simp only [hdiv, Int.floor_intCast, sub_self]
  rw [if_pos (by norm_num), hz]
  push_cast
  ring

/-- A whole number below `2 ^ p` in absolute value is its own rounding to `p`
digits. -/
theorem roundTo_int (p : Nat) (n : Int) (h : |n| < 2 ^ p) : roundTo p (n : ℚ) = n := by
  have := roundTo_dyadic p n 0 h
  simpa using this

/-- Whole numbers up to a million in absolute value, and their nine-fold, are
kept by the roundings to `float` and `double`. -/
theorem ieee_Keeps_int (n : Int) (h : |n| ≤ 1000000) : ieee.Keeps (n : ℚ) := by
  have h24 : |n| < 2 ^ 24 := lt_of_le_of_lt h (by norm_num)
  have h53 : |n| < 2 ^ 53 := lt_of_le_of_lt h (by norm_num)
  have h9 : |9 * n| < 2 ^ 24 := by
    rw [abs_mul]
    norm_num
    omega
  refine ⟨roundTo_int 53 n h53, roundTo_int 24 n h24, ?_⟩
  have := roundTo_int 24 (9 * n) h9
  simpa using this

/-- The cursor position `100 + 2⁻²⁰` is a `double` and not a `float`: stored in
a `float` it becomes 100. -/
theorem roundTo_24_x : roundTo 24 (100 + 1 / 2 ^ 20) = 100 := by
  rw [roundTo_of_lt_half 24 (100 + 1 / 2 ^ 20) 6 13107200
    (by rw [abs_of_pos (by norm_num)]; norm_num) (by rw [abs_of_pos (by norm_num)]; norm_num)
    (by norm_num) (by norm_num)]
  norm_num

/-- The cursor position `200 + 2⁻²⁰` stored in a `float` becomes 200. -/
theorem roundTo_24_y : roundTo 24 (200 + 1 / 2 ^ 20) = 200 := by
  rw [roundTo_of_lt_half 24 (200 + 1 / 2 ^ 20) 7 13107200
    (by rw [abs_of_pos (by norm_num)]; norm_num) (by rw [abs_of_pos (by norm_num)]; norm_num)
    (by norm_num) (by norm_num)]
  norm_num

/-- The numbers `n / 2 ^ 20` with `|n| < 2 ^ 24` are kept by the roundings to
`float` and to `double`. -/
theorem roundTo_twentieth (n : Int) (h : |n| < 2 ^ 24) :
    roundTo 24 ((n : ℚ) / 2 ^ 20) = (n : ℚ) / 2 ^ 20 ∧
    roundTo 53 ((n : ℚ) / 2 ^ 20) = (n : ℚ) / 2 ^ 20 := by
  have e : (n : ℚ) / 2 ^ 20 = (n : ℚ) * 2 ^ (-20 : Int) := by
    rw [zpow_neg, div_eq_mul_inv]
    norm_num
  rw [e]
  exact ⟨roundTo_dyadic 24 n (-20) h,
    roundTo_dyadic 53 n (-20) (lt_trans h (by norm_num))⟩

end Sample

namespace ViewManager

variable {F : Type} [LinearOrderedField F]

/-- The first cursor sample: its rounding to `float` becomes the reference, and
the camera is called with the offsets of the sample against that rounding. -/
theorem Mouse_Position_Callback_first (s : ViewManager F) (cam : CameraFns F) (r : Rounding F)
    (x y : F) (hf : s.gFirstMouse = true) :
    s.Mouse_Position_Callback cam r x y =
      { s with
        gLastX := r.toFloat x, gLastY := r.toFloat y, gFirstMouse := false
        g_pCamera := s.g_pCamera.map
          (cam.ProcessMouseMovement (Spec.roundedOffset r x (r.toFloat x))
            (Spec.roundedOffset r (r.toFloat y) y)) } := by
  cases s
  simp only [] at hf
  subst hf
  rename_i c _ _ _ _ _ _
  cases c <;> simp [Mouse_Position_Callback, Spec.roundedOffset, mul_comm]

/-- A later cursor sample: its rounding to `float` becomes the reference, and
the camera is called with the offsets of the sample against the reference
stored before. -/
theorem Mouse_Position_Callback_later (s : ViewManager F) (cam : CameraFns F) (r : Rounding F)
    (x y : F) (hf : s.gFirstMouse = false) :
    s.Mouse_Position_Callback cam r x y =
      { s with
        gLastX := r.toFloat x, gLastY := r.toFloat y
        g_pCamera := s.g_pCamera.map
          (cam.ProcessMouseMovement (Spec.roundedOffset r x s.gLastX)
            (Spec.roundedOffset r s.gLastY y)) } := by
  cases s
  simp only [] at hf
  subst hf
  rename_i c lx ly _ _ _ _
  cases c <;> simp [Mouse_Position_Callback, Spec.roundedOffset, mul_comm]

/-- A run of cursor samples calls the camera with the rounded offsets, one call
per sample in order, and ends with the rounding of the last sample as the
reference. -/
theorem mouseMoves_rounded (cam : CameraFns F) (r : Rounding F) (samples : List (F × F)) :
    ∀ s : ViewManager F,
      (s.mouseMoves cam r samples).g_pCamera =
        s.g_pCamera.map (fun c =>
          (Spec.roundedMouseOffsets r s.reference samples).foldl
            (fun c o => cam.ProcessMouseMovement o.1 o.2 c) c) ∧
      (s.mouseMoves cam r samples).reference =
        samples.foldl (fun _ p => some (r.toFloat p.1, r.toFloat p.2)) s.reference := by
  induction samples with
  | nil =>
    intro s
    refine ⟨?_, rfl⟩
    cases hc : s.g_pCamera <;> simp [mouseMoves, Spec.roundedMouseOffsets, hc]
  | cons p rest ih =>
    intro s
    obtain ⟨x, y⟩ := p
    obtain ⟨ihc, ihr⟩ := ih (s.Mouse_Position_Callback cam r x y)
    have href : (s.Mouse_Position_Callback cam r x y).reference =
        some (r.toFloat x, r.toFloat y) := by
      cases hf : s.gFirstMouse
      · rw [Mouse_Position_Callback_later s cam r x y hf]
        simp [reference, hf]
      · rw [Mouse_Position_Callback_first s cam r x y hf]
        simp [reference]
    constructor
    · simp only [mouseMoves]
      rw [ihc, href]
      cases hf : s.gFirstMouse
      · rw [Mouse_Position_Callback_later s cam r x y hf]
        cases hc : s.g_pCamera <;> simp [reference, hf, Spec.roundedMouseOffsets]
      · rw [Mouse_Position_Callback_first s cam r x y hf]
        cases hc : s.g_pCamera <;> simp [reference, hf, Spec.roundedMouseOffsets]
    · simp only [mouseMoves, List.foldl_cons]
      rw [ihr, href]

/-- An offset whose exact value is kept by the roundings is nine times the
difference. -/
theorem roundedOffset_of_Keeps (r : Rounding F) (a b : F) (h : r.Keeps (a - b)) :
    Spec.roundedOffset r a b = 9 * (a - b) := by
  obtain ⟨h1, h2, h3⟩ := h
  unfold Spec.roundedOffset
  rw [h1, h2, h3]

/-- Where every sample is a `float` and the roundings keep the differences of
the samples, the rounded offsets are the offsets of the specification. -/
theorem roundedMouseOffsets_exact (r : Rounding F) (all : List (F × F))
    (hs : ∀ p ∈ all, r.toFloat p.1 = p.1 ∧ r.toFloat p.2 = p.2)
    (hd : ∀ p ∈ all, ∀ q ∈ all, r.Keeps (q.1 - p.1) ∧ r.Keeps (p.2 - q.2))
    (samples : List (F × F)) (hsub : ∀ p ∈ samples, p ∈ all) :
    ∀ prev : Option (F × F), (∀ p, prev = some p → p ∈ all) →
      Spec.roundedMouseOffsets r prev samples = Spec.mouseOffsets prev samples := by
  induction samples with
  | nil =>
    intro prev _
    cases prev <;> rfl
  | cons p rest ih =>
    intro prev hprev
    obtain ⟨x, y⟩ := p
    have hp : (x, y) ∈ all := hsub (x, y) (List.mem_cons_self _ _)
    have hx : r.toFloat x = x := (hs _ hp).1
    have hy : r.toFloat y = y := (hs _ hp).2
    have hrest := ih (fun q hq => hsub q (List.mem_cons_of_mem _ hq)) (some (x, y))
      (fun q hq => by cases hq; exact hp)
    cases prev with
    | none =>
      simp only [Spec.roundedMouseOffsets, Spec.mouseOffsets, hx, hy, hrest]
      rw [roundedOffset_of_Keeps r x x (hd _ hp _ hp).1,
        roundedOffset_of_Keeps r y y (hd _ hp _ hp).2]
      simp
    | some q =>
      obtain ⟨px, py⟩ := q
      have hq : (px, py) ∈ all := hprev _ rfl
      simp only [Spec.roundedMouseOffsets, Spec.mouseOffsets, hx, hy, hrest]
      rw [roundedOffset_of_Keeps r x px (hd _ hq _ hp).1,
        roundedOffset_of_Keeps r py y (hd _ hq _ hp).2]

/-- The reference after a run that ends with the sample `(x, y)`, from any
state: the rounding of that sample. -/
theorem mouseMoves_last (s : ViewManager F) (cam : CameraFns F) (r : Rounding F)
    (samples : List (F × F)) (x y : F) :
    (s.mouseMoves cam r (samples ++ [(x, y)])).gFirstMouse = false ∧
    (s.mouseMoves cam r (samples ++ [(x, y)])).gLastX = r.toFloat x ∧
    (s.mouseMoves cam r (samples ++ [(x, y)])).gLastY = r.toFloat y := by
  have h := (mouseMoves_rounded cam r (samples ++ [(x, y)]) s).2
  rw [List.foldl_append] at h
  simp only [List.foldl_cons, List.foldl_nil] at h
  unfold reference at h
  split at h
  · cases h
  · simp only [Option.some.injEq, Prod.mk.injEq] at h
    rename_i hnf
    exact ⟨by simpa using hnf, h.1, h.2⟩

/-- C16 as stated fails for a cursor position that is a `double` and not a
`float`.  With IEEE 754 roundings the first sample `(100 + 2⁻²⁰, 200 + 2⁻²⁰)`
after activation is stored as `(100, 200)`, which is not the sample, and the
camera's orientation update gets the offsets `(9 * 2⁻²⁰, -(9 * 2⁻²⁰))`, not
`(0, 0)`: the state after the call is not the one the claim describes. -/
theorem Mouse_Position_Callback_first_sample_rounded :
    ∃ c : Camera ℚ,
      (ViewManager.new (none : Option (ShaderManager ℚ))).g_pCamera = some c ∧
      (ViewManager.new (none : Option (ShaderManager ℚ))).gFirstMouse = true ∧
      ∀ cam : CameraFns ℚ,
        (ViewManager.new none).Mouse_Position_Callback cam Sample.ieee
            (100 + 1 / 2 ^ 20) (200 + 1 / 2 ^ 20) =
          { ViewManager.new none with
            gLastX := 100, gLastY := 200, gFirstMouse := false
            g_pCamera := some (cam.ProcessMouseMovement (9 / 2 ^ 20) (-(9 / 2 ^ 20)) c) } ∧
        (ViewManager.new none).Mouse_Position_Callback cam Sample.ieee
            (100 + 1 / 2 ^ 20) (200 + 1 / 2 ^ 20) ≠
          { ViewManager.new none with
            gLastX := 100 + 1 / 2 ^ 20, gLastY := 200 + 1 / 2 ^ 20, gFirstMouse := false
            g_pCamera := some (cam.ProcessMouseMovement 0 0 c) } := by
  refine ⟨_, rfl, rfl, ?_⟩
  intro cam
  have hx : Sample.ieee.toFloat (100 + 1 / 2 ^ 20) = 100 := Sample.roundTo_24_x
  have hy : Sample.ieee.toFloat (200 + 1 / 2 ^ 20) = 200 := Sample.roundTo_24_y
  have h1 := Sample.roundTo_twentieth 1 (by norm_num)
  have h9 := Sample.roundTo_twentieth 9 (by norm_num)
  have hm1 := Sample.roundTo_twentieth (-1) (by norm_num)
  have hm9 := Sample.roundTo_twentieth (-9) (by norm_num)
  have hox : Spec.roundedOffset Sample.ieee (100 + 1 / 2 ^ 20) 100 = 9 / 2 ^ 20 := by
    have e1 : (100 + 1 / 2 ^ 20 - 100 : ℚ) = ((1 : Int) : ℚ) / 2 ^ 20 := by norm_num
    have e2 : (9 * (((1 : Int) : ℚ) / 2 ^ 20) : ℚ) = ((9 : Int) : ℚ) / 2 ^ 20 := by norm_num
    show Sample.roundTo 24 (9 * Sample.roundTo 24 (Sample.roundTo 53 (100 + 1 / 2 ^ 20 - 100))) = _
    rw [e1, h1.2, h1.1, e2, h9.1]
    norm_num
  have hoy : Spec.roundedOffset Sample.ieee 200 (200 + 1 / 2 ^ 20) = -(9 / 2 ^ 20) := by
    have e1 : (200 - (200 + 1 / 2 ^ 20) : ℚ) = ((-1 : Int) : ℚ) / 2 ^ 20 := by norm_num
    have e2 : (9 * (((-1 : Int) : ℚ) / 2 ^ 20) : ℚ) = ((-9 : Int) : ℚ) / 2 ^ 20 := by norm_num
    show Sample.roundTo 24 (9 * Sample.roundTo 24 (Sample.roundTo 53 (200 - (200 + 1 / 2 ^ 20)))) = _
    rw [e1, hm1.2, hm1.1, e2, hm9.1]
    norm_num
  have hcall : (ViewManager.new none).Mouse_Position_Callback cam Sample.ieee
      (100 + 1 / 2 ^ 20) (200 + 1 / 2 ^ 20) =
      { ViewManager.new none with
        gLastX := 100, gLastY := 200, gFirstMouse := false
        g_pCamera := some (cam.ProcessMouseMovement (9 / 2 ^ 20) (-(9 / 2 ^ 20))
          { Position := { x := 0, y := 5, z := 12 }, Front := { x := 0, y := -(1 / 2), z := -2 },
            Up := { x := 0, y := 1, z := 0 }, Zoom := 80 }) } := by
    rw [Mouse_Position_Callback_first _ cam Sample.ieee _ _ rfl, hx, hy, hox, hoy]
    rfl
  refine ⟨hcall, ?_⟩
  rw [hcall]
  intro h
  have hX := congrArg ViewManager.gLastX h
  norm_num at hX

/-- C16 (amended): from a state waiting for its first cursor sample, with a
camera present, for every rounding to `float` and to `double`.  The first
sample (x, y) is stored, rounded to `float`, as the reference, and the camera's
orientation update gets the offsets of the sample against that rounding:
nine times `x - toFloat x` and nine times `toFloat y - y`, each difference
taken in `double` and stored as `float`, each product taken in `float`.  Every
later sample is stored the same way and the update gets nine times
`x - gLastX` and nine times `gLastY - y` for the reference (gLastX, gLastY)
stored by the sample right before it.  Over a whole sequence the camera
receives exactly these offsets in order, and after each sample the stored
reference is that sample rounded to `float`.  For samples that are `float`
values whose differences and their nine-fold are kept by the roundings, the
camera receives exactly the offsets of the specification, (0, 0) first and
then (9 * (x_k - x_{k-1}), 9 * (y_{k-1} - y_k)), and after the last sample the
stored reference equals that sample. -/
theorem Mouse_Position_Callback_rounded_offsets (s : ViewManager F) (cam : CameraFns F)
    (r : Rounding F) (c : Camera F) (hf : s.gFirstMouse = true) (hc : s.g_pCamera = some c) :
    (∀ x y : F, s.Mouse_Position_Callback cam r x y =
      { s with
        gLastX := r.toFloat x, gLastY := r.toFloat y, gFirstMouse := false
        g_pCamera := some (cam.ProcessMouseMovement
          (r.toFloat (9 * r.toFloat (r.toDouble (x - r.toFloat x))))
          (r.toFloat (9 * r.toFloat (r.toDouble (r.toFloat y - y)))) c) }) ∧
    (∀ (t : ViewManager F) (ct : Camera F) (x y : F), t.gFirstMouse = false →
      t.g_pCamera = some ct →
      t.Mouse_Position_Callback cam r x y =
        { t with
          gLastX := r.toFloat x, gLastY := r.toFloat y
          g_pCamera := some (cam.ProcessMouseMovement
            (r.toFloat (9 * r.toFloat (r.toDouble (x - t.gLastX))))
            (r.toFloat (9 * r.toFloat (r.toDouble (t.gLastY - y)))) ct) }) ∧
    (∀ samples : List (F × F),
      (s.mouseMoves cam r samples).g_pCamera =
        some ((Spec.roundedMouseOffsets r none samples).foldl
          (fun c o => cam.ProcessMouseMovement o.1 o.2 c) c)) ∧
    (∀ (samples : List (F × F)) (x y : F),
      (s.mouseMoves cam r (samples ++ [(x, y)])).gFirstMouse = false ∧
      (s.mouseMoves cam r (samples ++ [(x, y)])).gLastX = r.toFloat x ∧
      (s.mouseMoves cam r (samples ++ [(x, y)])).gLastY = r.toFloat y) ∧
    (∀ samples : List (F × F),
      (∀ p ∈ samples, r.toFloat p.1 = p.1 ∧ r.toFloat p.2 = p.2) →
      (∀ p ∈ samples, ∀ q ∈ samples, r.Keeps (q.1 - p.1) ∧ r.Keeps (p.2 - q.2)) →
      (s.mouseMoves cam r samples).g_pCamera =
          some ((Spec.mouseOffsets none samples).foldl
            (fun c o => cam.ProcessMouseMovement o.1 o.2 c) c) ∧
        ∀ (init : List (F × F)) (x y : F), samples = init ++ [(x, y)] →
          (s.mouseMoves cam r samples).gFirstMouse = false ∧
          (s.mouseMoves cam r samples).gLastX = x ∧
          (s.mouseMoves cam r samples).gLastY = y) := by
  have href0 : s.reference = none := by simp [reference, hf]
  refine ⟨?_, ?_, ?_, ?_, ?_⟩
  · intro x y
    rw [Mouse_Position_Callback_first s cam r x y hf, hc]
    rfl
  · intro t ct x y htf htc
    rw [Mouse_Position_Callback_later t cam r x y htf, htc]
    rfl
  · intro samples
    rw [(mouseMoves_rounded cam r samples s).1, hc, href0]
    rfl
  · intro samples x y
    exact mouseMoves_last s cam r samples x y
  · intro samples hs hd
    constructor
    · rw [(mouseMoves_rounded cam r samples s).1, hc, href0,
        roundedMouseOffsets_exact r samples hs hd samples (fun _ h => h) none
          (fun _ h => by cases h)]
      rfl
    · intro init x y hsamples
      have hmem : (x, y) ∈ samples := by
        rw [hsamples]
        simp
      have hl := mouseMoves_last s cam r init x y
      rw [← hsamples] at hl
      rw [hl.2.1, hl.2.2]
      exact ⟨hl.1, (hs _ hmem).1, (hs _ hmem).2⟩

/-- C16 (amended) with IEEE 754 roundings from the first view manager: the
samples (10, 20), (13, 18) are `float` values whose differences are kept, so
they pass the offsets (0, 0) and then (27, 18), and (13, 18) is the stored
reference afterwards. -/
theorem Mouse_Position_Callback_rounded_offsets_witness :
    (ViewManager.new (none : Option (ShaderManager ℚ))).gFirstMouse = true ∧
    (∀ p ∈ [((10 : ℚ), (20 : ℚ)), (13, 18)],
      Sample.ieee.toFloat p.1 = p.1 ∧ Sample.ieee.toFloat p.2 = p.2) ∧
    (∀ p ∈ [((10 : ℚ), (20 : ℚ)), (13, 18)], ∀ q ∈ [((10 : ℚ), (20 : ℚ)), (13, 18)],
      Sample.ieee.Keeps (q.1 - p.1) ∧ Sample.ieee.Keeps (p.2 - q.2)) ∧
    Spec.mouseOffsets none [((10 : ℚ), (20 : ℚ)), (13, 18)] = [(0, 0), (27, 18)] ∧
    ∃ c : Camera ℚ, (ViewManager.new (none : Option (ShaderManager ℚ))).g_pCamera = some c ∧
      ∀ cam : CameraFns ℚ,
        ((ViewManager.new none).mouseMoves cam Sample.ieee [(10, 20), (13, 18)]).g_pCamera =
          some (cam.ProcessMouseMovement 27 18 (cam.ProcessMouseMovement 0 0 c)) ∧
        ((ViewManager.new none).mouseMoves cam Sample.ieee [(10, 20), (13, 18)]).gLastX = 13 ∧
        ((ViewManager.new none).mouseMoves cam Sample.ieee [(10, 20), (13, 18)]).gLastY = 18 := by
  have hoff : Spec.mouseOffsets none [((10 : ℚ), (20 : ℚ)), (13, 18)] = [(0, 0), (27, 18)] := by
    simp only [Spec.mouseOffsets]
    norm_num
  have hfl : ∀ n : Int, |n| ≤ 1000000 → Sample.ieee.toFloat (n : ℚ) = n :=
    fun n h => (Sample.ieee_Keeps_int n h).2.1
  have hs : ∀ p ∈ [((10 : ℚ), (20 : ℚ)), (13, 18)],
      Sample.ieee.toFloat p.1 = p.1 ∧ Sample.ieee.toFloat p.2 = p.2 := by
    intro p hp
    simp only [List.mem_cons, List.mem_singleton, List.not_mem_nil, or_false] at hp
    rcases hp with rfl | rfl
    · exact ⟨by simpa using hfl 10 (by norm_num), by simpa using hfl 20 (by norm_num)⟩
    · exact ⟨by simpa using hfl 13 (by norm_num), by simpa using hfl 18 (by norm_num)⟩
  have hd : ∀ p ∈ [((10 : ℚ), (20 : ℚ)), (13, 18)], ∀ q ∈ [((10 : ℚ), (20 : ℚ)), (13, 18)],
      Sample.ieee.Keeps (q.1 - p.1) ∧ Sample.ieee.Keeps (p.2 - q.2) := by
    have k0 : Sample.ieee.Keeps (0 : ℚ) := by simpa using Sample.ieee_Keeps_int 0 (by norm_num)
    have k3 : Sample.ieee.Keeps (3 : ℚ) := by simpa using Sample.ieee_Keeps_int 3 (by norm_num)
    have km3 : Sample.ieee.Keeps (-3 : ℚ) := by
      simpa using Sample.ieee_Keeps_int (-3) (by norm_num)
    have k2 : Sample.ieee.Keeps (2 : ℚ) := by simpa using Sample.ieee_Keeps_int 2 (by norm_num)
    have km2 : Sample.ieee.Keeps (-2 : ℚ) := by
      simpa using Sample.ieee_Keeps_int (-2) (by norm_num)
    intro p hp q hq
    simp only [List.mem_cons, List.mem_singleton, List.not_mem_nil, or_false] at hp hq
    rcases hp with rfl | rfl <;> rcases hq with rfl | rfl <;> norm_num <;>
      first
        | exact k0
        | exact ⟨k3, k2⟩
        | exact ⟨km3, km2⟩
  refine ⟨rfl, hs, hd, hoff, _, rfl, ?_⟩
  intro cam
  have h := (Mouse_Position_Callback_rounded_offsets (ViewManager.new none) cam Sample.ieee _
    rfl rfl).2.2.2.2 [(10, 20), (13, 18)] hs hd
  refine ⟨?_, (h.2 [(10, 20)] 13 18 rfl).2.1, (h.2 [(10, 20)] 13 18 rfl).2.2⟩
  rw [h.1, hoff]
  rfl

end ViewManager

/-! ## Rotation order, identity and the UV scale -/

namespace SceneManager

/-- C17: over the reals, for every scale with all components nonzero and every
translation, the matrix composed with rotations (90, 0, 0) degrees differs
from the matrix composed with rotations (0, 90, 0) degrees, and the two send
the reference point (1, 0, 0) to different points. -/
theorem modelView_X90_ne_Y90 (scaleXYZ positionXYZ : glm.vec3 ℝ) (hx : scaleXYZ.x ≠ 0)
    (_hy : scaleXYZ.y ≠ 0) (_hz : scaleXYZ.z ≠ 0) :
    SetTransformations.modelView
        ⟨Real.sin, Real.cos, fun x => (Real.sqrt x)⁻¹, Real.pi / 180⟩ scaleXYZ 90 0 0
        positionXYZ ≠
      SetTransformations.modelView
        ⟨Real.sin, Real.cos, fun x => (Real.sqrt x)⁻¹, Real.pi / 180⟩ scaleXYZ 0 90 0
        positionXYZ ∧
    ∃ p : glm.vec3 ℝ,
      (SetTransformations.modelView
          ⟨Real.sin, Real.cos, fun x => (Real.sqrt x)⁻¹, Real.pi / 180⟩ scaleXYZ 90 0 0
          positionXYZ).mulVec (Spec.toPoint p) ≠
        (SetTransformations.modelView
          ⟨Real.sin, Real.cos, fun x => (Real.sqrt x)⁻¹, Real.pi / 180⟩ scaleXYZ 0 90 0
          positionXYZ).mulVec (Spec.toPoint p) := by
  have hp : (SetTransformations.modelView
        ⟨Real.sin, Real.cos, fun x => (Real.sqrt x)⁻¹, Real.pi / 180⟩ scaleXYZ 90 0 0
        positionXYZ).mulVec (Spec.toPoint { x := 1, y := 0, z := 0 }) ≠
      (SetTransformations.modelView
        ⟨Real.sin, Real.cos, fun x => (Real.sqrt x)⁻¹, Real.pi / 180⟩ scaleXYZ 0 90 0
        positionXYZ).mulVec (Spec.toPoint { x := 1, y := 0, z := 0 }) := by
    rw [modelView_mulVec_point _ (by simp), modelView_mulVec_point _ (by simp)]
    intro h
    have hxc := congrArg glm.vec4.x h
    have h90 : (90 : ℝ) * (Real.pi / 180) = Real.pi / 2 := by ring
    simp [Spec.toPoint, Spec.scaleZYXThenTranslate, Spec.translatePoint, Spec.rotateXPoint,
      Spec.rotateYPoint, Spec.rotateZPoint, Spec.scalePoint, h90] at hxc
    exact hx hxc
  refine ⟨fun h => hp (by rw [h]), _, hp⟩

/-- C17 at scale (2, 3, 4) and translation (1, 1, 1). -/
theorem modelView_X90_ne_Y90_witness :
    (2 : ℝ) ≠ 0 ∧ (3 : ℝ) ≠ 0 ∧ (4 : ℝ) ≠ 0 ∧
    SetTransformations.modelView
        ⟨Real.sin, Real.cos, fun x => (Real.sqrt x)⁻¹, Real.pi / 180⟩
        ({ x := 2, y := 3, z := 4 } : glm.vec3 ℝ) 90 0 0 { x := 1, y := 1, z := 1 } ≠
      SetTransformations.modelView
        ⟨Real.sin, Real.cos, fun x => (Real.sqrt x)⁻¹, Real.pi / 180⟩
        ({ x := 2, y := 3, z := 4 } : glm.vec3 ℝ) 0 90 0 { x := 1, y := 1, z := 1 } :=
  ⟨by norm_num, by norm_num, by norm_num,
    (modelView_X90_ne_Y90 { x := 2, y := 3, z := 4 } { x := 1, y := 1, z := 1 }
      (by norm_num) (by norm_num) (by norm_num)).1⟩

variable {F : Type}

/-- The matrix composed from scale (1, 1, 1), rotations (0, 0, 0) and
translation (0, 0, 0) is the identity. -/
theorem modelView_identity [CommRing F] (fns : glm.ScalarFns F) (hsq : fns.inversesqrt 1 = 1)
    (hcos : fns.cos 0 = 1) (hsin : fns.sin 0 = 0) :
    SetTransformations.modelView fns { x := 1, y := 1, z := 1 } 0 0 0
      { x := 0, y := 0, z := 0 } = glm.mat4.identity := by
  simp [SetTransformations.modelView, glm.radians, glm.rotate, glm.rotateM, glm.translate,
    glm.translateM, glm.scale, glm.scaleM, glm.normalize, glm.dot, glm.vec3.smul,
    glm.mat4.identity, glm.mat4.mul, glm.vec4.add, glm.vec4.smul, hsq, hcos, hsin]

/-- C18: with a shader manager present, `SetTransformations` with scale
(1, 1, 1), rotations (0, 0, 0) degrees and translation (0, 0, 0) uploads the
identity as the uniform `model`, given cos 0 = 1, sin 0 = 0 and
inversesqrt 1 = 1 for the math functions. -/
theorem SetTransformations_identity [CommRing F] (self : SceneManager F) (sh : ShaderManager F)
    (hsh : self.m_pShaderManager = some sh) (fns : glm.ScalarFns F)
    (hsq : fns.inversesqrt 1 = 1) (hcos : fns.cos 0 = 1) (hsin : fns.sin 0 = 0) :
    self.SetTransformations fns { x := 1, y := 1, z := 1 } 0 0 0 { x := 0, y := 0, z := 0 } =
      { self with m_pShaderManager := some (sh.setMat4Value "model" glm.mat4.identity) } ∧
    (glm.mat4.identity : glm.mat4 F).toMatrix = 1 := by
  constructor
  · simp only [SetTransformations, hsh, g_ModelName, modelView_identity fns hsq hcos hsin]
  · ext i j
    fin_cases i <;> fin_cases j <;> simp [glm.mat4.identity, glm.mat4.toMatrix] <;> rfl

/-- C18 over the reals with the sine, cosine and inverse square root of the
reals. -/
theorem SetTransformations_identity_witness :
    (fun x : ℝ => (Real.sqrt x)⁻¹) 1 = 1 ∧ Real.cos 0 = 1 ∧ Real.sin 0 = 0 ∧
    (SceneManager.new (some { uploads := [] })).SetTransformations
        ⟨Real.sin, Real.cos, fun x => (Real.sqrt x)⁻¹, Real.pi / 180⟩
        { x := 1, y := 1, z := 1 } 0 0 0 { x := 0, y := 0, z := 0 } =
      { SceneManager.new (some { uploads := [] }) with
        m_pShaderManager :=
          some ((ShaderManager.mk []).setMat4Value "model" (glm.mat4.identity : glm.mat4 ℝ)) } :=
  ⟨by simp, Real.cos_zero, Real.sin_zero,
    (SetTransformations_identity (SceneManager.new (some { uploads := [] })) { uploads := [] }
      rfl ⟨Real.sin, Real.cos, fun x => (Real.sqrt x)⁻¹, Real.pi / 180⟩ (by simp)
      Real.cos_zero Real.sin_zero).1⟩

/-- An upload under another name leaves the value of a uniform as it was. -/
theorem uniform_setValue_ne (sh : ShaderManager F) (name n : String) (v : UniformValue F)
    (h : name ≠ n) : (sh.setValue name v).uniform n = sh.uniform n := by
  have hb : (name == n) = false := by simp [h]
  simp [ShaderManager.uniform, ShaderManager.setValue, List.find?, hb]

/-- An upload sets the value of the uniform of that name. -/
theorem uniform_setValue_eq (sh : ShaderManager F) (name : String) (v : UniformValue F) :
    (sh.setValue name v).uniform name = some v := by
  simp [ShaderManager.uniform, ShaderManager.setValue, List.find?]

/-- On a non-empty material sequence `FindMaterial` returns, and returns
true. -/
theorem FindMaterial_nonempty (self : SceneManager F) (tag : String)
    (material : OBJECT_MATERIAL F) (hne : self.m_objectMaterials ≠ []) :
    ∃ out : OBJECT_MATERIAL F, self.FindMaterial tag material = .ok (true, out) := by
  classical
  by_cases h : ∃ k : Nat, ∃ m : OBJECT_MATERIAL F,
      self.m_objectMaterials[k]? = some m ∧ m.tag = tag
  · obtain ⟨m, hm, htag⟩ := Nat.find_spec h
    refine ⟨_, FindMaterial_hit self tag material (Nat.find h) m hm htag ?_⟩
    intro i u hi hui hu
    exact Nat.find_min h hi ⟨u, hui, hu⟩
  · refine ⟨material, FindMaterial_miss self tag material hne ?_⟩
    intro m hm htag
    obtain ⟨k, hk⟩ := List.mem_iff_getElem?.mp hm
    exact h ⟨k, m, hk, htag⟩

/-- With a shader manager present `SetTransformations` keeps `UVscale`. -/
theorem SetTransformations_UVscale [CommRing F] (self : SceneManager F) (sh : ShaderManager F)
    (hsh : self.m_pShaderManager = some sh) (fns : glm.ScalarFns F) (sc : glm.vec3 F)
    (x y z : F) (pos : glm.vec3 F) :
    ∃ sh2 : ShaderManager F,
      self.SetTransformations fns sc x y z pos = { self with m_pShaderManager := some sh2 } ∧
      sh2.uniform "UVscale" = sh.uniform "UVscale" := by
  refine ⟨sh.setMat4Value "model" (SetTransformations.modelView fns sc x y z pos),
    by simp only [SetTransformations, hsh, g_ModelName], ?_⟩
  exact uniform_setValue_ne sh "model" "UVscale" _ (by decide)

/-- With a shader manager present `SetShaderColor` keeps `UVscale`. -/
theorem SetShaderColor_UVscale (self : SceneManager F) (sh : ShaderManager F)
    (hsh : self.m_pShaderManager = some sh) (r g b a : F) :
    ∃ sh2 : ShaderManager F,
      self.SetShaderColor r g b a = { self with m_pShaderManager := some sh2 } ∧
      sh2.uniform "UVscale" = sh.uniform "UVscale" := by
  refine ⟨_, SetShaderColor_eq self sh hsh r g b a, ?_⟩
  simp only [ShaderManager.setVec4Value, ShaderManager.setIntValue]
  rw [uniform_setValue_ne _ "objectColor" "UVscale" _ (by decide),
    uniform_setValue_ne _ "bUseTexture" "UVscale" _ (by decide)]

/-- With a shader manager present and the count within the array size
`SetShaderTexture` returns and keeps `UVscale`. -/
theorem SetShaderTexture_UVscale (self : SceneManager F) (sh : ShaderManager F)
    (hsh : self.m_pShaderManager = some sh)
    (hcap : self.m_loadedTextures ≤ self.m_textureIDs.length) (tag : String) :
    ∃ sh2 : ShaderManager F,
      self.SetShaderTexture tag = .ok { self with m_pShaderManager := some sh2 } ∧
      sh2.uniform "UVscale" = sh.uniform "UVscale" := by
  obtain ⟨slot, hslot, -⟩ := FindTextureSlot_spec self tag hcap
  refine ⟨_, SetShaderTexture_eq self sh hsh tag slot hslot, ?_⟩
  simp only [ShaderManager.setSampler2DValue, ShaderManager.setIntValue]
  rw [uniform_setValue_ne _ "objectTexture" "UVscale" _ (by decide),
    uniform_setValue_ne _ "bUseTexture" "UVscale" _ (by decide)]

/-- With a shader manager present `SetShaderMaterial` returns and keeps
`UVscale`. -/
theorem SetShaderMaterial_UVscale (self : SceneManager F) (sh : ShaderManager F)
    (hsh : self.m_pShaderManager = some sh) (tag : String) (material : OBJECT_MATERIAL F) :
    ∃ sh2 : ShaderManager F,
      self.SetShaderMaterial tag material = .ok { self with m_pShaderManager := some sh2 } ∧
      sh2.uniform "UVscale" = sh.uniform "UVscale" := by
  by_cases hempty : self.m_objectMaterials = []
  · refine ⟨sh, ?_, rfl⟩
    rw [SetShaderMaterial_empty self tag material hempty]
    cases self
    simp only [] at hsh
    subst hsh
    rfl
  · obtain ⟨out, hout⟩ := FindMaterial_nonempty self tag material hempty
    have hpos : self.m_objectMaterials.length > 0 := List.length_pos.mpr hempty
    refine ⟨((((sh.setVec3Value "material.ambientColor" out.ambientColor).setFloatValue
        "material.ambientStrength" out.ambientStrength).setVec3Value "material.diffuseColor"
        out.diffuseColor).setVec3Value "material.specularColor" out.specularColor).setFloatValue
        "material.shininess" out.shininess,
      by simp only [SetShaderMaterial, hpos, if_true, hout, hsh], ?_⟩
    simp only [ShaderManager.setVec3Value, ShaderManager.setFloatValue]
    rw [uniform_setValue_ne _ "material.shininess" "UVscale" _ (by decide),
      uniform_setValue_ne _ "material.specularColor" "UVscale" _ (by decide),
      uniform_setValue_ne _ "material.diffuseColor" "UVscale" _ (by decide),
      uniform_setValue_ne _ "material.ambientStrength" "UVscale" _ (by decide),
      uniform_setValue_ne _ "material.ambientColor" "UVscale" _ (by decide)]

/-- A run of configuration calls returns and keeps `UVscale`. -/
theorem runConfigCalls_UVscale [CommRing F] (fns : glm.ScalarFns F)
    (calls : List (ConfigCall F)) :
    ∀ (self : SceneManager F) (sh : ShaderManager F),
      self.m_pShaderManager = some sh →
      self.m_loadedTextures ≤ self.m_textureIDs.length →
      ∃ (s2 : SceneManager F) (sh2 : ShaderManager F),
        self.runConfigCalls fns calls = .ok s2 ∧ s2.m_pShaderManager = some sh2 ∧
        sh2.uniform "UVscale" = sh.uniform "UVscale" := by
  induction calls with
  | nil =>
    intro self sh hsh _
    exact ⟨self, sh, rfl, hsh, rfl⟩
  | cons call rest ih =>
    intro self sh hsh hcap
    cases call with
    | SetTransformations sc x y z pos =>
      obtain ⟨sh1, h1, hu1⟩ := SetTransformations_UVscale self sh hsh fns sc x y z pos
      obtain ⟨s2, sh2, hrun, hs2, hu2⟩ :=
        ih { self with m_pShaderManager := some sh1 } sh1 rfl hcap
      refine ⟨s2, sh2, ?_, hs2, hu2.trans hu1⟩
      simp only [runConfigCalls, h1]
      exact hrun
    | SetShaderColor r g b a =>
      obtain ⟨sh1, h1, hu1⟩ := SetShaderColor_UVscale self sh hsh r g b a
      obtain ⟨s2, sh2, hrun, hs2, hu2⟩ :=
        ih { self with m_pShaderManager := some sh1 } sh1 rfl hcap
      refine ⟨s2, sh2, ?_, hs2, hu2.trans hu1⟩
      simp only [runConfigCalls, h1]
      exact hrun
    | SetShaderTexture t =>
      obtain ⟨sh1, h1, hu1⟩ := SetShaderTexture_UVscale self sh hsh hcap t
      obtain ⟨s2, sh2, hrun, hs2, hu2⟩ :=
        ih { self with m_pShaderManager := some sh1 } sh1 rfl hcap
      refine ⟨s2, sh2, ?_, hs2, hu2.trans hu1⟩
      simp only [runConfigCalls, h1]
      exact hrun
    | SetShaderMaterial t m =>
      obtain ⟨sh1, h1, hu1⟩ := SetShaderMaterial_UVscale self sh hsh t m
      obtain ⟨s2, sh2, hrun, hs2, hu2⟩ :=
        ih { self with m_pShaderManager := some sh1 } sh1 rfl hcap
      refine ⟨s2, sh2, ?_, hs2, hu2.trans hu1⟩
      simp only [runConfigCalls, h1]
      exact hrun

/-- C20: with a shader manager present (and the texture count within the
array size), `SetTextureUVScale(u, v)` sets `UVscale` to (u, v) and leaves
every other uniform as it was; every sequence of `SetTransformations`,
`SetShaderColor`, `SetShaderTexture` and `SetShaderMaterial` calls returns and
leaves `UVscale` as it was; so after `SetTextureUVScale(u, v)` and any such
sequence `UVscale` is still (u, v). -/
theorem UVscale_persists [CommRing F] (self : SceneManager F) (sh : ShaderManager F)
    (hsh : self.m_pShaderManager = some sh)
    (hcap : self.m_loadedTextures ≤ self.m_textureIDs.length) (fns : glm.ScalarFns F)
    (u v : F) :
    (∃ sh1 : ShaderManager F,
      self.SetTextureUVScale u v = { self with m_pShaderManager := some sh1 } ∧
      sh1.uniform "UVscale" = some (.vec2 { x := u, y := v }) ∧
      ∀ name : String, name ≠ "UVscale" → sh1.uniform name = sh.uniform name) ∧
    (∀ calls : List (ConfigCall F),
      ∃ (s2 : SceneManager F) (sh2 : ShaderManager F),
        self.runConfigCalls fns calls = .ok s2 ∧ s2.m_pShaderManager = some sh2 ∧
        sh2.uniform "UVscale" = sh.uniform "UVscale") ∧
    (∀ calls : List (ConfigCall F),
      ∃ (s2 : SceneManager F) (sh2 : ShaderManager F),
        (self.SetTextureUVScale u v).runConfigCalls fns calls = .ok s2 ∧
        s2.m_pShaderManager = some sh2 ∧
        sh2.uniform "UVscale" = some (.vec2 { x := u, y := v })) := by
  have hset : self.SetTextureUVScale u v =
      { self with
        m_pShaderManager := some (sh.setValue "UVscale" (.vec2 { x := u, y := v })) } := by
    simp only [SetTextureUVScale, hsh, ShaderManager.setVec2Value]
  refine ⟨⟨_, hset, uniform_setValue_eq sh _ _, ?_⟩,
    fun calls => runConfigCalls_UVscale fns calls self sh hsh hcap, ?_⟩
  · intro name hname
    exact uniform_setValue_ne sh "UVscale" name _ (fun h => hname h.symm)
  · intro calls
    obtain ⟨s2, sh2, hrun, hs2, hu⟩ := runConfigCalls_UVscale fns calls
      { self with
        m_pShaderManager := some (sh.setValue "UVscale" (.vec2 { x := u, y := v })) }
      _ rfl hcap
    refine ⟨s2, sh2, ?_, hs2, ?_⟩
    · rw [hset]
      exact hrun
    · rw [hu]
      exact uniform_setValue_eq sh _ _

/-- C20 on a scene with two textures over the reals: after
`SetTextureUVScale(10, 5)`, a transformation, a texture, a material and a
colour call, `UVscale` is still (10, 5). -/
theorem UVscale_persists_witness :
    (Sample.texturedScene : SceneManager ℝ).m_pShaderManager = some { uploads := [] } ∧
    (Sample.texturedScene : SceneManager ℝ).m_loadedTextures ≤
      (Sample.texturedScene : SceneManager ℝ).m_textureIDs.length ∧
    ∃ (s2 : SceneManager ℝ) (sh2 : ShaderManager ℝ),
      ((Sample.texturedScene : SceneManager ℝ).SetTextureUVScale 10 5).runConfigCalls
          ⟨Real.sin, Real.cos, fun x => (Real.sqrt x)⁻¹, Real.pi / 180⟩
          [.SetTransformations { x := 20, y := 1, z := 10 } 0 0 0 { x := 0, y := 0, z := 0 },
            .SetShaderTexture "vase_bottom", .SetShaderMaterial "table" Sample.zeroMaterial,
            .SetShaderColor 1 1 1 1] = .ok s2 ∧
        s2.m_pShaderManager = some sh2 ∧
        sh2.uniform "UVscale" = some (.vec2 { x := 10, y := 5 }) :=
  ⟨rfl, by decide,
    (UVscale_persists (Sample.texturedScene : SceneManager ℝ) { uploads := [] } rfl (by decide)
      ⟨Real.sin, Real.cos, fun x => (Real.sqrt x)⁻¹, Real.pi / 180⟩ 10 5).2.2 _⟩

end SceneManager

/-! ## Scene content: materials and flower stems -/

namespace SceneManager

/-- Every material of `DefineObjectMaterials` has a positive shininess and an
ambient strength between 0 and 1. -/
theorem DefineObjectMaterials_materials_valid {F : Type} [LinearOrderedField F]
    (m : OBJECT_MATERIAL F) (hm : m ∈ (DefineObjectMaterials.materials : List _)) :
    0 < m.shininess ∧ 0 ≤ m.ambientStrength ∧ m.ambientStrength ≤ 1 := by
  simp only [DefineObjectMaterials.materials, List.mem_cons, List.mem_singleton,
    List.not_mem_nil, or_false] at hm
  rcases hm with rfl | rfl | rfl | rfl | rfl | rfl | rfl | rfl | rfl | rfl | rfl <;>
    norm_num

/-- C21: `DefineObjectMaterials` appends eleven materials to the sequence, and
every one of them has a shininess strictly greater than 0 and an
ambientStrength in the interval [0, 1]; so after the call on the empty
sequence all 11 materials of the sequence satisfy both. -/
theorem DefineObjectMaterials_invariants {F : Type} [LinearOrderedField F]
    (self : SceneManager F) (pShaderManager : Option (ShaderManager F)) :
    self.DefineObjectMaterials.m_objectMaterials =
      self.m_objectMaterials ++ DefineObjectMaterials.materials ∧
    (DefineObjectMaterials.materials : List (OBJECT_MATERIAL F)).length = 11 ∧
    (∀ m ∈ (DefineObjectMaterials.materials : List (OBJECT_MATERIAL F)),
      0 < m.shininess ∧ 0 ≤ m.ambientStrength ∧ m.ambientStrength ≤ 1) ∧
    (SceneManager.new pShaderManager).DefineObjectMaterials.m_objectMaterials.length = 11 ∧
    (∀ m ∈ (SceneManager.new pShaderManager).DefineObjectMaterials.m_objectMaterials,
      0 < m.shininess ∧ 0 ≤ m.ambientStrength ∧ m.ambientStrength ≤ 1) := by
  refine ⟨rfl, rfl, DefineObjectMaterials_materials_valid, rfl, ?_⟩
  intro m hm
  exact DefineObjectMaterials_materials_valid m
    (by simpa [DefineObjectMaterials, SceneManager.new] using hm)

/-- C21 over the rationals: the last material of the sequence after the call
on the empty sequence, tagged "book", has shininess 8 and ambient strength
0.1. -/
theorem DefineObjectMaterials_invariants_witness :
    ∃ m : OBJECT_MATERIAL ℚ,
      (SceneManager.new none).DefineObjectMaterials.m_objectMaterials[10]? = some m ∧
      m.tag = "book" ∧ 0 < m.shininess ∧ 0 ≤ m.ambientStrength ∧ m.ambientStrength ≤ 1 := by
  have h : (SceneManager.new (none : Option (ShaderManager ℚ))).DefineObjectMaterials.m_objectMaterials[10]? =
      some { ambientColor := { x := 0.2, y := 0.1, z := 0.05 }, ambientStrength := 0.1
             diffuseColor := { x := 0.5, y := 0.3, z := 0.1 }
             specularColor := { x := 0.2, y := 0.2, z := 0.2 }
             shininess := 8, tag := "book" } := rfl
  exact ⟨_, h, rfl,
    (DefineObjectMaterials_invariants (SceneManager.new none) none).2.2.2.2 _
      (List.getElem?_mem h)⟩

/-- The rotation part `rotationX * rotationY` of the model matrix sends the
unit Y axis to (0, cos tilt, sin tilt), whatever the Y-rotation angle is. -/
theorem rotationX_rotationY_unit_y {F : Type} [CommRing F] (fns : glm.ScalarFns F)
    (hsq : fns.inversesqrt 1 = 1) (tiltRad angleRad : F) :
    ((glm.rotate fns tiltRad { x := 1, y := 0, z := 0 }).mul
        (glm.rotate fns angleRad { x := 0, y := 1, z := 0 })).mulVec
        { x := 0, y := 1, z := 0, w := 0 } =
      { x := 0, y := fns.cos tiltRad, z := fns.sin tiltRad, w := 0 } := by
  have hdx : glm.dot ({ x := 1, y := 0, z := 0 } : glm.vec3 F) { x := 1, y := 0, z := 0 } = 1 := by
    simp [glm.dot]
  have hdy : glm.dot ({ x := 0, y := 1, z := 0 } : glm.vec3 F) { x := 0, y := 1, z := 0 } = 1 := by
    simp [glm.dot]
  rw [glm.mat4.mul_mulVec]
  simp only [glm.rotate, glm.rotateM, glm.normalize, hdx, hdy, hsq, glm.vec3.smul,
    glm.mat4.identity, glm.mat4.mulVec, glm.vec4.add, glm.vec4.smul, glm.vec4.mk.injEq]
  refine ⟨?_, ?_, ?_, ?_⟩ <;> ring

/-- The vector that `RenderScene` computes as the stem direction is the image
of the unit Y axis under `rotationY * rotationX`, the two rotations in the
order opposite to the one of the model matrix. -/
theorem stemDirection_eq_rotationY_rotationX {F : Type} [Field F] (fns : glm.ScalarFns F)
    (hsq : fns.inversesqrt 1 = 1) (i : Nat) :
    ((glm.rotate fns (glm.radians fns (RenderScene.stemAngle i)) { x := 0, y := 1, z := 0 }).mul
        (glm.rotate fns (glm.radians fns (RenderScene.tiltAngle i))
          { x := 1, y := 0, z := 0 })).mulVec { x := 0, y := 1, z := 0, w := 0 } =
      { x := (RenderScene.stemDirection fns i).x, y := (RenderScene.stemDirection fns i).y
        z := (RenderScene.stemDirection fns i).z, w := 0 } := by
  have hdx : glm.dot ({ x := 1, y := 0, z := 0 } : glm.vec3 F) { x := 1, y := 0, z := 0 } = 1 := by
    simp [glm.dot]
  have hdy : glm.dot ({ x := 0, y := 1, z := 0 } : glm.vec3 F) { x := 0, y := 1, z := 0 } = 1 := by
    simp [glm.dot]
  rw [glm.mat4.mul_mulVec]
  simp only [glm.rotate, glm.rotateM, glm.normalize, hdx, hdy, hsq, glm.vec3.smul,
    glm.mat4.identity, glm.mat4.mulVec, glm.vec4.add, glm.vec4.smul, glm.vec4.mk.injEq,
    RenderScene.stemDirection]
  refine ⟨?_, ?_, ?_, ?_⟩ <;> ring

/-- The matrix `glm::scale(v)` applied to a column vector. -/
theorem scale_mulVec {F : Type} [CommRing F] (v : glm.vec3 F) (p : glm.vec4 F) :
    (glm.scale v).mulVec p = { x := v.x * p.x, y := v.y * p.y, z := v.z * p.z, w := p.w } := by
  simp only [glm.scale, glm.scaleM, glm.mat4.identity, glm.mat4.mulVec, glm.vec4.smul,
    glm.vec4.mk.injEq]
  refine ⟨?_, ?_, ?_, ?_⟩ <;> ring

/-- The matrix `glm::translate(t)` applied to a column vector. -/
theorem translate_mulVec {F : Type} [CommRing F] (t : glm.vec3 F) (p : glm.vec4 F) :
    (glm.translate t).mulVec p =
      { x := p.x + t.x * p.w, y := p.y + t.y * p.w, z := p.z + t.z * p.w, w := p.w } := by
  simp only [glm.translate, glm.translateM, glm.mat4.identity, glm.mat4.mulVec, glm.vec4.add,
    glm.vec4.smul, glm.vec4.mk.injEq]
  refine ⟨?_, ?_, ?_, ?_⟩ <;> ring

/-- The matrix `glm::rotate(angle, (1, 0, 0))` applied to a column vector. -/
theorem rotate_x_mulVec {F : Type} [CommRing F] (fns : glm.ScalarFns F)
    (hsq : fns.inversesqrt 1 = 1) (angle : F) (p : glm.vec4 F) :
    (glm.rotate fns angle { x := 1, y := 0, z := 0 }).mulVec p =
      { x := p.x, y := fns.cos angle * p.y - fns.sin angle * p.z
        z := fns.sin angle * p.y + fns.cos angle * p.z, w := p.w } := by
  have hd : glm.dot ({ x := 1, y := 0, z := 0 } : glm.vec3 F) { x := 1, y := 0, z := 0 } = 1 := by
    simp [glm.dot]
  simp only [glm.rotate, glm.rotateM, glm.normalize, hd, hsq, glm.vec3.smul,
    glm.mat4.identity, glm.mat4.mulVec, glm.vec4.add, glm.vec4.smul, glm.vec4.mk.injEq]
  refine ⟨?_, ?_, ?_, ?_⟩ <;> ring

/-- The matrix `glm::rotate(angle, (0, 1, 0))` applied to a column vector. -/
theorem rotate_y_mulVec {F : Type} [CommRing F] (fns : glm.ScalarFns F)
    (hsq : fns.inversesqrt 1 = 1) (angle : F) (p : glm.vec4 F) :
    (glm.rotate fns angle { x := 0, y := 1, z := 0 }).mulVec p =
      { x := fns.cos angle * p.x + fns.sin angle * p.z, y := p.y
        z := fns.cos angle * p.z - fns.sin angle * p.x, w := p.w } := by
  have hd : glm.dot ({ x := 0, y := 1, z := 0 } : glm.vec3 F) { x := 0, y := 1, z := 0 } = 1 := by
    simp [glm.dot]
  simp only [glm.rotate, glm.rotateM, glm.normalize, hd, hsq, glm.vec3.smul,
    glm.mat4.identity, glm.mat4.mulVec, glm.vec4.add, glm.vec4.smul, glm.vec4.mk.injEq]
  refine ⟨?_, ?_, ?_, ?_⟩ <;> ring

/-- The matrix `glm::rotate(angle, (0, 0, 1))` applied to a column vector. -/
theorem rotate_z_mulVec {F : Type} [CommRing F] (fns : glm.ScalarFns F)
    (hsq : fns.inversesqrt 1 = 1) (angle : F) (p : glm.vec4 F) :
    (glm.rotate fns angle { x := 0, y := 0, z := 1 }).mulVec p =
      { x := fns.cos angle * p.x - fns.sin angle * p.y
        y := fns.sin angle * p.x + fns.cos angle * p.y, z := p.z, w := p.w } := by
  have hd : glm.dot ({ x := 0, y := 0, z := 1 } : glm.vec3 F) { x := 0, y := 0, z := 1 } = 1 := by
    simp [glm.dot]
  simp only [glm.rotate, glm.rotateM, glm.normalize, hd, hsq, glm.vec3.smul,
    glm.mat4.identity, glm.mat4.mulVec, glm.vec4.add, glm.vec4.smul, glm.vec4.mk.injEq]
  refine ⟨?_, ?_, ?_, ?_⟩ <;> ring

/-- The model matrix of the flower stem `i` sends the unit Y axis, as a
direction, to `stemLength` times (0, cos tilt, sin tilt). -/
theorem stem_modelView_unit_y {F : Type} [Field F] (fns : glm.ScalarFns F)
    (hsq : fns.inversesqrt 1 = 1) (hcos : fns.cos 0 = 1) (hsin : fns.sin 0 = 0) (i : Nat) :
    (SetTransformations.modelView fns
        { x := 0.03, y := RenderScene.stemLength i, z := 0.03 }
        (RenderScene.tiltAngle i) (RenderScene.stemAngle i) 0
        (RenderScene.stemPosition fns i)).mulVec { x := 0, y := 1, z := 0, w := 0 } =
      { x := 0
        y := RenderScene.stemLength i * fns.cos (glm.radians fns (RenderScene.tiltAngle i))
        z := RenderScene.stemLength i * fns.sin (glm.radians fns (RenderScene.tiltAngle i))
        w := 0 } := by
  have hr0 : glm.radians fns (0 : F) = 0 := by simp [glm.radians]
  simp only [SetTransformations.modelView, glm.mat4.mul_mulVec, hr0, scale_mulVec,
    rotate_z_mulVec fns hsq, rotate_y_mulVec fns hsq, rotate_x_mulVec fns hsq,
    translate_mulVec, hcos, hsin, glm.vec4.mk.injEq]
  refine ⟨?_, ?_, ?_, trivial⟩ <;> ring

/-- C23 (code at the failing input): over the reals, for the flower stem
i = 8 (angle 90 degrees, tilt 10 degrees) the vector that `RenderScene` computes
as the stem direction is (sin 10°, cos 10°, 0), with a positive x-component,
while the rotation part `rotationX * rotationY` of the model matrix and the
model matrix itself send the unit Y axis to a vector with x-component 0: the
bud offset does not lie along the drawn stem. -/
theorem stemDirection_off_drawn_stem :
    RenderScene.stemDirection (⟨Real.sin, Real.cos, fun x => (Real.sqrt x)⁻¹, Real.pi / 180⟩ : glm.ScalarFns ℝ) 8 =
      { x := Real.sin (Real.pi / 18), y := Real.cos (Real.pi / 18), z := 0 } ∧
    0 < Real.sin (Real.pi / 18) ∧
    ((glm.rotate (⟨Real.sin, Real.cos, fun x => (Real.sqrt x)⁻¹, Real.pi / 180⟩ : glm.ScalarFns ℝ)
          (glm.radians (⟨Real.sin, Real.cos, fun x => (Real.sqrt x)⁻¹, Real.pi / 180⟩ : glm.ScalarFns ℝ) (RenderScene.tiltAngle 8)) { x := 1, y := 0, z := 0 }).mul
        (glm.rotate (⟨Real.sin, Real.cos, fun x => (Real.sqrt x)⁻¹, Real.pi / 180⟩ : glm.ScalarFns ℝ)
          (glm.radians (⟨Real.sin, Real.cos, fun x => (Real.sqrt x)⁻¹, Real.pi / 180⟩ : glm.ScalarFns ℝ) (RenderScene.stemAngle 8)) { x := 0, y := 1, z := 0 })).mulVec
        { x := 0, y := 1, z := 0, w := 0 } =
      { x := 0, y := Real.cos (Real.pi / 18), z := Real.sin (Real.pi / 18), w := 0 } ∧
    ((SetTransformations.modelView (⟨Real.sin, Real.cos, fun x => (Real.sqrt x)⁻¹, Real.pi / 180⟩ : glm.ScalarFns ℝ)
        { x := 0.03, y := RenderScene.stemLength 8, z := 0.03 }
        (RenderScene.tiltAngle 8) (RenderScene.stemAngle 8) 0
        (RenderScene.stemPosition (⟨Real.sin, Real.cos, fun x => (Real.sqrt x)⁻¹, Real.pi / 180⟩ : glm.ScalarFns ℝ) 8)).mulVec { x := 0, y := 1, z := 0, w := 0 }).x = 0 := by
  have htilt : glm.radians (⟨Real.sin, Real.cos, fun x => (Real.sqrt x)⁻¹, Real.pi / 180⟩ : glm.ScalarFns ℝ) (RenderScene.tiltAngle 8) = Real.pi / 18 := by
    simp only [glm.radians, RenderScene.tiltAngle]
    norm_num
    ring
  have hangle : glm.radians (⟨Real.sin, Real.cos, fun x => (Real.sqrt x)⁻¹, Real.pi / 180⟩ : glm.ScalarFns ℝ) (RenderScene.stemAngle 8) = Real.pi / 2 := by
    simp only [glm.radians, RenderScene.stemAngle]
    norm_num
    ring
  refine ⟨?_, ?_, ?_, ?_⟩
  · simp only [RenderScene.stemDirection, htilt, hangle]
    simp
  · apply Real.sin_pos_of_pos_of_lt_pi
    · positivity
    · linarith [Real.pi_pos]
  · rw [rotationX_rotationY_unit_y _ (by simp), htilt]
  · rw [stem_modelView_unit_y _ (by simp) (by simp) (by simp)]

/-- When every file decodes with 3 or 4 channels, `LoadSceneTextures` on the
constructed object returns, with the thirteen tags in the first thirteen
slots. -/
theorem LoadSceneTextures_eq {F : Type} (pShaderManager : Option (ShaderManager F))
    (decode : String → Option Image) (textureIDs : Nat → Nat)
    (hdec : ∀ file ∈ LoadSceneTextures.requests.map Prod.fst,
      ∃ img, decode file = some img ∧ (img.colorChannels = 3 ∨ img.colorChannels = 4)) :
    (SceneManager.new pShaderManager).LoadSceneTextures decode textureIDs =
      .ok (LoadSceneTextures.loaded pShaderManager textureIDs) := by
  obtain ⟨img0, e0, c0⟩ := hdec "../../Utilities/textures/rusticwood.jpg" (by decide)
  obtain ⟨img1, e1, c1⟩ := hdec "../../Utilities/textures/gold-seamless-texture.jpg" (by decide)
  obtain ⟨img2, e2, c2⟩ := hdec "../../Utilities/textures/stainless.jpg" (by decide)
  obtain ⟨img3, e3, c3⟩ := hdec "../../Utilities/textures/circular-brushed-gold-texture.jpg" (by decide)
  obtain ⟨img4, e4, c4⟩ := hdec "../../Utilities/textures/stainedglass.jpg" (by decide)
  obtain ⟨img5, e5, c5⟩ := hdec "../../Utilities/textures/abstract.jpg" (by decide)
  obtain ⟨img6, e6, c6⟩ := hdec "../../Utilities/textures/breadcrust.jpg" (by decide)
  obtain ⟨img7, e7, c7⟩ := hdec "../../Utilities/textures/cheddar.jpg" (by decide)
  obtain ⟨img8, e8, c8⟩ := hdec "../../Utilities/textures/amber_glass.jpg" (by decide)
  obtain ⟨img9, e9, c9⟩ := hdec "../../Utilities/textures/wax.jpg" (by decide)
  obtain ⟨img10, e10, c10⟩ := hdec "../../Utilities/textures/book_cover.jpg" (by decide)
  obtain ⟨img11, e11, c11⟩ := hdec "../../Utilities/textures/book_pages.jpg" (by decide)
  simp [LoadSceneTextures, LoadSceneTextures.requests, LoadSceneTextures.loaded, List.enum,
    List.enumFrom, CreateGLTextures, CreateGLTexture, SceneManager.new,
    e0, c0, e1, c1, e2, c2, e3, c3, e4, c4, e5, c5, e6, c6, e7, c7, e8, c8, e9, c9, e10, c10, e11, c11]

/-- Running two sequences of calls one after the other. -/
theorem runRenderCalls_append {F : Type} [CommRing F] (fns : glm.ScalarFns F)
    (material : OBJECT_MATERIAL F) (a b : List (RenderCall F)) :
    ∀ (self : SceneManager F) (d1 : List (DrawRecord F)) (s1 : SceneManager F),
      self.runRenderCalls fns material a = .ok (d1, s1) →
      self.runRenderCalls fns material (a ++ b) =
        (match s1.runRenderCalls fns material b with
          | .error e => .error e
          | .ok (d2, s2) => .ok (d1 ++ d2, s2)) := by
  induction a with
  | nil =>
    intro self d1 s1 h
    simp only [runRenderCalls, Except.ok.injEq, Prod.mk.injEq] at h
    obtain ⟨rfl, rfl⟩ := h
    simp only [List.nil_append]
    cases hb : self.runRenderCalls fns material b with
    | error e => rfl
    | ok r => rfl
  | cons c rest ih =>
    intro self d1 s1 h
    cases c with
    | SetTransformations sc x y z pos =>
      simp only [runRenderCalls, List.cons_append] at h ⊢
      exact ih _ d1 s1 h
    | SetTextureUVScale u v =>
      simp only [runRenderCalls, List.cons_append] at h ⊢
      exact ih _ d1 s1 h
    | SetShaderTexture t =>
      simp only [runRenderCalls, List.cons_append] at h ⊢
      cases ht : self.SetShaderTexture t with
      | error e => rw [ht] at h; cases h
      | ok s =>
        rw [ht] at h
        simp only [] at h ⊢
        exact ih _ d1 s1 h
    | SetShaderMaterial t =>
      simp only [runRenderCalls, List.cons_append] at h ⊢
      cases ht : self.SetShaderMaterial t material with
      | error e => rw [ht] at h; cases h
      | ok s =>
        rw [ht] at h
        simp only [] at h ⊢
        exact ih _ d1 s1 h
    | SetShaderColor r g b2 a2 =>
      simp only [runRenderCalls, List.cons_append] at h ⊢
      exact ih _ d1 s1 h
    | Draw mesh =>
      simp only [runRenderCalls, List.cons_append] at h ⊢
      cases hr : self.runRenderCalls fns material rest with
      | error e => rw [hr] at h; cases h
      | ok r =>
        obtain ⟨d0, s0⟩ := r
        rw [hr] at h
        simp only [Except.ok.injEq, Prod.mk.injEq] at h
        obtain ⟨rfl, rfl⟩ := h
        rw [show rest.append b = rest ++ b from rfl, ih self d0 s0 hr]
        cases hb : s0.runRenderCalls fns material b with
        | error e => rfl
        | ok r2 => rfl

/-- With a shader manager present and the texture count within the array
size, every sequence of calls of `RenderScene` returns. -/
theorem runRenderCalls_ok {F : Type} [CommRing F] (fns : glm.ScalarFns F)
    (material : OBJECT_MATERIAL F) (calls : List (RenderCall F)) :
    ∀ (self : SceneManager F) (sh : ShaderManager F),
      self.m_pShaderManager = some sh →
      self.m_loadedTextures ≤ self.m_textureIDs.length →
      ∃ (draws : List (DrawRecord F)) (s2 : SceneManager F),
        self.runRenderCalls fns material calls = .ok (draws, s2) := by
  induction calls with
  | nil =>
    intro self sh _ _
    exact ⟨[], self, rfl⟩
  | cons c rest ih =>
    intro self sh hsh hcap
    cases c with
    | SetTransformations sc x y z pos =>
      obtain ⟨sh1, h1, -⟩ := SetTransformations_UVscale self sh hsh fns sc x y z pos
      obtain ⟨d, s2, h⟩ := ih { self with m_pShaderManager := some sh1 } sh1 rfl hcap
      exact ⟨d, s2, by simp only [runRenderCalls, h1]; exact h⟩
    | SetTextureUVScale u v =>
      have h1 : self.SetTextureUVScale u v =
          { self with
            m_pShaderManager := some (sh.setVec2Value "UVscale" { x := u, y := v }) } := by
        simp only [SetTextureUVScale, hsh]
      obtain ⟨d, s2, h⟩ := ih { self with
        m_pShaderManager := some (sh.setVec2Value "UVscale" { x := u, y := v }) } _ rfl hcap
      exact ⟨d, s2, by simp only [runRenderCalls, h1]; exact h⟩
    | SetShaderTexture t =>
      obtain ⟨sh1, h1, -⟩ := SetShaderTexture_UVscale self sh hsh hcap t
      obtain ⟨d, s2, h⟩ := ih { self with m_pShaderManager := some sh1 } sh1 rfl hcap
      exact ⟨d, s2, by simp only [runRenderCalls, h1]; exact h⟩
    | SetShaderMaterial t =>
      obtain ⟨sh1, h1, -⟩ := SetShaderMaterial_UVscale self sh hsh t material
      obtain ⟨d, s2, h⟩ := ih { self with m_pShaderManager := some sh1 } sh1 rfl hcap
      exact ⟨d, s2, by simp only [runRenderCalls, h1]; exact h⟩
    | SetShaderColor r g b a =>
      obtain ⟨sh1, h1, -⟩ := SetShaderColor_UVscale self sh hsh r g b a
      obtain ⟨d, s2, h⟩ := ih { self with m_pShaderManager := some sh1 } sh1 rfl hcap
      exact ⟨d, s2, by simp only [runRenderCalls, h1]; exact h⟩
    | Draw mesh =>
      obtain ⟨d, s2, h⟩ := ih self sh hsh hcap
      exact ⟨{ mesh := mesh, shader := self.m_pShaderManager } :: d, s2,
        by simp only [runRenderCalls, h]⟩

/-- The two table layers of `RenderScene` on the prepared scene: the two draw
records and the object afterwards, with the uploads listed newest first. -/
theorem tableLayers_run {F : Type} [Field F] (sh : ShaderManager F)
    (textureIDs : Nat → Nat) (fns : glm.ScalarFns F) (material : OBJECT_MATERIAL F) :
    (LoadSceneTextures.loaded (some sh) textureIDs).DefineObjectMaterials.runRenderCalls fns
        material (RenderScene.tableSurface ++ RenderScene.tableOverlay) =
      .ok
        ([ { mesh := .Plane
             shader := some { uploads := [ ("material.shininess", .float 32),
                ("material.specularColor", .vec3 { x := 0.5, y := 0.5, z := 0.5 }),
                ("material.diffuseColor", .vec3 { x := 0.6, y := 0.4, z := 0.2 }),
                ("material.ambientStrength", .float 0.2),
                ("material.ambientColor", .vec3 { x := 0.2, y := 0.1, z := 0.05 }),
                ("objectTexture", .sampler2D 0),
                ("bUseTexture", .int 1),
                ("UVscale", .vec2 { x := 5, y := 2.5 }),
                ("model", .mat4 (SetTransformations.modelView fns { x := 20, y := 1, z := 10 } 0 0 0
                  { x := 0, y := 0, z := 0 })) ] ++ sh.uploads } },
           { mesh := .Plane
             shader := some { uploads := [ ("objectColor", .vec4 { x := 1, y := 1, z := 1, w := 0.3 }),
                ("bUseTexture", .int 0),
                ("material.shininess", .float 32),
                ("material.specularColor", .vec3 { x := 0.5, y := 0.5, z := 0.5 }),
                ("material.diffuseColor", .vec3 { x := 0.6, y := 0.4, z := 0.2 }),
                ("material.ambientStrength", .float 0.2),
                ("material.ambientColor", .vec3 { x := 0.2, y := 0.1, z := 0.05 }),
                ("objectTexture", .sampler2D 8),
                ("bUseTexture", .int 1),
                ("UVscale", .vec2 { x := 10, y := 5 }),
                ("model", .mat4 (SetTransformations.modelView fns { x := 20, y := 1.01, z := 10 } 0 0 0
                  { x := 0, y := 0.01, z := 0 })) ] ++ ([ ("material.shininess", .float 32),
                ("material.specularColor", .vec3 { x := 0.5, y := 0.5, z := 0.5 }),
                ("material.diffuseColor", .vec3 { x := 0.6, y := 0.4, z := 0.2 }),
                ("material.ambientStrength", .float 0.2),
                ("material.ambientColor", .vec3 { x := 0.2, y := 0.1, z := 0.05 }),
                ("objectTexture", .sampler2D 0),
                ("bUseTexture", .int 1),
                ("UVscale", .vec2 { x := 5, y := 2.5 }),
                ("model", .mat4 (SetTransformations.modelView fns { x := 20, y := 1, z := 10 } 0 0 0
                  { x := 0, y := 0, z := 0 })) ] ++ sh.uploads) } } ],
          { (LoadSceneTextures.loaded (some sh) textureIDs).DefineObjectMaterials with
            m_pShaderManager := some { uploads := [ ("objectColor", .vec4 { x := 1, y := 1, z := 1, w := 0.3 }),
                ("bUseTexture", .int 0),
                ("material.shininess", .float 32),
                ("material.specularColor", .vec3 { x := 0.5, y := 0.5, z := 0.5 }),
                ("material.diffuseColor", .vec3 { x := 0.6, y := 0.4, z := 0.2 }),
                ("material.ambientStrength", .float 0.2),
                ("material.ambientColor", .vec3 { x := 0.2, y := 0.1, z := 0.05 }),
                ("objectTexture", .sampler2D 8),
                ("bUseTexture", .int 1),
                ("UVscale", .vec2 { x := 10, y := 5 }),
                ("model", .mat4 (SetTransformations.modelView fns { x := 20, y := 1.01, z := 10 } 0 0 0
                  { x := 0, y := 0.01, z := 0 })) ] ++ ([ ("material.shininess", .float 32),
                ("material.specularColor", .vec3 { x := 0.5, y := 0.5, z := 0.5 }),
                ("material.diffuseColor", .vec3 { x := 0.6, y := 0.4, z := 0.2 }),
                ("material.ambientStrength", .float 0.2),
                ("material.ambientColor", .vec3 { x := 0.2, y := 0.1, z := 0.05 }),
                ("objectTexture", .sampler2D 0),
                ("bUseTexture", .int 1),
                ("UVscale", .vec2 { x := 5, y := 2.5 }),
                ("model", .mat4 (SetTransformations.modelView fns { x := 20, y := 1, z := 10 } 0 0 0
                  { x := 0, y := 0, z := 0 })) ] ++ sh.uploads) } }) :=
  rfl

/-- The second table layer is drawn with the sampler on slot 8, the UV scale
(10, 5), the colour (1, 1, 1, 0.3), and with `bUseTexture` 0. -/
theorem tableLayers_run_overlay {F : Type} [Field F] (sh : ShaderManager F)
    (textureIDs : Nat → Nat) (fns : glm.ScalarFns F) (material : OBJECT_MATERIAL F) :
    ∃ (r1 : DrawRecord F) (shd : ShaderManager F) (s1 : SceneManager F),
      (LoadSceneTextures.loaded (some sh) textureIDs).DefineObjectMaterials.runRenderCalls fns
          material (RenderScene.tableSurface ++ RenderScene.tableOverlay) =
        .ok ([r1, { mesh := .Plane, shader := some shd }], s1) ∧
      s1.m_pShaderManager = some shd ∧
      s1.m_loadedTextures ≤ s1.m_textureIDs.length ∧
      shd.uniform "objectTexture" = some (.sampler2D 8) ∧
      shd.uniform "UVscale" = some (.vec2 { x := 10, y := 5 }) ∧
      shd.uniform "objectColor" = some (.vec4 { x := 1, y := 1, z := 1, w := 0.3 }) ∧
      shd.uniform "bUseTexture" = some (.int 0) := by
  refine ⟨_, _, _, tableLayers_run sh textureIDs fns material, rfl, ?_, ?_, ?_, ?_, ?_⟩
  · exact Nat.le_of_ble_eq_true rfl
  · rfl
  · rfl
  · rfl
  · rfl

/-- C22 (what the code does): on the scene prepared by `LoadSceneTextures`
(all loads succeeding) and `DefineObjectMaterials`, with a shader manager
present, `RenderScene` returns, and at the `DrawPlaneMesh` call of the second
table layer the sampler `objectTexture` holds 8, the slot of "table_overlay",
the UV scale is (10, 5) and the colour is (1, 1, 1, 0.3), but `bUseTexture` is
0 (false): the `SetShaderColor` call made after `SetShaderTexture` has
switched texture sampling off. -/
theorem RenderScene_overlay_drawn_untextured {F : Type} [Field F] (sh : ShaderManager F)
    (decode : String → Option Image) (textureIDs : Nat → Nat) (fns : glm.ScalarFns F)
    (material : OBJECT_MATERIAL F)
    (hdec : ∀ file ∈ LoadSceneTextures.requests.map Prod.fst,
      ∃ img, decode file = some img ∧ (img.colorChannels = 3 ∨ img.colorChannels = 4)) :
    ∃ (s0 : SceneManager F) (draws : List (DrawRecord F)) (s2 : SceneManager F)
      (overlay : DrawRecord F) (shd : ShaderManager F),
      (SceneManager.new (some sh)).LoadSceneTextures decode textureIDs = .ok s0 ∧
      s0.DefineObjectMaterials.RenderScene fns material = .ok (draws, s2) ∧
      draws[1]? = some overlay ∧ overlay.mesh = .Plane ∧ overlay.shader = some shd ∧
      s0.DefineObjectMaterials.FindTextureSlot "table_overlay" = .ok 8 ∧
      shd.uniform "objectTexture" = some (.sampler2D 8) ∧
      shd.uniform "UVscale" = some (.vec2 { x := 10, y := 5 }) ∧
      shd.uniform "objectColor" = some (.vec4 { x := 1, y := 1, z := 1, w := 0.3 }) ∧
      shd.uniform "bUseTexture" = some (.int 0) := by
  obtain ⟨r1, shd, s1, hrun, hs1, hcap, hu1, hu2, hu3, hu4⟩ :=
    tableLayers_run_overlay sh textureIDs fns material
  obtain ⟨d2, s2, hrest⟩ := runRenderCalls_ok fns material
    (RenderScene.resetAfterOverlay ++ (RenderScene.vase ++ (RenderScene.stems fns ++
      (RenderScene.pumpkinBody ++ (RenderScene.ridges fns ++ (RenderScene.pumpkinStem ++
        (RenderScene.firstCandle ++ (RenderScene.secondCandle ++
          (RenderScene.book ++ RenderScene.pyramid))))))))) s1 shd hs1 hcap
  have hall := runRenderCalls_append fns material _
    (RenderScene.resetAfterOverlay ++ (RenderScene.vase ++ (RenderScene.stems fns ++
      (RenderScene.pumpkinBody ++ (RenderScene.ridges fns ++ (RenderScene.pumpkinStem ++
        (RenderScene.firstCandle ++ (RenderScene.secondCandle ++
          (RenderScene.book ++ RenderScene.pyramid))))))))) _ _ _ hrun
  rw [hrest] at hall
  simp only [] at hall
  refine ⟨LoadSceneTextures.loaded (some sh) textureIDs,
    [r1, { mesh := .Plane, shader := some shd }] ++ d2, s2,
    { mesh := .Plane, shader := some shd }, shd,
    LoadSceneTextures_eq (some sh) decode textureIDs hdec, ?_, by simp, rfl, rfl, rfl,
    hu1, hu2, hu3, hu4⟩
  unfold RenderScene RenderScene.calls
  rw [← List.append_assoc]
  exact hall

/-- C22 over the reals, every file decoding to a 64 x 64 image with three
channels and the handles 0, 1, 2, ... -/
theorem RenderScene_overlay_drawn_untextured_witness :
    (∀ file ∈ LoadSceneTextures.requests.map Prod.fst,
      ∃ img, (fun _ : String => some ({ width := 64, height := 64, colorChannels := 3 } : Image))
        file = some img ∧ (img.colorChannels = 3 ∨ img.colorChannels = 4)) ∧
    ∃ (draws : List (DrawRecord ℝ)) (s2 : SceneManager ℝ) (overlay : DrawRecord ℝ)
      (shd : ShaderManager ℝ),
      (LoadSceneTextures.loaded (some { uploads := [] }) id).DefineObjectMaterials.RenderScene
          (⟨Real.sin, Real.cos, fun x => (Real.sqrt x)⁻¹, Real.pi / 180⟩ : glm.ScalarFns ℝ) Sample.zeroMaterial = .ok (draws, s2) ∧
      draws[1]? = some overlay ∧ overlay.shader = some shd ∧
      shd.uniform "bUseTexture" = some (.int 0) := by
  have hdec : ∀ file ∈ LoadSceneTextures.requests.map Prod.fst,
      ∃ img, (fun _ : String => some ({ width := 64, height := 64, colorChannels := 3 } : Image))
        file = some img ∧ (img.colorChannels = 3 ∨ img.colorChannels = 4) :=
    fun _ _ => ⟨_, rfl, Or.inl rfl⟩
  obtain ⟨s0, draws, s2, overlay, shd, hload, hrun, hd, -, hsh, -, -, -, -, hb⟩ :=
    RenderScene_overlay_drawn_untextured (F := ℝ) { uploads := [] } _ id
      (⟨Real.sin, Real.cos, fun x => (Real.sqrt x)⁻¹, Real.pi / 180⟩ : glm.ScalarFns ℝ) Sample.zeroMaterial hdec
  rw [LoadSceneTextures_eq (some { uploads := [] }) _ id hdec] at hload
  cases hload
  exact ⟨hdec, draws, s2, overlay, shd, hrun, hd, hsh, hb⟩

/-- The texture tags of two sequences of calls, one after the other. -/
theorem textureTags_append {F : Type} (a b : List (RenderCall F)) :
    textureTags (a ++ b) = textureTags a ++ textureTags b := by
  induction a with
  | nil => rfl
  | cons c rest ih => cases c <;> simp [textureTags, ih]

/-- The material tags of two sequences of calls, one after the other. -/
theorem materialTags_append {F : Type} (a b : List (RenderCall F)) :
    materialTags (a ++ b) = materialTags a ++ materialTags b := by
  induction a with
  | nil => rfl
  | cons c rest ih => cases c <;> simp [materialTags, ih]

/-- The texture tags of a loop are those of its bodies. -/
theorem textureTags_flatMap {F : Type} (l : List Nat) (f : Nat → List (RenderCall F)) :
    textureTags (l.flatMap f) = l.flatMap (fun i => textureTags (f i)) := by
  induction l with
  | nil => rfl
  | cons i rest ih => simp [List.flatMap_cons, textureTags_append, ih]

/-- The material tags of a loop are those of its bodies. -/
theorem materialTags_flatMap {F : Type} (l : List Nat) (f : Nat → List (RenderCall F)) :
    materialTags (l.flatMap f) = l.flatMap (fun i => materialTags (f i)) := by
  induction l with
  | nil => rfl
  | cons i rest ih => simp [List.flatMap_cons, materialTags_append, ih]

/-- Every tag that `RenderScene` passes to `SetShaderTexture` is a tag that
`LoadSceneTextures` registers. -/
theorem textureTags_calls {F : Type} [Field F] (fns : glm.ScalarFns F) (t : String)
    (ht : t ∈ textureTags (RenderScene.calls fns)) :
    t ∈ LoadSceneTextures.requests.map Prod.snd := by
  simp only [RenderScene.calls, RenderScene.stems, RenderScene.ridges, textureTags_append,
    textureTags_flatMap, List.mem_append, List.mem_flatMap] at ht
  simp only [RenderScene.tableSurface, RenderScene.tableOverlay, RenderScene.resetAfterOverlay,
    RenderScene.vase, RenderScene.stem, RenderScene.pumpkinBody, RenderScene.ridge,
    RenderScene.pumpkinStem, RenderScene.firstCandle, RenderScene.secondCandle,
    RenderScene.book, RenderScene.pyramid, textureTags, List.mem_cons, List.mem_singleton,
    List.not_mem_nil, or_false, false_or] at ht
  simp only [LoadSceneTextures.requests, List.map_cons, List.map_nil, List.mem_cons,
    List.mem_singleton, List.not_mem_nil, or_false]
  rcases ht with h | h | h | h | h | h | h | h | h | h | h
  all_goals first
    | (obtain ⟨_, _, h2⟩ := h; rcases h2 with rfl | rfl <;> simp)
    | (rcases h with rfl | rfl | rfl | rfl | rfl | rfl <;> simp)

/-- Every tag that `RenderScene` passes to `SetShaderMaterial` is the tag of a
material that `DefineObjectMaterials` defines. -/
theorem materialTags_calls {F : Type} [Field F] (fns : glm.ScalarFns F) (t : String)
    (ht : t ∈ materialTags (RenderScene.calls fns)) :
    t ∈ (DefineObjectMaterials.materials : List (OBJECT_MATERIAL F)).map (fun m => m.tag) := by
  simp only [RenderScene.calls, RenderScene.stems, RenderScene.ridges, materialTags_append,
    materialTags_flatMap, List.mem_append, List.mem_flatMap] at ht
  simp only [RenderScene.tableSurface, RenderScene.tableOverlay, RenderScene.resetAfterOverlay,
    RenderScene.vase, RenderScene.stem, RenderScene.pumpkinBody, RenderScene.ridge,
    RenderScene.pumpkinStem, RenderScene.firstCandle, RenderScene.secondCandle,
    RenderScene.book, RenderScene.pyramid, materialTags, List.mem_cons, List.mem_singleton,
    List.not_mem_nil, or_false, false_or] at ht
  simp only [DefineObjectMaterials.materials, List.map_cons, List.map_nil, List.mem_cons,
    List.mem_singleton, List.not_mem_nil, or_false]
  rcases ht with h | h | h | h | h | h | h | h | h | h | h
  all_goals first
    | (obtain ⟨_, _, h2⟩ := h; rcases h2 with rfl | rfl <;> simp)
    | (rcases h with rfl | rfl | rfl | rfl | rfl | rfl <;> simp)

/-- C24: on a freshly constructed object on which every image load of
`LoadSceneTextures` succeeds, after `LoadSceneTextures` and
`DefineObjectMaterials` the count of textures is 13, within the 16 entries of
the array, the 13 registered tags are pairwise distinct, there are 11 materials
with pairwise distinct tags, every tag that `RenderScene` passes to
`SetShaderTexture` is found by `FindTextureSlot` in a slot from 0 to 12, and
every tag that `RenderScene` passes to `SetShaderMaterial` is the tag of a
defined material. -/
theorem RenderScene_lookups_hit {F : Type} [Field F]
    (pShaderManager : Option (ShaderManager F)) (decode : String → Option Image)
    (textureIDs : Nat → Nat) (fns : glm.ScalarFns F)
    (hdec : ∀ file ∈ LoadSceneTextures.requests.map Prod.fst,
      ∃ img, decode file = some img ∧ (img.colorChannels = 3 ∨ img.colorChannels = 4)) :
    ∃ s0 : SceneManager F,
      (SceneManager.new pShaderManager).LoadSceneTextures decode textureIDs = .ok s0 ∧
      s0.DefineObjectMaterials.m_loadedTextures = 13 ∧
      s0.DefineObjectMaterials.m_loadedTextures ≤ 16 ∧
      s0.DefineObjectMaterials.m_textureIDs.length = 16 ∧
      ((s0.DefineObjectMaterials.m_textureIDs.take 13).map (fun t => t.tag)).Nodup ∧
      s0.DefineObjectMaterials.m_objectMaterials.length = 11 ∧
      (s0.DefineObjectMaterials.m_objectMaterials.map (fun m => m.tag)).Nodup ∧
      (∀ t ∈ textureTags (RenderScene.calls fns),
        ∃ k : Nat, k ≤ 12 ∧ s0.DefineObjectMaterials.FindTextureSlot t = .ok (k : Int)) ∧
      (∀ t ∈ materialTags (RenderScene.calls fns),
        ∃ m ∈ s0.DefineObjectMaterials.m_objectMaterials, m.tag = t) := by
  have htex : ((LoadSceneTextures.loaded pShaderManager
      textureIDs).DefineObjectMaterials.m_textureIDs.take 13).map (fun t => t.tag) =
      ["table_surface", "vase_bottom", "vase_middle", "vase_top", "flower_stem", "flower_bud", "pumpkin", "pumpkin_stem", "table_overlay", "candle_holder", "candle_wax", "book_cover", "book_pages"] := rfl
  have hmat : (LoadSceneTextures.loaded pShaderManager
      textureIDs).DefineObjectMaterials.m_objectMaterials.map (fun m => m.tag) =
      ["table", "vase_bottom", "vase_middle", "vase_top", "stem", "bud", "pumpkin", "pumpkin_stem", "candle_holder", "candle_wax", "book"] := rfl
  refine ⟨LoadSceneTextures.loaded pShaderManager textureIDs,
    LoadSceneTextures_eq pShaderManager decode textureIDs hdec, rfl,
    Nat.le_of_ble_eq_true rfl, rfl, ?_, rfl, ?_, ?_, ?_⟩
  · rw [htex]
    decide
  · rw [hmat]
    decide
  · intro t ht
    have hmem := textureTags_calls fns t ht
    simp only [LoadSceneTextures.requests, List.map_cons, List.map_nil, List.mem_cons,
      List.mem_singleton, List.not_mem_nil, or_false] at hmem
    rcases hmem with rfl | rfl | rfl | rfl | rfl | rfl | rfl | rfl | rfl | rfl | rfl | rfl | rfl
    · exact ⟨0, by norm_num, rfl⟩
    · exact ⟨1, by norm_num, rfl⟩
    · exact ⟨2, by norm_num, rfl⟩
    · exact ⟨3, by norm_num, rfl⟩
    · exact ⟨4, by norm_num, rfl⟩
    · exact ⟨5, by norm_num, rfl⟩
    · exact ⟨6, by norm_num, rfl⟩
    · exact ⟨7, by norm_num, rfl⟩
    · exact ⟨8, by norm_num, rfl⟩
    · exact ⟨9, by norm_num, rfl⟩
    · exact ⟨10, by norm_num, rfl⟩
    · exact ⟨11, by norm_num, rfl⟩
    · exact ⟨12, by norm_num, rfl⟩
  · intro t ht
    have hmem := materialTags_calls fns t ht
    rw [List.mem_map] at hmem
    obtain ⟨m, hm, rfl⟩ := hmem
    exact ⟨m, by simpa [LoadSceneTextures.loaded, DefineObjectMaterials, SceneManager.new]
      using hm, rfl⟩

/-- C24 with every file decoding to a 64 x 64 image with three channels and
the handles 0, 1, 2, ..., over the reals: "table_overlay", which `RenderScene`
passes to `SetShaderTexture`, is found in a slot up to 12, and "table", which
it passes to `SetShaderMaterial`, is a defined material. -/
theorem RenderScene_lookups_hit_witness :
    (∀ file ∈ LoadSceneTextures.requests.map Prod.fst,
      ∃ img, (fun _ : String => some ({ width := 64, height := 64, colorChannels := 3 } : Image))
        file = some img ∧ (img.colorChannels = 3 ∨ img.colorChannels = 4)) ∧
    ∃ s0 : SceneManager ℝ,
      (SceneManager.new none).LoadSceneTextures
        (fun _ => some { width := 64, height := 64, colorChannels := 3 }) id = .ok s0 ∧
      s0.DefineObjectMaterials.m_loadedTextures = 13 ∧
      s0.DefineObjectMaterials.m_objectMaterials.length = 11 ∧
      (∃ k : Nat, k ≤ 12 ∧
        s0.DefineObjectMaterials.FindTextureSlot "table_overlay" = .ok (k : Int)) ∧
      (∃ m ∈ s0.DefineObjectMaterials.m_objectMaterials, m.tag = "table") := by
  have hdec : ∀ file ∈ LoadSceneTextures.requests.map Prod.fst,
      ∃ img, (fun _ : String => some ({ width := 64, height := 64, colorChannels := 3 } : Image))
        file = some img ∧ (img.colorChannels = 3 ∨ img.colorChannels = 4) :=
    fun _ _ => ⟨_, rfl, Or.inl rfl⟩
  obtain ⟨s0, hload, h13, -, -, -, h11, -, htex, hmat⟩ :=
    RenderScene_lookups_hit (F := ℝ) none _ id
      ⟨Real.sin, Real.cos, fun x => (Real.sqrt x)⁻¹, Real.pi / 180⟩ hdec
  refine ⟨hdec, s0, hload, h13, h11, htex "table_overlay" ?_, hmat "table" ?_⟩
  · rw [RenderScene.calls, textureTags_append, textureTags_append]
    exact List.mem_append_right _ (List.mem_append_left _
      (show "table_overlay" ∈ ["table_overlay"] from List.mem_singleton_self _))
  · rw [RenderScene.calls, materialTags_append]
    exact List.mem_append_left _ (show "table" ∈ ["table"] from List.mem_singleton_self _)

end SceneManager
